import Mathlib

/-!
ANT+ host driver (`antplus.cpp`): message codec, command encoders, channel state machine.

A shallow embedding of the protocol engine of `antplus.cpp`.

* Bytes are natural numbers; a narrowing store into a `uint8_t` is written `% 256`.
* A receive buffer is a function from byte index to byte value, so that the bytes stored
  beyond the received count are part of the input.
* Calls to `write` and to `sendMessage` are recorded, in program order, in an output trace.
* Constants of `antplusdefs.h` whose values neither the source nor the specification fix
  are fields of `AntDefs`.
-/

namespace AntPlus

/-! ## Constants -/

/-- Modelled from the spec: the fixed sync byte `0xA4` of the wire frame
(`MESG_TX_SYNC` of `antplusdefs.h`, which is not part of the sources). -/
def MESG_TX_SYNC : Nat := 0xA4

/-- Modelled from the spec: offset of the sync byte in a frame
`0xA4 | LEN | MSG_ID | DATA[LEN] | XOR_CHECKSUM`. -/
def STREAM_SYNC : Nat := 0

/-- Modelled from the spec: offset of the length byte in a frame. -/
def STREAM_LENGTH : Nat := 1

/-- Modelled from the spec: offset of the message id in a frame. -/
def STREAM_MESSAGE : Nat := 2

/-- Modelled from the spec: offset of the first data byte in a frame. -/
def STREAM_DATA : Nat := 3

/-- Modelled from the spec: message id of the system reset command, the `4A` of the
scenario frame `A4 01 4A 00 EB`. -/
def MESG_SYSTEM_RESET_ID : Nat := 0x4A

/-! ## Message codec -/

/-- A receive buffer: byte index to byte value. -/
abbrev Buffer := Nat → Nat

/-- The buffer holding the bytes of `l` from index 0 on, and zero after them. -/
def bufferOf (l : List Nat) : Buffer := fun i => l.getD i 0

/-- Source `calcMsgChecksum`: `for (i = 0; i < len; i++) checksum ^= buffer[i]`, the
accumulator being a `uint8_t`. -/
def calcMsgChecksum (buffer : List Nat) (len : Nat) : Nat :=
  (List.range len).foldl (fun checksum i => (checksum ^^^ buffer.getD i 0) % 256) 0

/-- The `while (*pos < rlen)` loop of `findStreamSync`; `remaining` is `rlen - *pos`.
Returns the offset of the returned pointer (`none` for `NULL`) and the final `*pos`. -/
def findStreamSyncLoop (stream : Buffer) : Nat → Nat → Option Nat × Nat
  | 0, pos => (none, pos)
  | remaining + 1, pos =>
    if stream pos = MESG_TX_SYNC then (some pos, pos)
    else findStreamSyncLoop stream remaining (pos + 1)

/-- Source `findStreamSync(stream, rlen, pos)`. The bound `(int)rlen` of the loop is `rlen`:
a buffer of `rlen` bytes has fewer than `2^31` bytes on the 32-bit target. -/
def findStreamSync (stream : Buffer) (rlen : Nat) : Option Nat × Nat :=
  findStreamSyncLoop stream rlen 0

/-- The `do { crc ^= stream[STREAM_DATA+mlen]; } while (++mlen < stream[STREAM_LENGTH])`
loop of `msgCheckIntegrity`. The first argument bounds the number of further iterations. -/
def msgCheckIntegrityLoop (stream : Buffer) : Nat → Nat → Nat → Nat
  | 0, mlen, crc => crc ^^^ stream (STREAM_DATA + mlen)
  | fuel + 1, mlen, crc =>
    let crc1 := crc ^^^ stream (STREAM_DATA + mlen)
    if mlen + 1 < stream STREAM_LENGTH then msgCheckIntegrityLoop stream fuel (mlen + 1) crc1
    else crc1

/-- Source `msgCheckIntegrity(stream, len)`. -/
def msgCheckIntegrity (stream : Buffer) (len : Int) : Bool :=
  if len < 5 then false
  else
    let crc := stream STREAM_SYNC ^^^ stream STREAM_LENGTH ^^^ stream STREAM_MESSAGE
    let crc1 := msgCheckIntegrityLoop stream (stream STREAM_LENGTH) 0 crc
    decide (crc1 = stream (stream STREAM_LENGTH + 3))

/-- Source `msgGetLength(stream)`. -/
def msgGetLength (stream : Buffer) : Nat :=
  stream STREAM_LENGTH + 4

/-- The XOR of a list of bytes. -/
def xorAll (l : List Nat) : Nat := l.foldl (fun a b => a ^^^ b) 0

/-- The bytes `stream[from .. from + n)`. -/
def bytesAt (stream : Buffer) (start n : Nat) : List Nat :=
  (List.range n).map (fun i => stream (start + i))

/-- Pointer arithmetic `stream + n` on a buffer. -/
def advance (buffer : Buffer) (n : Nat) : Buffer := fun i => buffer (n + i)

/-- The constants of `antplusdefs.h` (not part of the sources) that the code refers to by
name and whose values the specification does not give. They are parameters of the model. -/
structure AntDefs where
  STREAM_CHANNEL : Nat
  STREAM_EVENT_CHANNEL_ID : Nat
  STREAM_EVENT_RESPONSE_ID : Nat
  STREAM_EVENT_EVENTID : Nat
  STREAM_CHANNEL_ID : Nat
  STREAM_CHANNELSTATUS_STATUS : Nat
  STREAM_CHANNELID_DEVNO_LO : Nat
  STREAM_CHANNELID_DEVNO_HI : Nat
  STREAM_CHANNELID_DEVTYPE : Nat
  STREAM_CHANNELID_TRANTYPE : Nat
  STREAM_RXBROADCAST_DEV120_BEATLO : Nat
  STREAM_RXBROADCAST_DEV120_BEATHI : Nat
  STREAM_RXBROADCAST_DEV120_SEQ : Nat
  STREAM_RXBROADCAST_DEV120_HR : Nat
  MESG_EVENT_ID : Nat
  MESG_VERSION_ID : Nat
  MESG_RESPONSE_EVENT_ID : Nat
  MESG_ASSIGN_CHANNEL_ID : Nat
  MESG_CHANNEL_MESG_PERIOD_ID : Nat
  MESG_CHANNEL_SEARCH_TIMEOUT_ID : Nat
  MESG_CHANNEL_RADIO_FREQ_ID : Nat
  MESG_NETWORK_KEY_ID : Nat
  MESG_SEARCH_WAVEFORM_ID : Nat
  MESG_OPEN_CHANNEL_ID : Nat
  MESG_CLOSE_CHANNEL_ID : Nat
  MESG_REQUEST_ID : Nat
  MESG_BROADCAST_DATA_ID : Nat
  MESG_ACKNOWLEDGED_DATA_ID : Nat
  MESG_BURST_DATA_ID : Nat
  MESG_CHANNEL_ID_ID : Nat
  MESG_CHANNEL_STATUS_ID : Nat
  MESG_CAPABILITIES_ID : Nat
  MESG_EXT_BROADCAST_DATA_ID : Nat
  MESG_EXT_ACKNOWLEDGED_DATA_ID : Nat
  MESG_STARTUP_MESG_ID : Nat
  EVENT_RX_BROADCAST : Nat
  ANT_CHANNEL_STATUS_MASK : Nat
  ANT_CHANNEL_STATUS_UNASSIGNED : Nat
  ANTP_MSG_CHANNELSTATUS : Nat
  ANTP_MSG_DEVICEID : Nat
  ANTP_MSG_PROFILE_DATA : Nat
  PARAMETER_TX_NOT_RX : Nat
  ANT_TRANSMISSION_SLAVE : Nat
  ANT_TRANSMISSION_MASTER : Nat
  ANT_CHANNEL_TYPE_SLAVE : Nat
  ANT_DEVICE_HRM : Nat
  ANT_DEVICE_SPDCAD : Nat
  ANT_DEVICE_POWER : Nat
  ANT_DEVICE_STRIDE : Nat
  ANT_DEVICE_SPEED : Nat
  ANT_DEVICE_CADENCE : Nat
  ANT_PERIOD_HRM : Nat
  ANT_PERIOD_SPDCAD : Nat
  ANT_PERIOD_POWER : Nat
  ANT_PERIOD_STRIDE : Nat
  ANT_PERIOD_SPEED : Nat
  ANT_PERIOD_CADENCE : Nat
  ANT_FREQUENCY_SPORT : Nat
  ANT_FREQUENCY_STRIDE : Nat
  PROFILE_HRM : Nat
  PROFILE_SPDCAD : Nat
  PROFILE_POWER : Nat
  PROFILE_STRIDE : Nat
  PROFILE_SPEED : Nat
  PROFILE_CADENCE : Nat
  PROFILE_TOTAL : Nat

/-- The values these constants have in the ANT message protocol and in the ANT+ device
profiles (the three application message tags `ANTP_MSG_*` are numbered from 1); the
concrete instance on which the definitions are evaluated. -/
def antDefs : AntDefs where
  STREAM_CHANNEL := 3
  STREAM_EVENT_CHANNEL_ID := 0
  STREAM_EVENT_RESPONSE_ID := 1
  STREAM_EVENT_EVENTID := 2
  STREAM_CHANNEL_ID := 0
  STREAM_CHANNELSTATUS_STATUS := 1
  STREAM_CHANNELID_DEVNO_LO := 1
  STREAM_CHANNELID_DEVNO_HI := 2
  STREAM_CHANNELID_DEVTYPE := 3
  STREAM_CHANNELID_TRANTYPE := 4
  STREAM_RXBROADCAST_DEV120_BEATLO := 5
  STREAM_RXBROADCAST_DEV120_BEATHI := 6
  STREAM_RXBROADCAST_DEV120_SEQ := 7
  STREAM_RXBROADCAST_DEV120_HR := 8
  MESG_EVENT_ID := 0x01
  MESG_VERSION_ID := 0x3E
  MESG_RESPONSE_EVENT_ID := 0x40
  MESG_ASSIGN_CHANNEL_ID := 0x42
  MESG_CHANNEL_MESG_PERIOD_ID := 0x43
  MESG_CHANNEL_SEARCH_TIMEOUT_ID := 0x44
  MESG_CHANNEL_RADIO_FREQ_ID := 0x45
  MESG_NETWORK_KEY_ID := 0x46
  MESG_SEARCH_WAVEFORM_ID := 0x49
  MESG_OPEN_CHANNEL_ID := 0x4B
  MESG_CLOSE_CHANNEL_ID := 0x4C
  MESG_REQUEST_ID := 0x4D
  MESG_BROADCAST_DATA_ID := 0x4E
  MESG_ACKNOWLEDGED_DATA_ID := 0x4F
  MESG_BURST_DATA_ID := 0x50
  MESG_CHANNEL_ID_ID := 0x51
  MESG_CHANNEL_STATUS_ID := 0x52
  MESG_CAPABILITIES_ID := 0x54
  MESG_EXT_BROADCAST_DATA_ID := 0x5D
  MESG_EXT_ACKNOWLEDGED_DATA_ID := 0x5E
  MESG_STARTUP_MESG_ID := 0x6F
  EVENT_RX_BROADCAST := 0x9A
  ANT_CHANNEL_STATUS_MASK := 0x03
  ANT_CHANNEL_STATUS_UNASSIGNED := 0
  ANTP_MSG_CHANNELSTATUS := 1
  ANTP_MSG_DEVICEID := 2
  ANTP_MSG_PROFILE_DATA := 3
  PARAMETER_TX_NOT_RX := 0x10
  ANT_TRANSMISSION_SLAVE := 0
  ANT_TRANSMISSION_MASTER := 5
  ANT_CHANNEL_TYPE_SLAVE := 0
  ANT_DEVICE_HRM := 0x78
  ANT_DEVICE_SPDCAD := 0x79
  ANT_DEVICE_POWER := 0x0B
  ANT_DEVICE_STRIDE := 0x7C
  ANT_DEVICE_SPEED := 0x7B
  ANT_DEVICE_CADENCE := 0x7A
  ANT_PERIOD_HRM := 8070
  ANT_PERIOD_SPDCAD := 8086
  ANT_PERIOD_POWER := 8182
  ANT_PERIOD_STRIDE := 8134
  ANT_PERIOD_SPEED := 8118
  ANT_PERIOD_CADENCE := 8102
  ANT_FREQUENCY_SPORT := 57
  ANT_FREQUENCY_STRIDE := 57
  PROFILE_HRM := 0
  PROFILE_SPDCAD := 1
  PROFILE_POWER := 2
  PROFILE_STRIDE := 3
  PROFILE_SPEED := 4
  PROFILE_CADENCE := 5
  PROFILE_TOTAL := 6

/-- One call `message_event(stream[STREAM_CHANNEL], stream[STREAM_MESSAGE],
&stream[STREAM_DATA], stream[STREAM_LENGTH])` made by `handleMessages`; `payload` is the
buffer index the pointer `&stream[STREAM_DATA]` refers to. -/
structure Dispatch where
  channel : Nat
  msgId : Nat
  payload : Nat
  dataLength : Nat
deriving DecidableEq, Repr

/-- The `while (tBytes > 0)` loop of `handleMessages`; `stream` is the buffer index the
pointer `stream` refers to. Returns the calls of `message_event` in order and the returned
value; `none` only if the iteration bound (first argument) is used up. -/
def handleMessagesLoop (K : AntDefs) (buffer : Buffer) :
    Nat → Nat → Int → Option (List Dispatch × Nat)
  | 0, _, tBytes => if tBytes > 0 then none else some ([], 1)
  | fuel + 1, stream, tBytes =>
    if tBytes > 0 then
      match findStreamSync (advance buffer stream) tBytes.toNat with
      | (none, _) => some ([], 0)
      | (some off, syncOffset) =>
        let stream1 := stream + off
        let tBytes1 := tBytes - (syncOffset : Int)
        if !msgCheckIntegrity (advance buffer stream1) tBytes1 then some ([], 0)
        else
          let d : Dispatch :=
            { channel := buffer (stream1 + K.STREAM_CHANNEL)
              msgId := buffer (stream1 + STREAM_MESSAGE)
              payload := stream1 + STREAM_DATA
              dataLength := buffer (stream1 + STREAM_LENGTH) }
          let len := msgGetLength (advance buffer stream1)
          match handleMessagesLoop K buffer fuel (stream1 + len) (tBytes1 - (len : Int)) with
          | none => none
          | some (ds, r) => some (d :: ds, r)
    else some ([], 1)

/-- Source `handleMessages(buffer, tBytes)`: every iteration that continues consumes at
least four bytes, so `tBytes` iterations are enough. -/
def handleMessages (K : AntDefs) (buffer : Buffer) (tBytes : Int) : Option (List Dispatch × Nat) :=
  handleMessagesLoop K buffer tBytes.toNat 0 tBytes

/-- The data bytes `payload[0 .. dataLength)` a dispatched message carries. -/
def Dispatch.data (buffer : Buffer) (d : Dispatch) : List Nat :=
  bytesAt buffer d.payload d.dataLength

/-- A frame of the wire format `0xA4 | LEN | MSG_ID | DATA[LEN] | XOR_CHECKSUM`, given by
its message id and its data bytes; the inputs of the decoding claims are built from these. -/
structure Frame where
  msgId : Nat
  data : List Nat
deriving DecidableEq, Repr

/-- The bytes of a frame: sync byte, number of data bytes, message id, the data bytes and
the XOR of all these. -/
def Frame.bytes (f : Frame) : List Nat :=
  (MESG_TX_SYNC :: f.data.length :: f.msgId :: f.data) ++
    [xorAll (MESG_TX_SYNC :: f.data.length :: f.msgId :: f.data)]

/-- A stretch of a receive buffer: a run of bytes (`junk`) followed by one frame. -/
structure Segment where
  junk : List Nat
  frame : Frame
deriving DecidableEq, Repr

/-- The bytes of a sequence of segments, in order. -/
def segmentsBytes : List Segment → List Nat
  | [] => []
  | s :: segs => s.junk ++ s.frame.bytes ++ segmentsBytes segs

/-! ## Command encoders -/

/-- The arguments of one call `write(msg, size)`: the bytes of `msg` and `size`. -/
structure WriteCall where
  data : List Nat
  size : Nat
deriving DecidableEq, Repr

/-- The conversion `(uint8_t)x` of an `int`. -/
def u8 (x : Int) : Nat := (x % 256).toNat

/-- The bit pattern of a 32-bit two's complement `int`. -/
def toU32 (x : Int) : Nat := (x % 4294967296).toNat

/-- The 32-bit two's complement `int` with the given bit pattern. -/
def ofU32 (n : Nat) : Int := if n < 2147483648 then (n : Int) else (n : Int) - 4294967296

/-- The operator `&` on two `int`s. -/
def andInt (x y : Int) : Int := ofU32 (toU32 x &&& toU32 y)

/-- Source `ResetSystem`. -/
def ResetSystem : WriteCall :=
  let msg := [MESG_TX_SYNC % 256, 1, MESG_SYSTEM_RESET_ID % 256, 0]
  ⟨msg ++ [calcMsgChecksum msg 4], 5⟩

/-- Source `RequestMessage`. -/
def RequestMessage (K : AntDefs) (channel message : Int) : WriteCall :=
  let msg := [MESG_TX_SYNC % 256, 2, K.MESG_REQUEST_ID % 256, u8 channel, u8 message]
  ⟨msg ++ [calcMsgChecksum msg 5], 6⟩

/-- Source `SetNetworkKey`; `key` lists the bytes the pointer refers to. -/
def SetNetworkKey (K : AntDefs) (netNumber : Int) (key : List Nat) : WriteCall :=
  let msg := [MESG_TX_SYNC % 256, 9, K.MESG_NETWORK_KEY_ID % 256, u8 netNumber,
    key.getD 0 0 % 256, key.getD 1 0 % 256, key.getD 2 0 % 256, key.getD 3 0 % 256,
    key.getD 4 0 % 256, key.getD 5 0 % 256, key.getD 6 0 % 256, key.getD 7 0 % 256]
  ⟨msg ++ [calcMsgChecksum msg 12], 13⟩

/-- Source `SetChannelSearchTimeout`. -/
def SetChannelSearchTimeout (K : AntDefs) (channel searchTimeout : Int) : WriteCall :=
  let msg := [MESG_TX_SYNC % 256, 2, K.MESG_CHANNEL_SEARCH_TIMEOUT_ID % 256, u8 channel,
    u8 searchTimeout]
  ⟨msg ++ [calcMsgChecksum msg 5], 6⟩

/-- Source `SetChannelPeriod`. -/
def SetChannelPeriod (K : AntDefs) (channel period : Int) : WriteCall :=
  let msg := [MESG_TX_SYNC % 256, 3, K.MESG_CHANNEL_MESG_PERIOD_ID % 256, u8 channel,
    u8 (andInt period 0xFF), u8 (period >>> 8)]
  ⟨msg ++ [calcMsgChecksum msg 6], 7⟩

/-- Source `SetChannelRFFreq`. -/
def SetChannelRFFreq (K : AntDefs) (channel freq : Int) : WriteCall :=
  let msg := [MESG_TX_SYNC % 256, 2, K.MESG_CHANNEL_RADIO_FREQ_ID % 256, u8 channel, u8 freq]
  ⟨msg ++ [calcMsgChecksum msg 5], 6⟩

/-- Source `SetSearchWaveform`: the casts bind before `&` and `>>`, so the stored bytes are
`((uint8_t)wave) & 0xFF` and `((uint8_t)wave) >> 8`. -/
def SetSearchWaveform (K : AntDefs) (channel wave : Int) : WriteCall :=
  let msg := [MESG_TX_SYNC % 256, 3, K.MESG_SEARCH_WAVEFORM_ID % 256, u8 channel,
    (u8 wave &&& 0xFF) % 256, (u8 wave >>> 8) % 256]
  ⟨msg ++ [calcMsgChecksum msg 6], 7⟩

/-- Source `OpenChannel`. -/
def OpenChannel (K : AntDefs) (channel : Int) : WriteCall :=
  let msg := [MESG_TX_SYNC % 256, 1, K.MESG_OPEN_CHANNEL_ID % 256, u8 channel]
  ⟨msg ++ [calcMsgChecksum msg 4], 5⟩

/-- Source `CloseChannel`. -/
def CloseChannel (K : AntDefs) (channel : Int) : WriteCall :=
  let msg := [MESG_TX_SYNC % 256, 1, K.MESG_CLOSE_CHANNEL_ID % 256, u8 channel]
  ⟨msg ++ [calcMsgChecksum msg 4], 5⟩

/-- Source `AssignChannel`. -/
def AssignChannel (K : AntDefs) (channel channelType network : Int) : WriteCall :=
  let msg := [MESG_TX_SYNC % 256, 3, K.MESG_ASSIGN_CHANNEL_ID % 256, u8 channel,
    u8 channelType, u8 network]
  ⟨msg ++ [calcMsgChecksum msg 6], 7⟩

/-- Source `SetChannelId`. -/
def SetChannelId (K : AntDefs) (channel deviceNum deviceType transmissionType : Int) :
    WriteCall :=
  let msg := [MESG_TX_SYNC % 256, 5, K.MESG_CHANNEL_ID_ID % 256, u8 channel,
    u8 (andInt deviceNum 0xFF), u8 (deviceNum >>> 8), u8 deviceType, u8 transmissionType]
  ⟨msg ++ [calcMsgChecksum msg 8], 9⟩

/-- Source `SendBurstTransferPacket`; `data` lists the bytes the pointer refers to, here and
in the other data encoders. -/
def SendBurstTransferPacket (K : AntDefs) (channelSeq : Int) (data : List Nat) : WriteCall :=
  let msg := [MESG_TX_SYNC % 256, 9, K.MESG_BURST_DATA_ID % 256, u8 channelSeq,
    data.getD 0 0 % 256, data.getD 1 0 % 256, data.getD 2 0 % 256, data.getD 3 0 % 256,
    data.getD 4 0 % 256, data.getD 5 0 % 256, data.getD 6 0 % 256, data.getD 7 0 % 256]
  ⟨msg ++ [calcMsgChecksum msg 12], 13⟩

/-- Source `SendBroadcastData`. -/
def SendBroadcastData (K : AntDefs) (channel : Int) (data : List Nat) : WriteCall :=
  let msg := [MESG_TX_SYNC % 256, 9, K.MESG_BROADCAST_DATA_ID % 256, u8 channel,
    data.getD 0 0 % 256, data.getD 1 0 % 256, data.getD 2 0 % 256, data.getD 3 0 % 256,
    data.getD 4 0 % 256, data.getD 5 0 % 256, data.getD 6 0 % 256, data.getD 7 0 % 256]
  ⟨msg ++ [calcMsgChecksum msg 12], 13⟩

/-- Source `SendAcknowledgedData`. -/
def SendAcknowledgedData (K : AntDefs) (channel : Int) (data : List Nat) : WriteCall :=
  let msg := [MESG_TX_SYNC % 256, 9, K.MESG_ACKNOWLEDGED_DATA_ID % 256, u8 channel,
    data.getD 0 0 % 256, data.getD 1 0 % 256, data.getD 2 0 % 256, data.getD 3 0 % 256,
    data.getD 4 0 % 256, data.getD 5 0 % 256, data.getD 6 0 % 256, data.getD 7 0 % 256]
  ⟨msg ++ [calcMsgChecksum msg 12], 13⟩

/-- Source `SendExtAcknowledgedData`. -/
def SendExtAcknowledgedData (K : AntDefs) (channel devNum devType TranType : Int)
    (data : List Nat) : WriteCall :=
  let msg := [MESG_TX_SYNC % 256, 13, K.MESG_EXT_ACKNOWLEDGED_DATA_ID % 256, u8 channel,
    u8 (andInt devNum 0xFF), u8 (devNum >>> 8), u8 devType, u8 TranType,
    data.getD 0 0 % 256, data.getD 1 0 % 256, data.getD 2 0 % 256, data.getD 3 0 % 256,
    data.getD 4 0 % 256, data.getD 5 0 % 256, data.getD 6 0 % 256, data.getD 7 0 % 256]
  ⟨msg ++ [calcMsgChecksum msg 16], 17⟩

/-- Source `SendExtBroadcastData`. -/
def SendExtBroadcastData (K : AntDefs) (channel devNum devType TranType : Int)
    (data : List Nat) : WriteCall :=
  let msg := [MESG_TX_SYNC % 256, 13, K.MESG_EXT_BROADCAST_DATA_ID % 256, u8 channel,
    u8 (andInt devNum 0xFF), u8 (devNum >>> 8), u8 devType, u8 TranType,
    data.getD 0 0 % 256, data.getD 1 0 % 256, data.getD 2 0 % 256, data.getD 3 0 % 256,
    data.getD 4 0 % 256, data.getD 5 0 % 256, data.getD 6 0 % 256, data.getD 7 0 % 256]
  ⟨msg ++ [calcMsgChecksum msg 16], 17⟩

/-- Source `SendExtBurstTransferPacket`; its message id is `MESG_EXT_BROADCAST_DATA_ID`. -/
def SendExtBurstTransferPacket (K : AntDefs) (chanSeq devNum devType TranType : Int)
    (data : List Nat) : WriteCall :=
  let msg := [MESG_TX_SYNC % 256, 13, K.MESG_EXT_BROADCAST_DATA_ID % 256, u8 chanSeq,
    u8 (andInt devNum 0xFF), u8 (devNum >>> 8), u8 devType, u8 TranType,
    data.getD 0 0 % 256, data.getD 1 0 % 256, data.getD 2 0 % 256, data.getD 3 0 % 256,
    data.getD 4 0 % 256, data.getD 5 0 % 256, data.getD 6 0 % 256, data.getD 7 0 % 256]
  ⟨msg ++ [calcMsgChecksum msg 16], 17⟩

/-- The seventeen command encoders with their arguments. -/
inductive Command where
  | resetSystem
  | requestMessage (channel message : Int)
  | setNetworkKey (netNumber : Int) (key : List Nat)
  | assignChannel (channel channelType network : Int)
  | setChannelId (channel deviceNum deviceType transmissionType : Int)
  | setChannelPeriod (channel period : Int)
  | setChannelSearchTimeout (channel searchTimeout : Int)
  | setChannelRFFreq (channel freq : Int)
  | setSearchWaveform (channel wave : Int)
  | openChannel (channel : Int)
  | closeChannel (channel : Int)
  | sendBroadcastData (channel : Int) (data : List Nat)
  | sendAcknowledgedData (channel : Int) (data : List Nat)
  | sendExtBroadcastData (channel devNum devType TranType : Int) (data : List Nat)
  | sendExtAcknowledgedData (channel devNum devType TranType : Int) (data : List Nat)
  | sendBurstTransferPacket (channelSeq : Int) (data : List Nat)
  | sendExtBurstTransferPacket (chanSeq devNum devType TranType : Int) (data : List Nat)

/-- The call of `write` the encoder makes. -/
def Command.submit (K : AntDefs) : Command → WriteCall
  | .resetSystem => ResetSystem
  | .requestMessage c m => RequestMessage K c m
  | .setNetworkKey n key => SetNetworkKey K n key
  | .assignChannel c t n => AssignChannel K c t n
  | .setChannelId c n t x => SetChannelId K c n t x
  | .setChannelPeriod c p => SetChannelPeriod K c p
  | .setChannelSearchTimeout c t => SetChannelSearchTimeout K c t
  | .setChannelRFFreq c f => SetChannelRFFreq K c f
  | .setSearchWaveform c w => SetSearchWaveform K c w
  | .openChannel c => OpenChannel K c
  | .closeChannel c => CloseChannel K c
  | .sendBroadcastData c d => SendBroadcastData K c d
  | .sendAcknowledgedData c d => SendAcknowledgedData K c d
  | .sendExtBroadcastData c n t x d => SendExtBroadcastData K c n t x d
  | .sendExtAcknowledgedData c n t x d => SendExtAcknowledgedData K c n t x d
  | .sendBurstTransferPacket c d => SendBurstTransferPacket K c d
  | .sendExtBurstTransferPacket c n t x d => SendExtBurstTransferPacket K c n t x d

/-- The message id constant each encoder stores in byte 2. -/
def Command.msgId (K : AntDefs) : Command → Nat
  | .resetSystem => MESG_SYSTEM_RESET_ID
  | .requestMessage _ _ => K.MESG_REQUEST_ID
  | .setNetworkKey _ _ => K.MESG_NETWORK_KEY_ID
  | .assignChannel _ _ _ => K.MESG_ASSIGN_CHANNEL_ID
  | .setChannelId _ _ _ _ => K.MESG_CHANNEL_ID_ID
  | .setChannelPeriod _ _ => K.MESG_CHANNEL_MESG_PERIOD_ID
  | .setChannelSearchTimeout _ _ => K.MESG_CHANNEL_SEARCH_TIMEOUT_ID
  | .setChannelRFFreq _ _ => K.MESG_CHANNEL_RADIO_FREQ_ID
  | .setSearchWaveform _ _ => K.MESG_SEARCH_WAVEFORM_ID
  | .openChannel _ => K.MESG_OPEN_CHANNEL_ID
  | .closeChannel _ => K.MESG_CLOSE_CHANNEL_ID
  | .sendBroadcastData _ _ => K.MESG_BROADCAST_DATA_ID
  | .sendAcknowledgedData _ _ => K.MESG_ACKNOWLEDGED_DATA_ID
  | .sendExtBroadcastData _ _ _ _ _ => K.MESG_EXT_BROADCAST_DATA_ID
  | .sendExtAcknowledgedData _ _ _ _ _ => K.MESG_EXT_ACKNOWLEDGED_DATA_ID
  | .sendBurstTransferPacket _ _ => K.MESG_BURST_DATA_ID
  | .sendExtBurstTransferPacket _ _ _ _ _ => K.MESG_EXT_BROADCAST_DATA_ID

/-- The number of data bytes each encoder declares in byte 1. -/
def Command.dataLen : Command → Nat
  | .resetSystem => 1
  | .requestMessage _ _ => 2
  | .setNetworkKey _ _ => 9
  | .assignChannel _ _ _ => 3
  | .setChannelId _ _ _ _ => 5
  | .setChannelPeriod _ _ => 3
  | .setChannelSearchTimeout _ _ => 2
  | .setChannelRFFreq _ _ => 2
  | .setSearchWaveform _ _ => 3
  | .openChannel _ => 1
  | .closeChannel _ => 1
  | .sendBroadcastData _ _ => 9
  | .sendAcknowledgedData _ _ => 9
  | .sendExtBroadcastData _ _ _ _ _ => 13
  | .sendExtAcknowledgedData _ _ _ _ _ => 13
  | .sendBurstTransferPacket _ _ => 9
  | .sendExtBurstTransferPacket _ _ _ _ _ => 13

/-! ## Transmit queue -/

/-- The transmit ring buffer of the driver object: `txbuffer` (its length is
`sizeof(txbuffer)`, which the header fixes), `txhead`, `txtail`, `txready`. -/
structure TxQueue where
  txbuffer : List Nat
  txhead : Nat
  txtail : Nat
  txready : Bool
deriving DecidableEq, Repr

/-- One call `queue_Data_Transfer(txpipe, txbuffer + offset, size, this)`. -/
structure Transfer where
  offset : Nat
  size : Nat
deriving DecidableEq, Repr

/-- The queue state `claim` sets up: `txhead = txtail = 0`, a zeroed buffer, `txready`. -/
def claimQueue (sizeofTxbuffer : Nat) : TxQueue :=
  ⟨List.replicate sizeofTxbuffer 0, 0, 0, true⟩

/-- Source `transmit`. -/
def transmit (q : TxQueue) : TxQueue × Option Transfer :=
  if !q.txready then (q, none)
  else if q.txhead = q.txtail then (q, none)
  else
    let tail := if q.txtail + 1 ≥ q.txbuffer.length then 0 else q.txtail + 1
    let size := q.txbuffer.getD tail 0
    if size = 0xFF then
      ({ q with txtail := 0, txready := false }, some ⟨0 + 1, q.txbuffer.getD 0 0⟩)
    else ({ q with txready := false }, some ⟨tail + 1, size⟩)

/-- The call `memcpy(txbuffer + dst, data, size)`. -/
def memcpy (txbuffer : List Nat) (dst : Nat) (data : List Nat) (size : Nat) : List Nat :=
  (List.range size).foldl (fun b i => b.set (dst + i) (data.getD i 0)) txbuffer

/-- Source `write(data, size)` run without an interleaved transfer completion: the returned
value, the queue afterwards and the transfer submitted. `none` when the loop
`do { ... } while (avail < size + 1)` finds too little space, in which case it spins until a
completion interrupt moves `txtail`. -/
def write (q : TxQueue) (data : List Nat) (size : Nat) :
    Option (Nat × TxQueue × Option Transfer) :=
  if size > 64 then some (0, q, none)
  else
    let head0 := if q.txhead + 1 ≥ q.txbuffer.length then 0 else q.txhead + 1
    let remain := q.txbuffer.length - head0
    let buf1 := if remain < size + 1 then q.txbuffer.set head0 0xFF else q.txbuffer
    let head := if remain < size + 1 then 0 else head0
    let avail := if head > q.txtail then q.txbuffer.length - head + q.txtail
      else q.txtail - head
    if avail < size + 1 then none
    else
      let buf2 := buf1.set head (size % 256)
      let buf3 := memcpy buf2 (head + 1) data size
      let r := transmit { q with txbuffer := buf3, txhead := head + size }
      some (size, r.1, r.2)

/-- Source `tx_data(transfer)`; `*(p-1)` is the length byte stored before the transfer's
bytes. -/
def tx_data (q : TxQueue) (t : Transfer) : TxQueue × Option Transfer :=
  transmit { q with txtail := q.txtail + (q.txbuffer.getD (t.offset - 1) 0 + 1), txready := true }

/-! ## Channel configuration -/

/-- Modelled from the spec: the flag set `{chanIdOnce, channelStatus, channelStatusOld,
keyAccepted, profileValid}` of a channel configuration (declared in the header, which is
not part of the sources). -/
structure Flags where
  chanIdOnce : Nat
  channelStatus : Nat
  channelStatusOld : Nat
  keyAccepted : Nat
  profileValid : Nat
deriving DecidableEq, Repr

/-- Modelled from the spec: the device identity `{deviceId, deviceType, transType}`. -/
structure TDEVICE where
  deviceId : Nat
  deviceType : Nat
  transType : Nat
deriving DecidableEq, Repr

/-- Modelled from the spec: the channel configuration `TDCONFIG` (declared in the header,
which is not part of the sources), with the field names the source uses. -/
structure TDCONFIG where
  deviceNumber : Nat
  deviceType : Nat
  transType : Nat
  channelType : Nat
  networkNumber : Nat
  channel : Nat
  channelPeriod : Nat
  RFFreq : Nat
  searchTimeout : Nat
  searchWaveform : Nat
  flags : Flags
  dev : TDEVICE
deriving DecidableEq, Repr

/-- The flags every `profileSetup_*` stores. -/
def setupFlags (K : AntDefs) : Flags :=
  { chanIdOnce := 0
    channelStatus := K.ANT_CHANNEL_STATUS_UNASSIGNED
    channelStatusOld := 0xFF
    keyAccepted := 0
    profileValid := 1 }

/-- Source `profileSetup_HRM`. -/
def profileSetup_HRM (K : AntDefs) (cfg : TDCONFIG) (deviceId : Nat) : TDCONFIG :=
  { cfg with
    deviceNumber := deviceId
    deviceType := K.ANT_DEVICE_HRM
    transType := K.ANT_TRANSMISSION_SLAVE
    channelType := K.ANT_CHANNEL_TYPE_SLAVE
    networkNumber := 0
    channel := K.PROFILE_HRM
    channelPeriod := K.ANT_PERIOD_HRM
    RFFreq := K.ANT_FREQUENCY_SPORT
    searchTimeout := 255
    searchWaveform := 0x53
    flags := setupFlags K }

/-- Source `profileSetup_SPDCAD`. -/
def profileSetup_SPDCAD (K : AntDefs) (cfg : TDCONFIG) (deviceId : Nat) : TDCONFIG :=
  { cfg with
    deviceNumber := deviceId
    deviceType := K.ANT_DEVICE_SPDCAD
    transType := K.ANT_TRANSMISSION_SLAVE
    channelType := K.ANT_CHANNEL_TYPE_SLAVE
    networkNumber := 0
    channel := K.PROFILE_SPDCAD
    channelPeriod := K.ANT_PERIOD_SPDCAD
    RFFreq := K.ANT_FREQUENCY_SPORT
    searchTimeout := 255
    searchWaveform := 0x53
    flags := setupFlags K }

/-- Source `profileSetup_POWER`. -/
def profileSetup_POWER (K : AntDefs) (cfg : TDCONFIG) (deviceId : Nat) : TDCONFIG :=
  { cfg with
    deviceNumber := deviceId
    deviceType := K.ANT_DEVICE_POWER
    transType := K.ANT_TRANSMISSION_SLAVE
    channelType := K.ANT_CHANNEL_TYPE_SLAVE
    networkNumber := 0
    channel := K.PROFILE_POWER
    channelPeriod := K.ANT_PERIOD_POWER
    RFFreq := K.ANT_FREQUENCY_SPORT
    searchTimeout := 255
    searchWaveform := 0x53
    flags := setupFlags K }

/-- Source `profileSetup_STRIDE`. -/
def profileSetup_STRIDE (K : AntDefs) (cfg : TDCONFIG) (deviceId : Nat) : TDCONFIG :=
  { cfg with
    deviceNumber := deviceId
    deviceType := K.ANT_DEVICE_STRIDE
    transType := K.ANT_TRANSMISSION_SLAVE
    channelType := K.ANT_CHANNEL_TYPE_SLAVE
    networkNumber := 0
    channel := K.PROFILE_STRIDE
    channelPeriod := K.ANT_PERIOD_STRIDE
    RFFreq := K.ANT_FREQUENCY_STRIDE
    searchTimeout := 255
    searchWaveform := 0x53
    flags := setupFlags K }

/-- Source `profileSetup_SPEED`. -/
def profileSetup_SPEED (K : AntDefs) (cfg : TDCONFIG) (deviceId : Nat) : TDCONFIG :=
  { cfg with
    deviceNumber := deviceId
    deviceType := K.ANT_DEVICE_SPEED
    transType := K.ANT_TRANSMISSION_SLAVE
    channelType := K.ANT_CHANNEL_TYPE_SLAVE
    networkNumber := 0
    channel := K.PROFILE_SPEED
    channelPeriod := K.ANT_PERIOD_SPEED
    RFFreq := K.ANT_FREQUENCY_SPORT
    searchTimeout := 255
    searchWaveform := 0x53
    flags := setupFlags K }

/-- Source `profileSetup_CADENCE`. -/
def profileSetup_CADENCE (K : AntDefs) (cfg : TDCONFIG) (deviceId : Nat) : TDCONFIG :=
  { cfg with
    deviceNumber := deviceId
    deviceType := K.ANT_DEVICE_CADENCE
    transType := K.ANT_TRANSMISSION_SLAVE
    channelType := K.ANT_CHANNEL_TYPE_SLAVE
    networkNumber := 0
    channel := K.PROFILE_CADENCE
    channelPeriod := K.ANT_PERIOD_CADENCE
    RFFreq := K.ANT_FREQUENCY_SPORT
    searchTimeout := 255
    searchWaveform := 0x53
    flags := setupFlags K }

/-! ## Profile payload storage and decoders -/

/-- Source `enum _akeys`: `KEY_TOTAL`. -/
def KEY_TOTAL : Nat := 4

/-- Source table `antkeys`. -/
def antkeys : List (List Nat) :=
  [[0xB9, 0xA5, 0x21, 0xFB, 0xBD, 0x72, 0xC3, 0x45],
   [0xB9, 0xAD, 0x32, 0x28, 0x75, 0x7E, 0xC7, 0x4D],
   [0xA8, 0xA4, 0x23, 0xB9, 0xF5, 0x5E, 0x63, 0xC1],
   [0x00, 0x00, 0x00, 0x00, 0x00, 0x00, 0x00, 0x00]]

/-- Source `getAntKey`; `none` is `NULL`. -/
def getAntKey (keyIdx : Nat) : Option (List Nat) :=
  if keyIdx ≥ KEY_TOTAL then none else antkeys[keyIdx]?

/-- Source `#define WHEEL_CIRCUMFERENCE`. -/
def WHEEL_CIRCUMFERENCE : Nat := 2122

/-- The `current` and `previous` blocks of `payload_HRM_t`. -/
structure HRMSample where
  time : Nat
  interval : Nat
  bpm : Nat
  sequence : Nat
deriving DecidableEq, Repr

/-- Source `payload_HRM_t`. -/
structure payload_HRM_t where
  current : HRMSample
  previous : HRMSample
deriving DecidableEq, Repr

/-- The `current` and `previous` blocks of `payload_SPDCAD_t`. -/
structure SPDCADSample where
  cadenceTime : Nat
  cadence : Nat
  cadenceCt : Nat
  speedTime : Nat
  speed : Nat
  speedCt : Nat
  distance : Nat
deriving DecidableEq, Repr

/-- Source `payload_SPDCAD_t`. -/
structure payload_SPDCAD_t where
  current : SPDCADSample
  previous : SPDCADSample
  wheelCircumference : Nat
  spdChange : Nat
  cadChange : Nat
deriving DecidableEq, Repr

/-- The `current` and `previous` blocks of `payload_STRIDE_t`. -/
structure STRIDESample where
  speed : Nat
  cadence : Nat
  strides : Nat
deriving DecidableEq, Repr

/-- Source `payload_STRIDE_t`. -/
structure payload_STRIDE_t where
  current : STRIDESample
  previous : STRIDESample
deriving DecidableEq, Repr

/-- The `current` and `previous` blocks of `payload_SPEED_t`. -/
structure SPEEDSample where
  speedTime : Nat
  speed : Nat
  speedCt : Nat
  distance : Nat
deriving DecidableEq, Repr

/-- Source `payload_SPEED_t`. -/
structure payload_SPEED_t where
  current : SPEEDSample
  previous : SPEEDSample
  wheelCircumference : Nat
  spdChange : Nat
deriving DecidableEq, Repr

/-- The `current` and `previous` blocks of `payload_CADENCE_t`. -/
structure CADENCESample where
  cadenceTime : Nat
  cadence : Nat
  cadenceCt : Nat
deriving DecidableEq, Repr

/-- Source `payload_CADENCE_t`. -/
structure payload_CADENCE_t where
  current : CADENCESample
  previous : CADENCESample
  cadChange : Nat
deriving DecidableEq, Repr

/-- Source `payload_genstorage_t`, the static `payload` (no field of `payload_POWER_t` is
ever accessed). -/
structure payload_genstorage_t where
  hrm : payload_HRM_t
  spdcad : payload_SPDCAD_t
  stride : payload_STRIDE_t
  spd : payload_SPEED_t
  cad : payload_CADENCE_t
deriving DecidableEq, Repr

/-- The single-precision computations of the speed decoders lie outside the integer
embedding; the values they store are taken as parameters, as functions of the integer
operands: `speed100 speedRotationDelta timeDifference wheelCircumference` is the value stored
in `current.speed`, and `addDistance distance speedRotationDelta wheelCircumference` the
value of `current.distance` after `current.distance += distance`. -/
structure FloatOps where
  speed100 : Nat → Int → Nat → Nat
  addDistance : Nat → Nat → Nat → Nat

/-- One observable output: a call `write(msg, size)` made by a command encoder, or a call
`sendMessage(msg, value1, value2)` of the application sink. -/
inductive Out where
  | write (call : WriteCall)
  | sendMessage (msg : Nat) (value2 : Nat)
deriving DecidableEq, Repr

/-- An `int` computation result reduced to 32 bits (two's complement). -/
def wrap32 (x : Int) : Int := ofU32 (toU32 x)

/-- The 16-bit little-endian field `data[lo] | (data[lo + 1] << 8)` stored in a `uint16_t`. -/
def le16 (data : Buffer) (lo : Nat) : Nat :=
  (data lo ||| (data (lo + 1) <<< 8)) % 65536

/-- The expression `(60 * (ct - prevCt) * 1024) / (time - prevTime)` on `uint16_t` operands
promoted to `int`, converted to `uint16_t`; `none` when the divisor is zero. -/
def cadenceCalc (ct prevCt time prevTime : Nat) : Option Nat :=
  let divisor : Int := (time : Int) - (prevTime : Int)
  if divisor = 0 then none
  else
    let num := wrap32 (wrap32 (60 * ((ct : Int) - (prevCt : Int))) * 1024)
    some ((Int.tdiv num divisor) % 65536).toNat

/-- Source `payload_HRM`. -/
def payload_HRM (K : AntDefs) (hrm : payload_HRM_t) (data : Buffer) :
    Option (payload_HRM_t × List Out) :=
  let cur : HRMSample := { hrm.current with
    bpm := data K.STREAM_RXBROADCAST_DEV120_HR % 256
    sequence := data K.STREAM_RXBROADCAST_DEV120_SEQ % 256 }
  if hrm.previous.sequence ≠ cur.sequence ∨ hrm.previous.bpm ≠ cur.bpm then
    if cur.bpm ≠ 0 then
      let time := (data K.STREAM_RXBROADCAST_DEV120_BEATLO +
        (data K.STREAM_RXBROADCAST_DEV120_BEATHI <<< 8)) % 65536
      let interval0 := (((time : Int) - (hrm.previous.time : Int)) % 65536).toNat
      let interval := ((interval0 * 1000) / 1024) % 65536
      let cur1 : HRMSample := { cur with time := time, interval := interval }
      let prev1 : HRMSample :=
        { time := cur1.time, interval := cur1.interval, sequence := cur1.sequence, bpm := cur1.bpm }
      some ({ current := cur1, previous := prev1 },
            [Out.sendMessage K.ANTP_MSG_PROFILE_DATA K.PROFILE_HRM])
    else some ({ hrm with current := cur }, [])
  else some ({ hrm with current := cur }, [])

/-- Source `payload_SPDCAD`. -/
def payload_SPDCAD (K : AntDefs) (F : FloatOps) (spdcad : payload_SPDCAD_t) (data : Buffer) :
    Option (payload_SPDCAD_t × List Out) :=
  let cur : SPDCADSample := { spdcad.current with
    cadenceTime := le16 data 1
    cadenceCt := le16 data 3
    speedTime := le16 data 5
    speedCt := le16 data 7 }
  let prev := spdcad.previous
  let cadChange := decide (cur.cadenceTime ≠ prev.cadenceTime ∨ cur.cadenceCt ≠ prev.cadenceCt)
  let spdChange := decide (cur.speedTime ≠ prev.speedTime ∨ cur.speedCt ≠ prev.speedCt)
  let st : payload_SPDCAD_t := { spdcad with
    current := cur, cadChange := cadChange.toNat, spdChange := spdChange.toNat }
  if cadChange || spdChange then
    match cadenceCalc cur.cadenceCt prev.cadenceCt cur.cadenceTime prev.cadenceTime with
    | none => none
    | some cadence =>
      let wheel := if st.wheelCircumference = 0 then WHEEL_CIRCUMFERENCE
        else st.wheelCircumference
      let speedRotationDelta := toU32 ((cur.speedCt : Int) - (prev.speedCt : Int))
      let timeDifference : Int := (cur.speedTime : Int) - (prev.speedTime : Int)
      let cur1 : SPDCADSample := { cur with
        cadence := cadence
        speed := F.speed100 speedRotationDelta timeDifference wheel
        distance := F.addDistance cur.distance speedRotationDelta wheel }
      let prev1 : SPDCADSample :=
        { cadenceTime := cur1.cadenceTime
          cadence := cur1.cadence
          cadenceCt := cur1.cadenceCt
          speedTime := cur1.speedTime
          speedCt := cur1.speedCt
          speed := cur1.speed
          distance := cur1.distance }
      some ({ st with current := cur1, wheelCircumference := wheel, previous := prev1 },
            [Out.sendMessage K.ANTP_MSG_PROFILE_DATA K.PROFILE_SPDCAD])
  else some (st, [])

/-- Source `payload_POWER`. -/
def payload_POWER (K : AntDefs) : List Out :=
  [Out.sendMessage K.ANTP_MSG_PROFILE_DATA K.PROFILE_POWER]

/-- Source `payload_STRIDE`. The two single-precision sums are exact on byte operands, and
the conversion to `uint16_t` drops the fraction. -/
def payload_STRIDE (K : AntDefs) (stride : payload_STRIDE_t) (data : Buffer) :
    payload_STRIDE_t × List Out :=
  let page := data 1
  if page = 0 then
    let cur : STRIDESample := { stride.current with strides := data 7 % 256 }
    ({ current := cur, previous := { stride.previous with strides := cur.strides } },
      [Out.sendMessage K.ANTP_MSG_PROFILE_DATA K.PROFILE_STRIDE])
  else if page = 1 then
    let cur : STRIDESample := { stride.current with
      speed := ((data 4 &&& 0x0f) + data 5 / 256) % 65536
      cadence := (data 3 + (data 4 <<< 4) / 16) % 65536 }
    let prev1 : STRIDESample := { stride.previous with speed := cur.speed, cadence := cur.cadence }
    ({ current := cur, previous := prev1 },
      [Out.sendMessage K.ANTP_MSG_PROFILE_DATA K.PROFILE_STRIDE])
  else (stride, [])

/-- Source `payload_SPEED`. -/
def payload_SPEED (K : AntDefs) (F : FloatOps) (spd : payload_SPEED_t) (data : Buffer) :
    payload_SPEED_t × List Out :=
  let cur : SPEEDSample := { spd.current with
    speedTime := le16 data 5
    speedCt := le16 data 7 }
  let prev := spd.previous
  let spdChange := decide (cur.speedTime ≠ prev.speedTime ∨ cur.speedCt ≠ prev.speedCt)
  let st : payload_SPEED_t := { spd with current := cur, spdChange := spdChange.toNat }
  if spdChange then
    let speedRotationDelta := toU32 ((cur.speedCt : Int) - (prev.speedCt : Int))
    let timeDifference : Int := (cur.speedTime : Int) - (prev.speedTime : Int)
    let wheel := if st.wheelCircumference = 0 then WHEEL_CIRCUMFERENCE
      else st.wheelCircumference
    let cur1 : SPEEDSample := { cur with
      speed := F.speed100 speedRotationDelta timeDifference wheel
      distance := F.addDistance cur.distance speedRotationDelta wheel }
    let prev1 : SPEEDSample :=
      { speedTime := cur1.speedTime, speedCt := cur1.speedCt, speed := cur1.speed,
        distance := cur1.distance }
    ({ st with current := cur1, wheelCircumference := wheel, previous := prev1 },
      [Out.sendMessage K.ANTP_MSG_PROFILE_DATA K.PROFILE_SPEED])
  else (st, [])

/-- Source `payload_CADENCE`. -/
def payload_CADENCE (K : AntDefs) (cad : payload_CADENCE_t) (data : Buffer) :
    Option (payload_CADENCE_t × List Out) :=
  let cur : CADENCESample := { cad.current with
    cadenceTime := le16 data 5
    cadenceCt := le16 data 7 }
  let prev := cad.previous
  let cadChange := decide (cur.cadenceTime ≠ prev.cadenceTime ∨ cur.cadenceCt ≠ prev.cadenceCt)
  let st : payload_CADENCE_t := { cad with current := cur, cadChange := cadChange.toNat }
  if cadChange then
    match cadenceCalc cur.cadenceCt prev.cadenceCt cur.cadenceTime prev.cadenceTime with
    | none => none
    | some cadence =>
      let cur1 : CADENCESample := { cur with cadence := cadence }
      let prev1 : CADENCESample :=
        { cadenceTime := cur1.cadenceTime, cadence := cur1.cadence, cadenceCt := cur1.cadenceCt }
      some ({ st with current := cur1, previous := prev1 },
            [Out.sendMessage K.ANTP_MSG_PROFILE_DATA K.PROFILE_CADENCE])
  else some (st, [])

/-- Source `dispatchPayload`: the `switch (cfg->channel)`. `none` when a decoder divides by
zero. -/
def dispatchPayload (K : AntDefs) (F : FloatOps) (p : payload_genstorage_t) (cfg : TDCONFIG)
    (payload : Buffer) : Option (payload_genstorage_t × List Out) :=
  if cfg.channel = K.PROFILE_HRM then
    (payload_HRM K p.hrm payload).map (fun r => ({ p with hrm := r.1 }, r.2))
  else if cfg.channel = K.PROFILE_SPDCAD then
    (payload_SPDCAD K F p.spdcad payload).map (fun r => ({ p with spdcad := r.1 }, r.2))
  else if cfg.channel = K.PROFILE_POWER then
    some (p, payload_POWER K)
  else if cfg.channel = K.PROFILE_STRIDE then
    let r := payload_STRIDE K p.stride payload
    some ({ p with stride := r.1 }, r.2)
  else if cfg.channel = K.PROFILE_SPEED then
    let r := payload_SPEED K F p.spd payload
    some ({ p with spd := r.1 }, r.2)
  else if cfg.channel = K.PROFILE_CADENCE then
    (payload_CADENCE K p.cad payload).map (fun r => ({ p with cad := r.1 }, r.2))
  else some (p, [])

/-! ## Channel state machine -/

/-- The state the message handlers work on: `ant.key`, the table `ant.dcfg` (its length is
the declared number of entries) and the static `payload` storage. -/
structure State where
  key : Nat
  dcfg : List TDCONFIG
  payload : payload_genstorage_t
deriving DecidableEq, Repr

/-- The result of a handler: the state afterwards and the outputs in order; `none` when the
handler runs into undefined behaviour (an access outside `ant.dcfg`, a `NULL` key, a
division by zero). -/
abbrev Result := Option (State × List Out)

/-- The update `f(&ant.dcfg[i])` of one table entry. -/
def updateCfg (dcfg : List TDCONFIG) (i : Nat) (f : TDCONFIG → TDCONFIG) : List TDCONFIG :=
  match dcfg[i]? with
  | some cfg => dcfg.set i (f cfg)
  | none => dcfg

/-- Source `begin(key)`. -/
def begin (K : AntDefs) (s : State) (key : Nat) : State :=
  let deviceId := 0
  let d0 := s.dcfg
  let d1 := updateCfg d0 K.PROFILE_HRM (fun cfg => profileSetup_HRM K cfg deviceId)
  let d2 := updateCfg d1 K.PROFILE_SPDCAD (fun cfg => profileSetup_SPDCAD K cfg deviceId)
  let d3 := updateCfg d2 K.PROFILE_POWER (fun cfg => profileSetup_POWER K cfg deviceId)
  let d4 := updateCfg d3 K.PROFILE_STRIDE (fun cfg => profileSetup_STRIDE K cfg deviceId)
  let d5 := updateCfg d4 K.PROFILE_SPEED (fun cfg => profileSetup_SPEED K cfg deviceId)
  let d6 := updateCfg d5 K.PROFILE_CADENCE (fun cfg => profileSetup_CADENCE K cfg deviceId)
  { s with key := if key < KEY_TOTAL then key else 0, dcfg := d6 }

/-- Source `sendMessageChannelStatus(cfg, channelStatus)`: the configuration afterwards and
the outputs. -/
def sendMessageChannelStatus (K : AntDefs) (cfg : TDCONFIG) (channelStatus : Nat) :
    TDCONFIG × List Out :=
  let cfg1 : TDCONFIG := { cfg with flags := { cfg.flags with channelStatus := channelStatus } }
  if cfg1.flags.channelStatus ≠ cfg1.flags.channelStatusOld then
    let status := (cfg1.flags.channelStatus &&& 0x0F) ||| ((cfg1.channel &&& 0x0F) <<< 4)
    ({ cfg1 with flags := { cfg1.flags with channelStatusOld := cfg1.flags.channelStatus } },
      [Out.sendMessage K.ANTP_MSG_CHANNELSTATUS status])
  else (cfg1, [])

/-- Source `message_channel(chan, eventId, payload, dataLength)`. The cases
`EVENT_RX_SEARCH_TIMEOUT`, `EVENT_RX_FAIL` and `EVENT_TX` only print or do nothing. -/
def message_channel (K : AntDefs) (F : FloatOps) (s : State) (chan eventId : Nat)
    (payload : Buffer) : Result :=
  if eventId = K.EVENT_RX_BROADCAST then
    match s.dcfg[chan]? with
    | none => none
    | some cfg =>
      let first := decide (cfg.flags.chanIdOnce = 0)
      let cfg1 : TDCONFIG :=
        if first then { cfg with flags := { cfg.flags with chanIdOnce := 1 } } else cfg
      let out1 : List Out :=
        if first then [Out.write (RequestMessage K cfg1.channel K.MESG_CHANNEL_ID_ID)] else []
      match dispatchPayload K F s.payload cfg1 payload with
      | none => none
      | some (p, out2) => some ({ s with dcfg := s.dcfg.set chan cfg1, payload := p }, out1 ++ out2)
  else some (s, [])

/-- Source `message_response(chan, msgId, payload, dataLength)`. The cases that only print
(`MESG_UNASSIGN_CHANNEL_ID`, the response codes from `CHANNEL_IN_WRONG_STATE` to
`EVENT_QUE_OVERFLOW`, and `default`) are the final `else`. -/
def message_response (K : AntDefs) (F : FloatOps) (s : State) (chan msgId : Nat)
    (payload : Buffer) : Result :=
  if msgId = K.MESG_EVENT_ID then
    message_channel K F s chan (payload K.STREAM_EVENT_EVENTID) payload
  else if msgId = K.MESG_NETWORK_KEY_ID then
    match s.dcfg[chan]? with
    | none => none
    | some cfg =>
      let cfg1 : TDCONFIG := { cfg with flags := { cfg.flags with keyAccepted := 1 } }
      let call :=
        if cfg1.transType = K.ANT_TRANSMISSION_MASTER then
          AssignChannel K cfg1.channel K.PARAMETER_TX_NOT_RX cfg1.networkNumber
        else AssignChannel K cfg1.channel cfg1.channelType cfg1.networkNumber
      some ({ s with dcfg := s.dcfg.set chan cfg1 }, [Out.write call])
  else if msgId = K.MESG_ASSIGN_CHANNEL_ID then
    match s.dcfg[chan]? with
    | none => none
    | some cfg => some (s, [Out.write (SetChannelPeriod K cfg.channel cfg.channelPeriod)])
  else if msgId = K.MESG_CHANNEL_MESG_PERIOD_ID then
    match s.dcfg[chan]? with
    | none => none
    | some cfg => some (s, [Out.write (SetChannelSearchTimeout K cfg.channel cfg.searchTimeout)])
  else if msgId = K.MESG_CHANNEL_SEARCH_TIMEOUT_ID then
    match s.dcfg[chan]? with
    | none => none
    | some cfg => some (s, [Out.write (SetChannelRFFreq K cfg.channel cfg.RFFreq)])
  else if msgId = K.MESG_CHANNEL_RADIO_FREQ_ID then
    match s.dcfg[chan]? with
    | none => none
    | some cfg => some (s, [Out.write (SetSearchWaveform K cfg.channel cfg.searchWaveform)])
  else if msgId = K.MESG_SEARCH_WAVEFORM_ID then
    match s.dcfg[chan]? with
    | none => none
    | some cfg =>
      some (s, [Out.write (SetChannelId K cfg.channel cfg.deviceNumber cfg.deviceType
        cfg.transType)])
  else if msgId = K.MESG_CHANNEL_ID_ID then
    match s.dcfg[chan]? with
    | none => none
    | some cfg => some (s, [Out.write (OpenChannel K cfg.channel)])
  else if msgId = K.MESG_OPEN_CHANNEL_ID then
    match s.dcfg[chan]? with
    | none => none
    | some cfg =>
      some (s, [Out.write (RequestMessage K cfg.channel K.MESG_CHANNEL_STATUS_ID),
                Out.write (RequestMessage K cfg.channel K.MESG_CAPABILITIES_ID),
                Out.write (RequestMessage K cfg.channel K.MESG_VERSION_ID)])
  else if msgId = K.MESG_CLOSE_CHANNEL_ID then
    match s.dcfg[chan]? with
    | none => none
    | some cfg =>
      let cfg1 : TDCONFIG := { cfg with flags := { cfg.flags with keyAccepted := 0 } }
      let r := sendMessageChannelStatus K cfg1 K.ANT_CHANNEL_STATUS_UNASSIGNED
      some ({ s with dcfg := s.dcfg.set chan r.1 }, r.2)
  else some (s, [])

/-- Source `message_event(channel, msgId, payload, dataLength)`. The cases
`MESG_CAPABILITIES_ID` and `MESG_VERSION_ID` do nothing. No handler reads `dataLength`, which
is left out of the handlers. -/
def message_event (K : AntDefs) (F : FloatOps) (s : State) (channel msgId : Nat)
    (payload : Buffer) : Result :=
  let chan := if channel < K.PROFILE_TOTAL then channel % 256 else 0
  if msgId = K.MESG_BROADCAST_DATA_ID then
    message_channel K F s chan K.EVENT_RX_BROADCAST payload
  else if msgId = K.MESG_STARTUP_MESG_ID then
    match s.dcfg[0]?, getAntKey s.key with
    | some cfg0, some key =>
      some (s, [Out.write (SetNetworkKey K cfg0.networkNumber key)])
    | _, _ => none
  else if msgId = K.MESG_RESPONSE_EVENT_ID then
    message_response K F s (payload K.STREAM_EVENT_CHANNEL_ID)
      (payload K.STREAM_EVENT_RESPONSE_ID) payload
  else if msgId = K.MESG_CHANNEL_STATUS_ID then
    match s.dcfg[payload K.STREAM_CHANNEL_ID]? with
    | none => none
    | some cfg =>
      let r := sendMessageChannelStatus K cfg
        (payload K.STREAM_CHANNELSTATUS_STATUS &&& K.ANT_CHANNEL_STATUS_MASK)
      some ({ s with dcfg := s.dcfg.set (payload K.STREAM_CHANNEL_ID) r.1 }, r.2)
  else if msgId = K.MESG_CHANNEL_ID_ID then
    match s.dcfg[chan]? with
    | none => none
    | some cfg =>
      let dev : TDEVICE :=
        { deviceId := payload K.STREAM_CHANNELID_DEVNO_LO |||
            (payload K.STREAM_CHANNELID_DEVNO_HI <<< 8)
          deviceType := payload K.STREAM_CHANNELID_DEVTYPE
          transType := payload K.STREAM_CHANNELID_TRANTYPE }
      some ({ s with dcfg := s.dcfg.set chan { cfg with dev := dev } },
            [Out.sendMessage K.ANTP_MSG_DEVICEID chan])
  else some (s, [])

/-- One decoded message handed to `message_event`. -/
structure Message where
  channel : Nat
  msgId : Nat
  payload : Buffer

/-- A sequence of decoded messages handled in order: the outputs of the handled messages
and the state afterwards (`none` once a message has run into undefined behaviour, which
ends the run). -/
def run (K : AntDefs) (F : FloatOps) : State → List Message → List Out × Option State
  | s, [] => ([], some s)
  | s, m :: ms =>
    match message_event K F s m.channel m.msgId m.payload with
    | none => ([], none)
    | some (s1, out) => let r := run K F s1 ms; (out ++ r.1, r.2)

/-- The message is a response (`MESG_RESPONSE_EVENT_ID`) for channel `c` that acknowledges
the message id `id`. -/
def Message.isResponse (K : AntDefs) (m : Message) (c id : Nat) : Prop :=
  m.msgId = K.MESG_RESPONSE_EVENT_ID ∧ m.payload K.STREAM_EVENT_CHANNEL_ID = c ∧
    m.payload K.STREAM_EVENT_RESPONSE_ID = id

/-- The message is a channel-status message (`MESG_CHANNEL_STATUS_ID`) for channel `c`. -/
def Message.isChannelStatus (K : AntDefs) (m : Message) (c : Nat) : Prop :=
  m.msgId = K.MESG_CHANNEL_STATUS_ID ∧ m.payload K.STREAM_CHANNEL_ID = c

/-- The masked status `payload[STREAM_CHANNELSTATUS_STATUS] & ANT_CHANNEL_STATUS_MASK` a
channel-status message carries. -/
def Message.status (K : AntDefs) (m : Message) : Nat :=
  m.payload K.STREAM_CHANNELSTATUS_STATUS &&& K.ANT_CHANNEL_STATUS_MASK

/-- The channel `message_event` attributes a message to: the channel byte when it is below
`PROFILE_TOTAL`, channel 0 otherwise. -/
def Message.chan (K : AntDefs) (m : Message) : Nat :=
  if m.channel < K.PROFILE_TOTAL then m.channel % 256 else 0

/-- The message is a broadcast-data message (`MESG_BROADCAST_DATA_ID`) attributed to
channel `c`. -/
def Message.isBroadcastData (K : AntDefs) (m : Message) (c : Nat) : Prop :=
  m.msgId = K.MESG_BROADCAST_DATA_ID ∧ m.chan K = c

/-- The message is a channel-event response (`MESG_RESPONSE_EVENT_ID` answering
`MESG_EVENT_ID`) for channel `c` whose event code is `EVENT_RX_BROADCAST`. -/
def Message.isBroadcastEvent (K : AntDefs) (m : Message) (c : Nat) : Prop :=
  m.isResponse K c K.MESG_EVENT_ID ∧ m.payload K.STREAM_EVENT_EVENTID = K.EVENT_RX_BROADCAST

/-- The status-change notification `sendMessage(ANTP_MSG_CHANNELSTATUS, NULL, value)` with
`value = (status & 0x0F) | ((channel & 0x0F) << 4)`. -/
def statusNotification (K : AntDefs) (channel status : Nat) : Out :=
  Out.sendMessage K.ANTP_MSG_CHANNELSTATUS ((status &&& 0x0F) ||| ((channel &&& 0x0F) <<< 4))

/-- The notifications of a sequence of statuses when one is emitted exactly for each status
that differs from the status before it, `old` being the status before the first. -/
def statusNotifications (K : AntDefs) (channel : Nat) : Nat → List Nat → List Out
  | _, [] => []
  | old, st :: rest =>
    (if st ≠ old then [statusNotification K channel st] else []) ++
      statusNotifications K channel st rest

/-- The channel-ID request `RequestMessage(c, MESG_CHANNEL_ID_ID)`. -/
def channelIdRequest (K : AntDefs) (c : Nat) : Out :=
  Out.write (RequestMessage K c K.MESG_CHANNEL_ID_ID)

/-- The acknowledged message ids of the bring-up of a channel, in order. -/
def bringUpAcks (K : AntDefs) : List Nat :=
  [K.MESG_NETWORK_KEY_ID, K.MESG_ASSIGN_CHANNEL_ID, K.MESG_CHANNEL_MESG_PERIOD_ID,
   K.MESG_CHANNEL_SEARCH_TIMEOUT_ID, K.MESG_CHANNEL_RADIO_FREQ_ID, K.MESG_SEARCH_WAVEFORM_ID,
   K.MESG_CHANNEL_ID_ID, K.MESG_OPEN_CHANNEL_ID]

/-- The outcome of `message_channel` on a broadcast event for the table entry `chan`: the
flag `chanIdOnce` of the entry is set, a channel-ID request for the entry's channel comes
first in the outputs if the flag was clear, and the notifications of the profile decoder
follow. -/
def BroadcastStep (K : AntDefs) (s s1 : State) (out : List Out) (chan : Nat) : Prop :=
  ∃ (cfg : TDCONFIG) (p : payload_genstorage_t) (outs : List Out),
    s.dcfg[chan]? = some cfg ∧ (∀ o ∈ outs, ∃ msg v, o = Out.sendMessage msg v) ∧
    s1 = ⟨s.key, s.dcfg.set chan
      (if cfg.flags.chanIdOnce = 0 then { cfg with flags := { cfg.flags with chanIdOnce := 1 } }
        else cfg), p⟩ ∧
    out = (if cfg.flags.chanIdOnce = 0 then
        [Out.write (RequestMessage K cfg.channel K.MESG_CHANNEL_ID_ID)] else []) ++ outs

/-- The outcome of handling a message that is no broadcast event: no table entry changes
its channel or its flag `chanIdOnce`, and no output is a channel-ID request. -/
def QuietStep (K : AntDefs) (s s1 : State) (out : List Out) : Prop :=
  (∀ i : Nat, (s1.dcfg[i]?).map (fun cfg : TDCONFIG => (cfg.channel, cfg.flags.chanIdOnce)) =
    (s.dcfg[i]?).map (fun cfg : TDCONFIG => (cfg.channel, cfg.flags.chanIdOnce))) ∧
  ∀ o ∈ out, ∀ c, o ≠ channelIdRequest K c

/-- A zero-initialised channel configuration. -/
def zeroConfig : TDCONFIG :=
  ⟨0, 0, 0, 0, 0, 0, 0, 0, 0, 0, ⟨0, 0, 0, 0, 0⟩, ⟨0, 0, 0⟩⟩

/-- The zero-initialised driver state with `n` entries of `ant.dcfg`. -/
def zeroState (n : Nat) : State :=
  { key := 0
    dcfg := List.replicate n zeroConfig
    payload :=
      { hrm := ⟨⟨0, 0, 0, 0⟩, ⟨0, 0, 0, 0⟩⟩
        spdcad := ⟨⟨0, 0, 0, 0, 0, 0, 0⟩, ⟨0, 0, 0, 0, 0, 0, 0⟩, 0, 0, 0⟩
        stride := ⟨⟨0, 0, 0⟩, ⟨0, 0, 0⟩⟩
        spd := ⟨⟨0, 0, 0, 0⟩, ⟨0, 0, 0, 0⟩, 0, 0⟩
        cad := ⟨⟨0, 0, 0⟩, ⟨0, 0, 0⟩, 0⟩ } }

/-- A stand-in for the single-precision results, for evaluating the model on inputs whose
handling does not reach them. -/
def noFloatOps : FloatOps := ⟨fun _ _ _ => 0, fun distance _ _ => distance⟩

/-- The operator `|` on two `int`s. -/
def orInt (x y : Int) : Int := ofU32 (toU32 x ||| toU32 y)

/-- The `for (int i = 0; i < nunPackets; i++)` loop of `SendBurstTransfer`, from the
iteration `i` with the value `seq`, `remaining` being `nunPackets - i`: the calls of `write`
in order. `data` lists the bytes the pointer refers to, and `data + (i << 3)` is the list
without its first `i << 3` bytes. -/
def SendBurstTransferLoop (K : AntDefs) (channel : Int) (data : List Nat) (nunPackets : Nat) :
    Nat → Nat → Nat → List WriteCall
  | 0, _, _ => []
  | remaining + 1, i, seq =>
    let seq1 := if i = nunPackets - 1 then seq ||| 0x04 else seq
    SendBurstTransferPacket K (orInt ((seq1 <<< 5 : Nat) : Int) (andInt channel 0x1F))
        (data.drop (i <<< 3)) ::
      SendBurstTransferLoop K channel data nunPackets remaining (i + 1) ((seq1 + 1) &&& 0x03)

/-- Source `SendBurstTransfer(channel, data, nunPackets)`: the calls of `write` it makes, in
order; none for `nunPackets ≤ 0`. The value it returns is that of the last `write`. -/
def SendBurstTransfer (K : AntDefs) (channel : Int) (data : List Nat) (nunPackets : Int) :
    List WriteCall :=
  SendBurstTransferLoop K channel data nunPackets.toNat nunPackets.toNat 0 0

/-- The sequence number of packet `i` of `n`: `i mod 4`, with bit 2 set on the last. -/
def burstSeq (n i : Nat) : Nat := if i = n - 1 then (i % 4) ||| 0x04 else i % 4

/-- The burst-data packet `i` of `n`: sync, length 9, message id, the channel byte with the
sequence number in its top 3 bits, the payload bytes `data[8i .. 8i+8)` and the checksum. -/
def burstPacket (K : AntDefs) (channel : Int) (data : List Nat) (n i : Nat) : WriteCall :=
  let msg := [0xA4, 9, K.MESG_BURST_DATA_ID % 256,
    (burstSeq n i <<< 5) ||| (andInt channel 0x1F).toNat,
    data.getD (8 * i) 0 % 256, data.getD (8 * i + 1) 0 % 256, data.getD (8 * i + 2) 0 % 256,
    data.getD (8 * i + 3) 0 % 256, data.getD (8 * i + 4) 0 % 256, data.getD (8 * i + 5) 0 % 256,
    data.getD (8 * i + 6) 0 % 256, data.getD (8 * i + 7) 0 % 256]
  ⟨msg ++ [calcMsgChecksum msg 12], 13⟩

/-- One event at the transmit queue: a call `write(data, size)` from the task loop, or the
completion callback `tx_data` for the transfer in flight. -/
inductive TxOp where
  | write (data : List Nat) (size : Nat)
  | complete
deriving DecidableEq, Repr

/-- The transmit queue together with the transfer handed to the transport and not yet
completed, and the bytes of every transfer submitted so far, in order. -/
structure TxSim where
  q : TxQueue
  inflight : Option Transfer
  submitted : List (List Nat)
deriving DecidableEq, Repr

/-- The bytes `txbuffer[offset .. offset + size)` a transfer refers to. -/
def transferBytes (q : TxQueue) (t : Transfer) : List Nat :=
  (List.range t.size).map (fun i => q.txbuffer.getD (t.offset + i) 0)

/-- The effect of a submitted transfer on the record. -/
def TxSim.submit (s : TxSim) (q : TxQueue) (t : Option Transfer) : TxSim :=
  match t with
  | none => { s with q := q }
  | some t => { q := q, inflight := some t, submitted := s.submitted ++ [transferBytes q t] }

/-- One event: `none` when `write` would spin for space, or when a completion is signalled
with no transfer in flight. -/
def TxSim.step (s : TxSim) : TxOp → Option TxSim
  | TxOp.write data size =>
    match AntPlus.write s.q data size with
    | none => none
    | some (_, q1, t) => some (s.submit q1 t)
  | TxOp.complete =>
    match s.inflight with
    | none => none
    | some t =>
      let r := tx_data s.q t
      some (({ s with inflight := none }).submit r.1 r.2)

/-- A sequence of events, in order. -/
def TxSim.run (s : TxSim) : List TxOp → Option TxSim
  | [] => some s
  | op :: ops =>
    match s.step op with
    | none => none
    | some s1 => s1.run ops

/-- The queue `claim` sets up, with nothing in flight and nothing submitted. -/
def TxSim.init (sizeofTxbuffer : Nat) : TxSim := ⟨claimQueue sizeofTxbuffer, none, []⟩

/-- Decoding that stops at the first failure, in the words of the specification:
`DecodesUntilFailure K buffer pos tBytes ds r` says that decoding the `tBytes` bytes from
index `pos` dispatches the messages `ds` and returns `r`. The remaining count being used up
ends it with 1; a remainder without sync byte, or a first sync byte whose frame fails the
integrity check, ends it with 0 whatever follows; a first sync byte whose frame passes
dispatches that frame's message and goes on behind the frame. -/
inductive DecodesUntilFailure (K : AntDefs) (buffer : Buffer) :
    Nat → Int → List Dispatch → Nat → Prop where
  | exhausted (pos : Nat) (tBytes : Int) (h : tBytes ≤ 0) :
      DecodesUntilFailure K buffer pos tBytes [] 1
  | noSync (pos : Nat) (tBytes : Int) (h : 0 < tBytes)
      (hjunk : ∀ i : Nat, (i : Int) < tBytes → buffer (pos + i) ≠ MESG_TX_SYNC) :
      DecodesUntilFailure K buffer pos tBytes [] 0
  | badFrame (pos : Nat) (tBytes : Int) (j : Nat) (hj : (j : Int) < tBytes)
      (hjunk : ∀ i : Nat, i < j → buffer (pos + i) ≠ MESG_TX_SYNC)
      (hsync : buffer (pos + j) = MESG_TX_SYNC)
      (hbad : msgCheckIntegrity (advance buffer (pos + j)) (tBytes - j) = false) :
      DecodesUntilFailure K buffer pos tBytes [] 0
  | frame (pos : Nat) (tBytes : Int) (j : Nat) (ds : List Dispatch) (r : Nat)
      (hj : (j : Int) < tBytes)
      (hjunk : ∀ i : Nat, i < j → buffer (pos + i) ≠ MESG_TX_SYNC)
      (hsync : buffer (pos + j) = MESG_TX_SYNC)
      (hgood : msgCheckIntegrity (advance buffer (pos + j)) (tBytes - j) = true)
      (hrest : DecodesUntilFailure K buffer (pos + j + (buffer (pos + j + 1) + 4))
        (tBytes - j - ((buffer (pos + j + 1) + 4 : Nat) : Int)) ds r) :
      DecodesUntilFailure K buffer pos tBytes
        (⟨buffer (pos + j + K.STREAM_CHANNEL), buffer (pos + j + 2), pos + j + 3,
          buffer (pos + j + 1)⟩ :: ds) r

/-- The single-precision computation of the running distance in `payload_SPEED` and
`payload_SPDCAD`: `distance = (speedRotationDelta * (float)wheelCircumference) / 1000.0f`
followed by `current.distance += distance`, which is
`current.distance = (uint32_t)((float)current.distance + distance)`. `rnd` is the rounding
of the single-precision format, applied to the result of every conversion to `float` and of
every operation; the conversion to `uint32_t` drops the fraction (it is defined for results
below `2^32`). -/
def addDistanceWith (rnd : ℚ → ℚ) (distance speedRotationDelta wheelCircumference : Nat) :
    Nat :=
  let dist := rnd (rnd (rnd speedRotationDelta * rnd wheelCircumference) / 1000)
  ⌊rnd (rnd distance + dist)⌋.toNat

/-- What the computations below use of the rounding of the single-precision format: its
relative error is at most `2^-24`. Round-to-nearest has this bound on the normal range of
the format, and so has exact arithmetic. -/
def SingleRounding (rnd : ℚ → ℚ) : Prop := ∀ x : ℚ, |rnd x - x| ≤ |x| / 2 ^ 24

/-- Source `payload_SPEED` applied to a sequence of payloads in turn: the storage after the
last. -/
def feedSPEED (K : AntDefs) (F : FloatOps) (st : payload_SPEED_t) :
    List Buffer → payload_SPEED_t
  | [] => st
  | p :: ps => feedSPEED K F (payload_SPEED K F st p).1 ps

/-- Every payload of the sequence advances the wheel revolution count by 1 and the speed
event time by 1024 ticks over the previous sample it meets. -/
def OneRevolutionEach (K : AntDefs) (F : FloatOps) (st : payload_SPEED_t) :
    List Buffer → Prop
  | [] => True
  | p :: ps => le16 p 7 = st.previous.speedCt + 1 ∧ le16 p 5 = st.previous.speedTime + 1024 ∧
      OneRevolutionEach K F (payload_SPEED K F st p).1 ps

/-- The `for (int i = 0; i < nunPackets; i++)` loop of `SendExtBurstTransfer`, from the
iteration `i` with the value `seq`, `remaining` being `nunPackets - i`: the calls of `write`
in order. -/
def SendExtBurstTransferLoop (K : AntDefs) (channel devNum devType tranType : Int)
    (data : List Nat) (nunPackets : Nat) : Nat → Nat → Nat → List WriteCall
  | 0, _, _ => []
  | remaining + 1, i, seq =>
    let seq1 := if i = nunPackets - 1 then seq ||| 0x04 else seq
    SendExtBurstTransferPacket K (orInt ((seq1 <<< 5 : Nat) : Int) (andInt channel 0x1F))
        devNum devType tranType (data.drop (i <<< 3)) ::
      SendExtBurstTransferLoop K channel devNum devType tranType data nunPackets remaining
        (i + 1) ((seq1 + 1) &&& 0x03)

/-- Source `SendExtBurstTransfer(channel, devNum, devType, tranType, data, nunPackets)`: the
calls of `write` it makes, in order; none for `nunPackets ≤ 0`. The value it returns is that
of the last `write`. -/
def SendExtBurstTransfer (K : AntDefs) (channel devNum devType tranType : Int)
    (data : List Nat) (nunPackets : Int) : List WriteCall :=
  SendExtBurstTransferLoop K channel devNum devType tranType data nunPackets.toNat
    nunPackets.toNat 0 0

/-! ## Assumptions on the header constants -/

/-- What the model assumes of the constants of `antplusdefs.h`: the case labels of each
`switch` are pairwise distinct (the source compiles), message ids are bytes and distinct
commands have distinct ids, the profile indices are exactly the indices of `ant.dcfg` and
are bytes, the slave and master transmission types differ, and `0xFF`, the initial `channelStatusOld`, is
no masked channel status. -/
structure AntDefs.WF (K : AntDefs) : Prop where
  event_labels : [K.MESG_BROADCAST_DATA_ID, K.MESG_STARTUP_MESG_ID, K.MESG_RESPONSE_EVENT_ID,
    K.MESG_CHANNEL_STATUS_ID, K.MESG_CAPABILITIES_ID, K.MESG_CHANNEL_ID_ID,
    K.MESG_VERSION_ID].Nodup
  response_labels : [K.MESG_EVENT_ID, K.MESG_NETWORK_KEY_ID, K.MESG_ASSIGN_CHANNEL_ID,
    K.MESG_CHANNEL_MESG_PERIOD_ID, K.MESG_CHANNEL_SEARCH_TIMEOUT_ID,
    K.MESG_CHANNEL_RADIO_FREQ_ID, K.MESG_SEARCH_WAVEFORM_ID, K.MESG_CHANNEL_ID_ID,
    K.MESG_OPEN_CHANNEL_ID, K.MESG_CLOSE_CHANNEL_ID].Nodup
  command_ids : [MESG_SYSTEM_RESET_ID, K.MESG_REQUEST_ID, K.MESG_NETWORK_KEY_ID,
    K.MESG_ASSIGN_CHANNEL_ID, K.MESG_CHANNEL_ID_ID, K.MESG_CHANNEL_MESG_PERIOD_ID,
    K.MESG_CHANNEL_SEARCH_TIMEOUT_ID, K.MESG_CHANNEL_RADIO_FREQ_ID, K.MESG_SEARCH_WAVEFORM_ID,
    K.MESG_OPEN_CHANNEL_ID, K.MESG_CLOSE_CHANNEL_ID, K.MESG_BROADCAST_DATA_ID,
    K.MESG_ACKNOWLEDGED_DATA_ID, K.MESG_EXT_BROADCAST_DATA_ID, K.MESG_EXT_ACKNOWLEDGED_DATA_ID,
    K.MESG_BURST_DATA_ID].Nodup
  ids_byte : ∀ id ∈ [K.MESG_REQUEST_ID, K.MESG_NETWORK_KEY_ID,
    K.MESG_ASSIGN_CHANNEL_ID, K.MESG_CHANNEL_ID_ID, K.MESG_CHANNEL_MESG_PERIOD_ID,
    K.MESG_CHANNEL_SEARCH_TIMEOUT_ID, K.MESG_CHANNEL_RADIO_FREQ_ID, K.MESG_SEARCH_WAVEFORM_ID,
    K.MESG_OPEN_CHANNEL_ID, K.MESG_CLOSE_CHANNEL_ID, K.MESG_BROADCAST_DATA_ID,
    K.MESG_ACKNOWLEDGED_DATA_ID, K.MESG_EXT_BROADCAST_DATA_ID, K.MESG_EXT_ACKNOWLEDGED_DATA_ID,
    K.MESG_BURST_DATA_ID, K.MESG_CHANNEL_STATUS_ID, K.MESG_CAPABILITIES_ID,
    K.MESG_VERSION_ID], id < 256
  profile_labels : [K.PROFILE_HRM, K.PROFILE_SPDCAD, K.PROFILE_POWER, K.PROFILE_STRIDE,
    K.PROFILE_SPEED, K.PROFILE_CADENCE].Nodup
  profile_cover : ∀ i, i < K.PROFILE_TOTAL ↔ i ∈ [K.PROFILE_HRM, K.PROFILE_SPDCAD,
    K.PROFILE_POWER, K.PROFILE_STRIDE, K.PROFILE_SPEED, K.PROFILE_CADENCE]
  profile_total_byte : K.PROFILE_TOTAL ≤ 256
  slave_ne_master : K.ANT_TRANSMISSION_SLAVE ≠ K.ANT_TRANSMISSION_MASTER
  status_mask : K.ANT_CHANNEL_STATUS_MASK < 0xFF

/-! ## Lemmas on the codec -/

theorem antDefs_wf : antDefs.WF where
  event_labels := by decide
  response_labels := by decide
  command_ids := by decide
  ids_byte := by decide
  profile_labels := by decide
  profile_cover := by
    intro i
    simp only [antDefs, List.mem_cons, List.mem_singleton, List.mem_nil_iff, or_false]
    omega
  profile_total_byte := by decide
  slave_ne_master := by decide
  status_mask := by decide

theorem bytesAt_zero (stream : Buffer) (a : Nat) : bytesAt stream a 0 = [] := rfl

theorem bytesAt_succ (stream : Buffer) (a n : Nat) :
    bytesAt stream a (n + 1) = stream a :: bytesAt stream (a + 1) n := by
  simp only [bytesAt, List.range_succ_eq_map, List.map_cons, List.map_map, Nat.add_zero]
  congr 1
  apply List.map_congr_left
  intro i _
  simp only [Function.comp, Nat.succ_eq_add_one]
  congr 1
  omega

theorem bytesAt_length (stream : Buffer) (a n : Nat) : (bytesAt stream a n).length = n := by
  simp [bytesAt]

theorem bytesAt_add (stream : Buffer) (a m n : Nat) :
    bytesAt stream a (m + n) = bytesAt stream a m ++ bytesAt stream (a + m) n := by
  induction m generalizing a with
  | zero => simp [bytesAt_zero]
  | succ m ih =>
    have h : m + 1 + n = (m + n) + 1 := by omega
    rw [h, bytesAt_succ, bytesAt_succ, ih, List.cons_append]
    congr 3
    omega

/-- The `do ... while` loop of `msgCheckIntegrity` folds the data bytes into `crc`. -/
theorem msgCheckIntegrityLoop_eq (stream : Buffer) (fuel mlen crc : Nat)
    (h1 : mlen < stream STREAM_LENGTH) (h2 : stream STREAM_LENGTH ≤ mlen + fuel + 1) :
    msgCheckIntegrityLoop stream fuel mlen crc =
      (bytesAt stream (STREAM_DATA + mlen) (stream STREAM_LENGTH - mlen)).foldl
        (fun a b => a ^^^ b) crc := by
  induction fuel generalizing mlen crc with
  | zero =>
    have h : stream STREAM_LENGTH - mlen = 0 + 1 := by omega
    rw [h, bytesAt_succ, bytesAt_zero]
    simp [msgCheckIntegrityLoop]
  | succ fuel ih =>
    have h : stream STREAM_LENGTH - mlen = (stream STREAM_LENGTH - mlen - 1) + 1 := by omega
    rw [h, bytesAt_succ]
    simp only [msgCheckIntegrityLoop, List.foldl_cons]
    split
    · rename_i hlt
      rw [ih (mlen + 1) _ hlt (by omega)]
      have h3 : stream STREAM_LENGTH - (mlen + 1) = stream STREAM_LENGTH - mlen - 1 := by omega
      rw [h3, Nat.add_assoc]
    · rename_i hge
      have h3 : stream STREAM_LENGTH - mlen - 1 = 0 := by omega
      rw [h3, bytesAt_zero]
      rfl

/-- For a length byte of at least one, `msgCheckIntegrity` compares the trailing byte with
the XOR of the bytes before it. -/
theorem msgCheckIntegrity_eq (stream : Buffer) (len : Int) (hL : 1 ≤ stream 1)
    (hlen : (stream 1 : Int) + 4 ≤ len) :
    msgCheckIntegrity stream len =
      decide (xorAll (bytesAt stream 0 (stream 1 + 3)) = stream (stream 1 + 3)) := by
  have h5 : ¬ len < 5 := by omega
  have hb : bytesAt stream 0 (stream 1 + 3) =
      stream 0 :: stream 1 :: stream 2 :: bytesAt stream 3 (stream 1) := by
    rw [Nat.add_comm (stream 1) 3, bytesAt_add]
    simp [bytesAt_succ, bytesAt_zero]
  simp only [msgCheckIntegrity, h5, if_false]
  rw [msgCheckIntegrityLoop_eq stream (stream STREAM_LENGTH) 0 _ hL (by omega), hb]
  simp [xorAll, STREAM_DATA, STREAM_LENGTH, STREAM_SYNC, STREAM_MESSAGE]

theorem advance_apply (buffer : Buffer) (n i : Nat) : advance buffer n i = buffer (n + i) := rfl

theorem bytesAt_advance (buffer : Buffer) (s a n : Nat) :
    bytesAt (advance buffer s) a n = bytesAt buffer (s + a) n := by
  simp [bytesAt, advance, Nat.add_assoc]

/-- The scan loop stops at the first sync byte. -/
theorem findStreamSyncLoop_found (stream : Buffer) (p remaining pos : Nat)
    (hjunk : ∀ i, i < p → stream (pos + i) ≠ MESG_TX_SYNC)
    (hsync : stream (pos + p) = MESG_TX_SYNC) (hp : p < remaining) :
    findStreamSyncLoop stream remaining pos = (some (pos + p), pos + p) := by
  induction p generalizing remaining pos with
  | zero =>
    obtain ⟨r, rfl⟩ : ∃ r, remaining = r + 1 := ⟨remaining - 1, by omega⟩
    simp only [Nat.add_zero] at hsync
    simp [findStreamSyncLoop, hsync]
  | succ p ih =>
    obtain ⟨r, rfl⟩ : ∃ r, remaining = r + 1 := ⟨remaining - 1, by omega⟩
    have h0 : stream pos ≠ MESG_TX_SYNC := by simpa using hjunk 0 (by omega)
    simp only [findStreamSyncLoop, h0, if_false]
    have := ih r (pos + 1) (fun i hi => by
      have := hjunk (i + 1) (by omega)
      rwa [show pos + 1 + i = pos + (i + 1) by omega]) (by
      rwa [show pos + 1 + p = pos + (p + 1) by omega]) (by omega)
    rw [this]
    simp only [Prod.mk.injEq, Option.some.injEq]
    omega

theorem handleMessagesLoop_done (K : AntDefs) (buffer : Buffer) (fuel stream : Nat) (tBytes : Int)
    (h : tBytes ≤ 0) : handleMessagesLoop K buffer fuel stream tBytes = some ([], 1) := by
  have h' : ¬ tBytes > 0 := by omega
  cases fuel <;> simp [handleMessagesLoop, h']

/-- One iteration of the decode loop over `p` bytes without a sync byte followed by a
frame with `L ≥ 1` data bytes and a matching checksum. -/
theorem handleMessagesLoop_step (K : AntDefs) (buffer : Buffer) (fuel stream p L : Nat)
    (tBytes : Int)
    (hjunk : ∀ i, i < p → buffer (stream + i) ≠ MESG_TX_SYNC)
    (hsync : buffer (stream + p) = MESG_TX_SYNC)
    (hlen : buffer (stream + p + 1) = L) (hL : 1 ≤ L)
    (hck : buffer (stream + p + (L + 3)) = xorAll (bytesAt buffer (stream + p) (L + 3)))
    (ht : (p : Int) + L + 4 ≤ tBytes) :
    handleMessagesLoop K buffer (fuel + 1) stream tBytes =
      (handleMessagesLoop K buffer fuel (stream + p + (L + 4)) (tBytes - p - (L + 4))).map
        (fun r => (⟨buffer (stream + p + K.STREAM_CHANNEL), buffer (stream + p + 2),
          stream + p + 3, L⟩ :: r.1, r.2)) := by
  have hpos : tBytes > 0 := by omega
  have hfind : findStreamSync (advance buffer stream) tBytes.toNat = (some p, p) := by
    have := findStreamSyncLoop_found (advance buffer stream) p tBytes.toNat 0
      (fun i hi => by simpa [advance] using hjunk i hi) (by simpa [advance] using hsync)
      (by omega)
    simpa [findStreamSync] using this
  have h1 : (advance buffer (stream + p)) 1 = L := by simpa [advance] using hlen
  have hint : msgCheckIntegrity (advance buffer (stream + p)) (tBytes - (p : Int)) = true := by
    rw [msgCheckIntegrity_eq _ _ (by omega) (by omega), h1, bytesAt_advance]
    simp only [advance_apply, Nat.add_zero, decide_eq_true_eq]
    exact hck.symm
  rw [handleMessagesLoop]
  simp only [hpos, if_true, hfind, hint, Bool.not_true, Bool.false_eq_true, if_false,
    msgGetLength, STREAM_LENGTH, STREAM_MESSAGE, STREAM_DATA, h1, hlen]
  have e1 : tBytes - (p : Int) - ((L + 4 : Nat) : Int) = tBytes - p - (L + 4) := by push_cast; ring
  rw [e1]
  cases handleMessagesLoop K buffer fuel (stream + p + (L + 4)) (tBytes - p - (L + 4)) with
  | none => rfl
  | some r => rfl



theorem map_getD_range (l : List Nat) : (List.range l.length).map (fun i => l.getD i 0) = l := by
  apply List.ext_getElem
  · simp
  · intro i h1 h2
    simp [List.getD_eq_getElem?_getD, List.getElem?_eq_getElem h2]

theorem xor_lt_256 {a b : Nat} (ha : a < 256) (hb : b < 256) : a ^^^ b < 256 :=
  Nat.xor_lt_two_pow (n := 8) ha hb

theorem foldl_xor_mod (l : List Nat) (c : Nat) (hc : c < 256) (hl : ∀ b ∈ l, b < 256) :
    l.foldl (fun c b => (c ^^^ b) % 256) c = l.foldl (fun a b => a ^^^ b) c := by
  induction l generalizing c with
  | nil => rfl
  | cons b l ih =>
    have hb : b < 256 := hl b (List.mem_cons_self _ _)
    have hx : c ^^^ b < 256 := xor_lt_256 hc hb
    simp only [List.foldl_cons, Nat.mod_eq_of_lt hx]
    exact ih _ hx (fun x hx => hl x (List.mem_cons_of_mem _ hx))

/-- On bytes, `calcMsgChecksum` over the whole array is the XOR of its elements. -/
theorem calcMsgChecksum_eq (l : List Nat) (n : Nat) (hn : n = l.length) (hl : ∀ b ∈ l, b < 256) :
    calcMsgChecksum l n = xorAll l := by
  subst hn
  have h : calcMsgChecksum l l.length =
      ((List.range l.length).map (fun i => l.getD i 0)).foldl (fun c b => (c ^^^ b) % 256) 0 := by
    simp [calcMsgChecksum, List.foldl_map]
  rw [h, map_getD_range, foldl_xor_mod l 0 (by omega) hl]
  rfl

theorem u8_lt (x : Int) : u8 x < 256 := by
  unfold u8
  omega

theorem bufferOf_append_left (l rest : List Nat) (i : Nat) (h : i < l.length) :
    bufferOf (l ++ rest) i = l.getD i 0 := by
  simp [bufferOf, List.getD_eq_getElem?_getD, List.getElem?_append_left h]

theorem bytesAt_bufferOf (l rest : List Nat) (a n : Nat) (h : a + n ≤ l.length) :
    bytesAt (bufferOf (l ++ rest)) a n = (l.drop a).take n := by
  apply List.ext_getElem
  · simp [bytesAt]; omega
  · intro i h1 h2
    simp only [bytesAt, List.length_map, List.length_range] at h1
    simp only [bytesAt, List.getElem_map, List.getElem_range, List.getElem_take, List.getElem_drop]
    rw [bufferOf_append_left _ _ _ (by omega), List.getD_eq_getElem?_getD,
      List.getElem?_eq_getElem (by omega)]
    rfl

/-- The array an encoder passes to `write`: sync byte, number of data bytes, message id,
the data bytes, and the XOR of all these; `size` is the number of bytes of the array. -/
theorem submit_shape (K : AntDefs) (hK : K.WF) (c : Command) :
    ∃ body : List Nat, body.length = c.dataLen ∧
      (c.submit K).data = (MESG_TX_SYNC :: c.dataLen :: c.msgId K :: body) ++
        [xorAll (MESG_TX_SYNC :: c.dataLen :: c.msgId K :: body)] ∧
      (c.submit K).size = c.dataLen + 4 := by
  have hid := hK.ids_byte
  simp only [List.forall_mem_cons, List.mem_singleton, forall_eq, List.mem_nil_iff] at hid
  obtain ⟨h1, h2, h3, h4, h5, h6, h7, h8, h9, h10, h11, h12, h13, h14, h15, -⟩ := hid
  have hsync : MESG_TX_SYNC % 256 = MESG_TX_SYNC := by decide
  have hreset : MESG_SYSTEM_RESET_ID % 256 = MESG_SYSTEM_RESET_ID := by decide
  have hs : MESG_TX_SYNC < 256 := by decide
  have hr : MESG_SYSTEM_RESET_ID < 256 := by decide
  have hm : ∀ x : Nat, x % 256 < 256 := fun x => Nat.mod_lt _ (by omega)
  have key : ∀ (l : List Nat) (n : Nat), n = l.length → (∀ b ∈ l, b < 256) →
      l ++ [calcMsgChecksum l n] = l ++ [xorAll l] := by
    intro l n hn hl
    rw [calcMsgChecksum_eq l n hn hl]
  cases c <;>
    simp only [Command.submit, Command.msgId, Command.dataLen, ResetSystem, RequestMessage,
      SetNetworkKey, AssignChannel, SetChannelId, SetChannelPeriod, SetChannelSearchTimeout,
      SetChannelRFFreq, SetSearchWaveform, OpenChannel, CloseChannel, SendBroadcastData,
      SendAcknowledgedData, SendExtBroadcastData, SendExtAcknowledgedData,
      SendBurstTransferPacket, SendExtBurstTransferPacket, hsync, hreset,
      Nat.mod_eq_of_lt h1, Nat.mod_eq_of_lt h2, Nat.mod_eq_of_lt h3, Nat.mod_eq_of_lt h4,
      Nat.mod_eq_of_lt h5, Nat.mod_eq_of_lt h6, Nat.mod_eq_of_lt h7, Nat.mod_eq_of_lt h8,
      Nat.mod_eq_of_lt h9, Nat.mod_eq_of_lt h10, Nat.mod_eq_of_lt h11, Nat.mod_eq_of_lt h12,
      Nat.mod_eq_of_lt h13, Nat.mod_eq_of_lt h14, Nat.mod_eq_of_lt h15] <;>
    (refine ⟨?_, ?_, ?_, trivial⟩
     pick_goal 3
     · refine key _ _ ?_ ?_
       · rfl
       · simp only [List.forall_mem_cons, List.mem_singleton, forall_eq, List.mem_nil_iff,
           List.not_mem_nil, false_implies, implies_true, and_true]
         refine ⟨hs, by omega, ?_⟩
         simp only [u8_lt, hm, and_self, and_true, true_and, hr, h1, h2, h3, h4, h5, h6, h7, h8,
           h9, h10, h11, h12, h13, h14, h15]
         all_goals omega
     · rfl)


theorem write_returns_size (q : TxQueue) (data : List Nat) (size : Nat) (hs : size ≤ 64)
    (r : Nat × TxQueue × Option Transfer) (h : write q data size = some r) : r.1 = size := by
  have h64 : ¬ size > 64 := by omega
  simp only [write, h64, if_false] at h
  split_ifs at h <;> (cases h; rfl)

theorem write_claimQueue (n : Nat) (data : List Nat) (size : Nat) (hs : size ≤ 64)
    (hn : size + 2 ≤ n) : ∃ r, write (claimQueue n) data size = some r := by
  have h64 : ¬ size > 64 := by omega
  have h1 : ¬ (0 + 1 ≥ n) := by omega
  have h2 : ¬ (n - 1 < size + 1) := by omega
  have h3 : ¬ (n - 1 + 0 < size + 1) := by omega
  simp [write, claimQueue, h64, h1, h2, h3]

/-- A buffer that starts with a frame of `L ≥ 1` data bytes decodes, with `tBytes = L + 4`,
to exactly that message. -/
theorem handleMessages_single (K : AntDefs) (buffer : Buffer) (L : Nat) (hL : 1 ≤ L)
    (hsync : buffer 0 = MESG_TX_SYNC) (hlen : buffer 1 = L)
    (hck : buffer (L + 3) = xorAll (bytesAt buffer 0 (L + 3))) :
    handleMessages K buffer ((L : Int) + 4) =
      some ([⟨buffer K.STREAM_CHANNEL, buffer 2, 3, L⟩], 1) := by
  have hn : ((L : Int) + 4).toNat = (L + 3) + 1 := by omega
  rw [handleMessages, hn,
    handleMessagesLoop_step K buffer (L + 3) 0 0 L _ (fun i hi => by omega) (by simpa using hsync)
      (by simpa using hlen) hL (by simpa using hck) (by simp),
    handleMessagesLoop_done _ _ _ _ _ (by simp)]
  simp

theorem bufferOf_mid (A B C : List Nat) (i : Nat) (h : i < B.length) :
    bufferOf (A ++ B ++ C) (A.length + i) = B.getD i 0 := by
  simp only [bufferOf, List.getD_eq_getElem?_getD]
  rw [List.append_assoc, List.getElem?_append_right (by omega)]
  simp only [Nat.add_sub_cancel_left]
  rw [List.getElem?_append_left h]

theorem bytesAt_bufferOf_mid (A B C : List Nat) (a n : Nat) (h : a + n ≤ B.length) :
    bytesAt (bufferOf (A ++ B ++ C)) (A.length + a) n = (B.drop a).take n := by
  apply List.ext_getElem
  · simp [bytesAt]; omega
  · intro i h1 h2
    simp only [bytesAt, List.length_map, List.length_range] at h1
    simp only [bytesAt, List.getElem_map, List.getElem_range, List.getElem_take, List.getElem_drop]
    rw [Nat.add_assoc, bufferOf_mid _ _ _ _ (by omega), List.getD_eq_getElem?_getD,
      List.getElem?_eq_getElem (by omega)]
    rfl

theorem Frame.bytes_length (f : Frame) : f.bytes.length = f.data.length + 4 := by
  simp [Frame.bytes]

/-- The decode loop over a sequence of segments whose frames have at least one data byte
and whose runs hold no sync byte. -/
theorem handleMessagesLoop_segments (K : AntDefs) (segs : List Segment) :
    ∀ (pre rest : List Nat) (fuel : Nat),
    (∀ s ∈ segs, MESG_TX_SYNC ∉ s.junk) → (∀ s ∈ segs, 1 ≤ s.frame.data.length) →
    (segmentsBytes segs).length ≤ fuel →
    ∃ ds, handleMessagesLoop K (bufferOf (pre ++ segmentsBytes segs ++ rest)) fuel pre.length
        ((segmentsBytes segs).length : Int) = some (ds, 1) ∧
      ds.map (fun d => (d.msgId, d.dataLength,
          d.data (bufferOf (pre ++ segmentsBytes segs ++ rest)))) =
        segs.map (fun s => (s.frame.msgId, s.frame.data.length, s.frame.data)) := by
  induction segs with
  | nil =>
    intro pre rest fuel _ _ _
    exact ⟨[], handleMessagesLoop_done _ _ _ _ _ (by simp [segmentsBytes]), rfl⟩
  | cons s segs ih =>
    intro pre rest fuel hjunk hdata hfuel
    have hlen : (segmentsBytes (s :: segs)).length =
        s.junk.length + (s.frame.data.length + 4) + (segmentsBytes segs).length := by
      simp [segmentsBytes, Frame.bytes_length]
      omega
    obtain ⟨fuel, rfl⟩ : ∃ f, fuel = f + 1 := ⟨fuel - 1, by omega⟩
    have hbuf : pre ++ segmentsBytes (s :: segs) ++ rest =
        (pre ++ s.junk) ++ s.frame.bytes ++ (segmentsBytes segs ++ rest) := by
      simp [segmentsBytes, List.append_assoc]
    have hbuf2 : pre ++ segmentsBytes (s :: segs) ++ rest =
        pre ++ s.junk ++ (s.frame.bytes ++ (segmentsBytes segs ++ rest)) := by
      simp [segmentsBytes, List.append_assoc]
    have hbuf3 : pre ++ segmentsBytes (s :: segs) ++ rest =
        (pre ++ s.junk ++ s.frame.bytes) ++ segmentsBytes segs ++ rest := by
      simp [segmentsBytes, List.append_assoc]
    have hA : (pre ++ s.junk).length = pre.length + s.junk.length := by simp
    have hB := Frame.bytes_length s.frame
    have hmid : ∀ i, i < s.frame.data.length + 4 →
        bufferOf (pre ++ segmentsBytes (s :: segs) ++ rest) (pre.length + s.junk.length + i) =
          s.frame.bytes.getD i 0 := by
      intro i hi
      rw [hbuf, ← hA]
      exact bufferOf_mid _ _ _ _ (by omega)
    have hj : ∀ i, i < s.junk.length →
        bufferOf (pre ++ segmentsBytes (s :: segs) ++ rest) (pre.length + i) ≠ MESG_TX_SYNC := by
      intro i hi
      rw [hbuf2, bufferOf_mid _ _ _ _ hi, List.getD_eq_getElem?_getD,
        List.getElem?_eq_getElem hi]
      intro h
      exact hjunk s (List.mem_cons_self _ _) (h ▸ List.getElem_mem hi)
    have h0 := hmid 0 (by omega)
    have h1 := hmid 1 (by omega)
    have h2 := hmid 2 (by omega)
    have hck := hmid (s.frame.data.length + 3) (by omega)
    have hpre : bytesAt (bufferOf (pre ++ segmentsBytes (s :: segs) ++ rest))
        (pre.length + s.junk.length) (s.frame.data.length + 3) =
        MESG_TX_SYNC :: s.frame.data.length :: s.frame.msgId :: s.frame.data := by
      have := bytesAt_bufferOf_mid (pre ++ s.junk) s.frame.bytes (segmentsBytes segs ++ rest) 0
        (s.frame.data.length + 3) (by omega)
      rw [← hbuf, hA, Nat.add_zero] at this
      rw [this, List.drop_zero, Frame.bytes, List.take_append_of_le_length (by simp)]
      exact List.take_of_length_le (by simp)
    have hdat : bytesAt (bufferOf (pre ++ segmentsBytes (s :: segs) ++ rest))
        (pre.length + s.junk.length + 3) s.frame.data.length = s.frame.data := by
      have := bytesAt_bufferOf_mid (pre ++ s.junk) s.frame.bytes (segmentsBytes segs ++ rest) 3
        s.frame.data.length (by omega)
      rw [← hbuf, hA] at this
      rw [this, Frame.bytes]
      simp
    simp only [Frame.bytes, List.cons_append, List.getD_cons_zero, List.getD_cons_succ,
      Nat.add_zero] at h0 h1 h2
    have hck' : bufferOf (pre ++ segmentsBytes (s :: segs) ++ rest)
        (pre.length + s.junk.length + (s.frame.data.length + 3)) =
        xorAll (bytesAt (bufferOf (pre ++ segmentsBytes (s :: segs) ++ rest))
          (pre.length + s.junk.length) (s.frame.data.length + 3)) := by
      rw [hck, hpre, Frame.bytes, List.getD_eq_getElem?_getD,
        List.getElem?_append_right (by simp)]
      simp
    have hstep := handleMessagesLoop_step K (bufferOf (pre ++ segmentsBytes (s :: segs) ++ rest))
      fuel pre.length s.junk.length s.frame.data.length ((segmentsBytes (s :: segs)).length : Int)
      hj h0 h1 (hdata s (List.mem_cons_self _ _)) hck' (by rw [hlen]; push_cast; omega)
    obtain ⟨ds, hds, hmap⟩ := ih (pre ++ s.junk ++ s.frame.bytes) rest fuel
      (fun x hx => hjunk x (List.mem_cons_of_mem _ hx))
      (fun x hx => hdata x (List.mem_cons_of_mem _ hx)) (by omega)
    rw [← hbuf3] at hds hmap
    have e1 : (pre ++ s.junk ++ s.frame.bytes).length =
        pre.length + s.junk.length + (s.frame.data.length + 4) := by
      simp [Frame.bytes_length]; omega
    have e2 : ((segmentsBytes (s :: segs)).length : Int) - (s.junk.length : Int) -
        ((s.frame.data.length : Int) + 4) = ((segmentsBytes segs).length : Int) := by
      rw [hlen]; push_cast; omega
    rw [e1] at hds
    rw [hstep, e2, hds]
    refine ⟨_, rfl, ?_⟩
    simp only [Dispatch.data] at hmap
    simp only [List.map_cons, Dispatch.data, h2, hdat, hmap]

/-! ## Lemmas on the channel state machine -/

theorem updateCfg_length (d : List TDCONFIG) (i : Nat) (f : TDCONFIG → TDCONFIG) :
    (updateCfg d i f).length = d.length := by
  unfold updateCfg
  split <;> simp

theorem updateCfg_getElem? (d : List TDCONFIG) (i j : Nat) (f : TDCONFIG → TDCONFIG) :
    (updateCfg d i f)[j]? = if i = j then d[j]?.map f else d[j]? := by
  unfold updateCfg
  split
  · rename_i cfg h
    rw [List.getElem?_set]
    split
    · rename_i hij
      subst hij
      have hi : i < d.length := (List.getElem?_eq_some.mp h).1
      simp [hi, h]
    · rfl
  · rename_i h
    split
    · rename_i hij
      subst hij
      simp [h]
    · rfl

/-- The profile indices are pairwise different. -/
theorem AntDefs.WF.profile_ne {K : AntDefs} (hK : K.WF) :
    K.PROFILE_HRM ≠ K.PROFILE_SPDCAD ∧
    K.PROFILE_HRM ≠ K.PROFILE_POWER ∧
    K.PROFILE_HRM ≠ K.PROFILE_STRIDE ∧
    K.PROFILE_HRM ≠ K.PROFILE_SPEED ∧
    K.PROFILE_HRM ≠ K.PROFILE_CADENCE ∧
    K.PROFILE_SPDCAD ≠ K.PROFILE_HRM ∧
    K.PROFILE_SPDCAD ≠ K.PROFILE_POWER ∧
    K.PROFILE_SPDCAD ≠ K.PROFILE_STRIDE ∧
    K.PROFILE_SPDCAD ≠ K.PROFILE_SPEED ∧
    K.PROFILE_SPDCAD ≠ K.PROFILE_CADENCE ∧
    K.PROFILE_POWER ≠ K.PROFILE_HRM ∧
    K.PROFILE_POWER ≠ K.PROFILE_SPDCAD ∧
    K.PROFILE_POWER ≠ K.PROFILE_STRIDE ∧
    K.PROFILE_POWER ≠ K.PROFILE_SPEED ∧
    K.PROFILE_POWER ≠ K.PROFILE_CADENCE ∧
    K.PROFILE_STRIDE ≠ K.PROFILE_HRM ∧
    K.PROFILE_STRIDE ≠ K.PROFILE_SPDCAD ∧
    K.PROFILE_STRIDE ≠ K.PROFILE_POWER ∧
    K.PROFILE_STRIDE ≠ K.PROFILE_SPEED ∧
    K.PROFILE_STRIDE ≠ K.PROFILE_CADENCE ∧
    K.PROFILE_SPEED ≠ K.PROFILE_HRM ∧
    K.PROFILE_SPEED ≠ K.PROFILE_SPDCAD ∧
    K.PROFILE_SPEED ≠ K.PROFILE_POWER ∧
    K.PROFILE_SPEED ≠ K.PROFILE_STRIDE ∧
    K.PROFILE_SPEED ≠ K.PROFILE_CADENCE ∧
    K.PROFILE_CADENCE ≠ K.PROFILE_HRM ∧
    K.PROFILE_CADENCE ≠ K.PROFILE_SPDCAD ∧
    K.PROFILE_CADENCE ≠ K.PROFILE_POWER ∧
    K.PROFILE_CADENCE ≠ K.PROFILE_STRIDE ∧
    K.PROFILE_CADENCE ≠ K.PROFILE_SPEED := by
  have h := hK.profile_labels
  simp only [List.nodup_cons, List.mem_cons, List.mem_singleton, not_or, List.not_mem_nil,
    not_false_eq_true, List.nodup_nil, and_true] at h
  split_ands <;> (intro e; simp [e] at h)

theorem begin_length (K : AntDefs) (s : State) (key : Nat) :
    (begin K s key).dcfg.length = s.dcfg.length := by
  simp [begin, updateCfg_length]

/-- The table entry of a channel after `begin`: its channel is its index, its flags are the
initial ones and its transmission type is the slave one. -/
theorem begin_dcfg (K : AntDefs) (hK : K.WF) (s0 : State) (key c : Nat)
    (hlen : s0.dcfg.length = K.PROFILE_TOTAL) (hc : c < K.PROFILE_TOTAL) :
    ∃ cfg, (begin K s0 key).dcfg[c]? = some cfg ∧ cfg.channel = c ∧
      cfg.flags = setupFlags K ∧ cfg.transType = K.ANT_TRANSMISSION_SLAVE ∧
      cfg.channelType = K.ANT_CHANNEL_TYPE_SLAVE ∧ cfg.networkNumber = 0 ∧
      cfg.deviceNumber = 0 ∧ cfg.searchTimeout = 255 ∧ cfg.searchWaveform = 0x53 := by
  have hmem := (hK.profile_cover c).mp hc
  obtain ⟨p0, p1, p2, p3, p4, p5, p6, p7, p8, p9, p10, p11, p12, p13, p14, p15, p16, p17, p18, p19, p20, p21, p22, p23, p24, p25, p26, p27, p28, p29⟩ := hK.profile_ne
  obtain ⟨c0, hc0⟩ : ∃ c0, s0.dcfg[c]? = some c0 :=
    ⟨s0.dcfg[c], List.getElem?_eq_getElem (by omega)⟩
  simp only [List.mem_cons, List.mem_singleton, List.mem_nil_iff, or_false] at hmem
  simp only [begin, updateCfg_getElem?]
  rcases hmem with h | h | h | h | h | h <;> subst h <;>
    simp only [p0, p1, p2, p3, p4, p5, p6, p7, p8, p9, p10, p11, p12, p13, p14, p15, p16, p17, p18, p19, p20, p21, p22, p23, p24, p25, p26, p27, p28, p29, if_false, if_true, hc0, Option.map_some', Option.some.injEq,
      exists_eq_left', profileSetup_HRM, profileSetup_SPDCAD, profileSetup_POWER,
      profileSetup_STRIDE, profileSetup_SPEED, profileSetup_CADENCE, and_self]

/-- The case labels of `message_event` are pairwise different. -/
theorem AntDefs.WF.event_ne {K : AntDefs} (hK : K.WF) :
    K.MESG_BROADCAST_DATA_ID ≠ K.MESG_STARTUP_MESG_ID ∧
    K.MESG_BROADCAST_DATA_ID ≠ K.MESG_RESPONSE_EVENT_ID ∧
    K.MESG_BROADCAST_DATA_ID ≠ K.MESG_CHANNEL_STATUS_ID ∧
    K.MESG_BROADCAST_DATA_ID ≠ K.MESG_CAPABILITIES_ID ∧
    K.MESG_BROADCAST_DATA_ID ≠ K.MESG_CHANNEL_ID_ID ∧
    K.MESG_BROADCAST_DATA_ID ≠ K.MESG_VERSION_ID ∧
    K.MESG_STARTUP_MESG_ID ≠ K.MESG_BROADCAST_DATA_ID ∧
    K.MESG_STARTUP_MESG_ID ≠ K.MESG_RESPONSE_EVENT_ID ∧
    K.MESG_STARTUP_MESG_ID ≠ K.MESG_CHANNEL_STATUS_ID ∧
    K.MESG_STARTUP_MESG_ID ≠ K.MESG_CAPABILITIES_ID ∧
    K.MESG_STARTUP_MESG_ID ≠ K.MESG_CHANNEL_ID_ID ∧
    K.MESG_STARTUP_MESG_ID ≠ K.MESG_VERSION_ID ∧
    K.MESG_RESPONSE_EVENT_ID ≠ K.MESG_BROADCAST_DATA_ID ∧
    K.MESG_RESPONSE_EVENT_ID ≠ K.MESG_STARTUP_MESG_ID ∧
    K.MESG_RESPONSE_EVENT_ID ≠ K.MESG_CHANNEL_STATUS_ID ∧
    K.MESG_RESPONSE_EVENT_ID ≠ K.MESG_CAPABILITIES_ID ∧
    K.MESG_RESPONSE_EVENT_ID ≠ K.MESG_CHANNEL_ID_ID ∧
    K.MESG_RESPONSE_EVENT_ID ≠ K.MESG_VERSION_ID ∧
    K.MESG_CHANNEL_STATUS_ID ≠ K.MESG_BROADCAST_DATA_ID ∧
    K.MESG_CHANNEL_STATUS_ID ≠ K.MESG_STARTUP_MESG_ID ∧
    K.MESG_CHANNEL_STATUS_ID ≠ K.MESG_RESPONSE_EVENT_ID ∧
    K.MESG_CHANNEL_STATUS_ID ≠ K.MESG_CAPABILITIES_ID ∧
    K.MESG_CHANNEL_STATUS_ID ≠ K.MESG_CHANNEL_ID_ID ∧
    K.MESG_CHANNEL_STATUS_ID ≠ K.MESG_VERSION_ID ∧
    K.MESG_CAPABILITIES_ID ≠ K.MESG_BROADCAST_DATA_ID ∧
    K.MESG_CAPABILITIES_ID ≠ K.MESG_STARTUP_MESG_ID ∧
    K.MESG_CAPABILITIES_ID ≠ K.MESG_RESPONSE_EVENT_ID ∧
    K.MESG_CAPABILITIES_ID ≠ K.MESG_CHANNEL_STATUS_ID ∧
    K.MESG_CAPABILITIES_ID ≠ K.MESG_CHANNEL_ID_ID ∧
    K.MESG_CAPABILITIES_ID ≠ K.MESG_VERSION_ID ∧
    K.MESG_CHANNEL_ID_ID ≠ K.MESG_BROADCAST_DATA_ID ∧
    K.MESG_CHANNEL_ID_ID ≠ K.MESG_STARTUP_MESG_ID ∧
    K.MESG_CHANNEL_ID_ID ≠ K.MESG_RESPONSE_EVENT_ID ∧
    K.MESG_CHANNEL_ID_ID ≠ K.MESG_CHANNEL_STATUS_ID ∧
    K.MESG_CHANNEL_ID_ID ≠ K.MESG_CAPABILITIES_ID ∧
    K.MESG_CHANNEL_ID_ID ≠ K.MESG_VERSION_ID ∧
    K.MESG_VERSION_ID ≠ K.MESG_BROADCAST_DATA_ID ∧
    K.MESG_VERSION_ID ≠ K.MESG_STARTUP_MESG_ID ∧
    K.MESG_VERSION_ID ≠ K.MESG_RESPONSE_EVENT_ID ∧
    K.MESG_VERSION_ID ≠ K.MESG_CHANNEL_STATUS_ID ∧
    K.MESG_VERSION_ID ≠ K.MESG_CAPABILITIES_ID ∧
    K.MESG_VERSION_ID ≠ K.MESG_CHANNEL_ID_ID := by
  have h := hK.event_labels
  simp only [List.nodup_cons, List.mem_cons, List.mem_singleton, not_or, List.not_mem_nil,
    not_false_eq_true, List.nodup_nil, and_true] at h
  split_ands <;> (intro e; simp [e] at h)

/-- The case labels of `message_response` that act are pairwise different. -/
theorem AntDefs.WF.response_ne {K : AntDefs} (hK : K.WF) :
    K.MESG_EVENT_ID ≠ K.MESG_NETWORK_KEY_ID ∧
    K.MESG_EVENT_ID ≠ K.MESG_ASSIGN_CHANNEL_ID ∧
    K.MESG_EVENT_ID ≠ K.MESG_CHANNEL_MESG_PERIOD_ID ∧
    K.MESG_EVENT_ID ≠ K.MESG_CHANNEL_SEARCH_TIMEOUT_ID ∧
    K.MESG_EVENT_ID ≠ K.MESG_CHANNEL_RADIO_FREQ_ID ∧
    K.MESG_EVENT_ID ≠ K.MESG_SEARCH_WAVEFORM_ID ∧
    K.MESG_EVENT_ID ≠ K.MESG_CHANNEL_ID_ID ∧
    K.MESG_EVENT_ID ≠ K.MESG_OPEN_CHANNEL_ID ∧
    K.MESG_EVENT_ID ≠ K.MESG_CLOSE_CHANNEL_ID ∧
    K.MESG_NETWORK_KEY_ID ≠ K.MESG_EVENT_ID ∧
    K.MESG_NETWORK_KEY_ID ≠ K.MESG_ASSIGN_CHANNEL_ID ∧
    K.MESG_NETWORK_KEY_ID ≠ K.MESG_CHANNEL_MESG_PERIOD_ID ∧
    K.MESG_NETWORK_KEY_ID ≠ K.MESG_CHANNEL_SEARCH_TIMEOUT_ID ∧
    K.MESG_NETWORK_KEY_ID ≠ K.MESG_CHANNEL_RADIO_FREQ_ID ∧
    K.MESG_NETWORK_KEY_ID ≠ K.MESG_SEARCH_WAVEFORM_ID ∧
    K.MESG_NETWORK_KEY_ID ≠ K.MESG_CHANNEL_ID_ID ∧
    K.MESG_NETWORK_KEY_ID ≠ K.MESG_OPEN_CHANNEL_ID ∧
    K.MESG_NETWORK_KEY_ID ≠ K.MESG_CLOSE_CHANNEL_ID ∧
    K.MESG_ASSIGN_CHANNEL_ID ≠ K.MESG_EVENT_ID ∧
    K.MESG_ASSIGN_CHANNEL_ID ≠ K.MESG_NETWORK_KEY_ID ∧
    K.MESG_ASSIGN_CHANNEL_ID ≠ K.MESG_CHANNEL_MESG_PERIOD_ID ∧
    K.MESG_ASSIGN_CHANNEL_ID ≠ K.MESG_CHANNEL_SEARCH_TIMEOUT_ID ∧
    K.MESG_ASSIGN_CHANNEL_ID ≠ K.MESG_CHANNEL_RADIO_FREQ_ID ∧
    K.MESG_ASSIGN_CHANNEL_ID ≠ K.MESG_SEARCH_WAVEFORM_ID ∧
    K.MESG_ASSIGN_CHANNEL_ID ≠ K.MESG_CHANNEL_ID_ID ∧
    K.MESG_ASSIGN_CHANNEL_ID ≠ K.MESG_OPEN_CHANNEL_ID ∧
    K.MESG_ASSIGN_CHANNEL_ID ≠ K.MESG_CLOSE_CHANNEL_ID ∧
    K.MESG_CHANNEL_MESG_PERIOD_ID ≠ K.MESG_EVENT_ID ∧
    K.MESG_CHANNEL_MESG_PERIOD_ID ≠ K.MESG_NETWORK_KEY_ID ∧
    K.MESG_CHANNEL_MESG_PERIOD_ID ≠ K.MESG_ASSIGN_CHANNEL_ID ∧
    K.MESG_CHANNEL_MESG_PERIOD_ID ≠ K.MESG_CHANNEL_SEARCH_TIMEOUT_ID ∧
    K.MESG_CHANNEL_MESG_PERIOD_ID ≠ K.MESG_CHANNEL_RADIO_FREQ_ID ∧
    K.MESG_CHANNEL_MESG_PERIOD_ID ≠ K.MESG_SEARCH_WAVEFORM_ID ∧
    K.MESG_CHANNEL_MESG_PERIOD_ID ≠ K.MESG_CHANNEL_ID_ID ∧
    K.MESG_CHANNEL_MESG_PERIOD_ID ≠ K.MESG_OPEN_CHANNEL_ID ∧
    K.MESG_CHANNEL_MESG_PERIOD_ID ≠ K.MESG_CLOSE_CHANNEL_ID ∧
    K.MESG_CHANNEL_SEARCH_TIMEOUT_ID ≠ K.MESG_EVENT_ID ∧
    K.MESG_CHANNEL_SEARCH_TIMEOUT_ID ≠ K.MESG_NETWORK_KEY_ID ∧
    K.MESG_CHANNEL_SEARCH_TIMEOUT_ID ≠ K.MESG_ASSIGN_CHANNEL_ID ∧
    K.MESG_CHANNEL_SEARCH_TIMEOUT_ID ≠ K.MESG_CHANNEL_MESG_PERIOD_ID ∧
    K.MESG_CHANNEL_SEARCH_TIMEOUT_ID ≠ K.MESG_CHANNEL_RADIO_FREQ_ID ∧
    K.MESG_CHANNEL_SEARCH_TIMEOUT_ID ≠ K.MESG_SEARCH_WAVEFORM_ID ∧
    K.MESG_CHANNEL_SEARCH_TIMEOUT_ID ≠ K.MESG_CHANNEL_ID_ID ∧
    K.MESG_CHANNEL_SEARCH_TIMEOUT_ID ≠ K.MESG_OPEN_CHANNEL_ID ∧
    K.MESG_CHANNEL_SEARCH_TIMEOUT_ID ≠ K.MESG_CLOSE_CHANNEL_ID ∧
    K.MESG_CHANNEL_RADIO_FREQ_ID ≠ K.MESG_EVENT_ID ∧
    K.MESG_CHANNEL_RADIO_FREQ_ID ≠ K.MESG_NETWORK_KEY_ID ∧
    K.MESG_CHANNEL_RADIO_FREQ_ID ≠ K.MESG_ASSIGN_CHANNEL_ID ∧
    K.MESG_CHANNEL_RADIO_FREQ_ID ≠ K.MESG_CHANNEL_MESG_PERIOD_ID ∧
    K.MESG_CHANNEL_RADIO_FREQ_ID ≠ K.MESG_CHANNEL_SEARCH_TIMEOUT_ID ∧
    K.MESG_CHANNEL_RADIO_FREQ_ID ≠ K.MESG_SEARCH_WAVEFORM_ID ∧
    K.MESG_CHANNEL_RADIO_FREQ_ID ≠ K.MESG_CHANNEL_ID_ID ∧
    K.MESG_CHANNEL_RADIO_FREQ_ID ≠ K.MESG_OPEN_CHANNEL_ID ∧
    K.MESG_CHANNEL_RADIO_FREQ_ID ≠ K.MESG_CLOSE_CHANNEL_ID ∧
    K.MESG_SEARCH_WAVEFORM_ID ≠ K.MESG_EVENT_ID ∧
    K.MESG_SEARCH_WAVEFORM_ID ≠ K.MESG_NETWORK_KEY_ID ∧
    K.MESG_SEARCH_WAVEFORM_ID ≠ K.MESG_ASSIGN_CHANNEL_ID ∧
    K.MESG_SEARCH_WAVEFORM_ID ≠ K.MESG_CHANNEL_MESG_PERIOD_ID ∧
    K.MESG_SEARCH_WAVEFORM_ID ≠ K.MESG_CHANNEL_SEARCH_TIMEOUT_ID ∧
    K.MESG_SEARCH_WAVEFORM_ID ≠ K.MESG_CHANNEL_RADIO_FREQ_ID ∧
    K.MESG_SEARCH_WAVEFORM_ID ≠ K.MESG_CHANNEL_ID_ID ∧
    K.MESG_SEARCH_WAVEFORM_ID ≠ K.MESG_OPEN_CHANNEL_ID ∧
    K.MESG_SEARCH_WAVEFORM_ID ≠ K.MESG_CLOSE_CHANNEL_ID ∧
    K.MESG_CHANNEL_ID_ID ≠ K.MESG_EVENT_ID ∧
    K.MESG_CHANNEL_ID_ID ≠ K.MESG_NETWORK_KEY_ID ∧
    K.MESG_CHANNEL_ID_ID ≠ K.MESG_ASSIGN_CHANNEL_ID ∧
    K.MESG_CHANNEL_ID_ID ≠ K.MESG_CHANNEL_MESG_PERIOD_ID ∧
    K.MESG_CHANNEL_ID_ID ≠ K.MESG_CHANNEL_SEARCH_TIMEOUT_ID ∧
    K.MESG_CHANNEL_ID_ID ≠ K.MESG_CHANNEL_RADIO_FREQ_ID ∧
    K.MESG_CHANNEL_ID_ID ≠ K.MESG_SEARCH_WAVEFORM_ID ∧
    K.MESG_CHANNEL_ID_ID ≠ K.MESG_OPEN_CHANNEL_ID ∧
    K.MESG_CHANNEL_ID_ID ≠ K.MESG_CLOSE_CHANNEL_ID ∧
    K.MESG_OPEN_CHANNEL_ID ≠ K.MESG_EVENT_ID ∧
    K.MESG_OPEN_CHANNEL_ID ≠ K.MESG_NETWORK_KEY_ID ∧
    K.MESG_OPEN_CHANNEL_ID ≠ K.MESG_ASSIGN_CHANNEL_ID ∧
    K.MESG_OPEN_CHANNEL_ID ≠ K.MESG_CHANNEL_MESG_PERIOD_ID ∧
    K.MESG_OPEN_CHANNEL_ID ≠ K.MESG_CHANNEL_SEARCH_TIMEOUT_ID ∧
    K.MESG_OPEN_CHANNEL_ID ≠ K.MESG_CHANNEL_RADIO_FREQ_ID ∧
    K.MESG_OPEN_CHANNEL_ID ≠ K.MESG_SEARCH_WAVEFORM_ID ∧
    K.MESG_OPEN_CHANNEL_ID ≠ K.MESG_CHANNEL_ID_ID ∧
    K.MESG_OPEN_CHANNEL_ID ≠ K.MESG_CLOSE_CHANNEL_ID ∧
    K.MESG_CLOSE_CHANNEL_ID ≠ K.MESG_EVENT_ID ∧
    K.MESG_CLOSE_CHANNEL_ID ≠ K.MESG_NETWORK_KEY_ID ∧
    K.MESG_CLOSE_CHANNEL_ID ≠ K.MESG_ASSIGN_CHANNEL_ID ∧
    K.MESG_CLOSE_CHANNEL_ID ≠ K.MESG_CHANNEL_MESG_PERIOD_ID ∧
    K.MESG_CLOSE_CHANNEL_ID ≠ K.MESG_CHANNEL_SEARCH_TIMEOUT_ID ∧
    K.MESG_CLOSE_CHANNEL_ID ≠ K.MESG_CHANNEL_RADIO_FREQ_ID ∧
    K.MESG_CLOSE_CHANNEL_ID ≠ K.MESG_SEARCH_WAVEFORM_ID ∧
    K.MESG_CLOSE_CHANNEL_ID ≠ K.MESG_CHANNEL_ID_ID ∧
    K.MESG_CLOSE_CHANNEL_ID ≠ K.MESG_OPEN_CHANNEL_ID := by
  have h := hK.response_labels
  simp only [List.nodup_cons, List.mem_cons, List.mem_singleton, not_or, List.not_mem_nil,
    not_false_eq_true, List.nodup_nil, and_true] at h
  split_ands <;> (intro e; simp [e] at h)

/-- `message_event` hands a response message to `message_response`. -/
theorem message_event_ack (K : AntDefs) (hK : K.WF) (F : FloatOps) (s : State) (m : Message)
    (c id : Nat) (hm : m.isResponse K c id) :
    message_event K F s m.channel m.msgId m.payload = message_response K F s c id m.payload := by
  obtain ⟨e0, e1, e2, e3, e4, e5, e6, e7, e8, e9, e10, e11, e12, e13, e14, e15, e16, e17, e18,
    e19, e20, e21, e22, e23, e24, e25, e26, e27, e28, e29, e30, e31, e32, e33, e34, e35,
    e36, e37, e38, e39, e40, e41⟩ := hK.event_ne
  obtain ⟨h1, h2, h3⟩ := hm
  simp only [message_event, h1, h2, h3, e0, e1, e2, e3, e4, e5, e6, e7, e8, e9, e10, e11, e12, e13, e14, e15, e16, e17, e18,
    e19, e20, e21, e22, e23, e24, e25, e26, e27, e28, e29, e30, e31, e32, e33, e34, e35,
    e36, e37, e38, e39, e40, e41, if_false, if_true]

theorem message_response_MESG_NETWORK_KEY_ID (K : AntDefs) (hK : K.WF) (F : FloatOps) (s : State)
    (chan : Nat) (payload : Buffer) (cfg : TDCONFIG) (hcfg : s.dcfg[chan]? = some cfg) :
    message_response K F s chan K.MESG_NETWORK_KEY_ID payload =
      some (
        { s with dcfg := s.dcfg.set chan { cfg with flags := { cfg.flags with keyAccepted := 1 } } },
        [Out.write (if cfg.transType = K.ANT_TRANSMISSION_MASTER then
            AssignChannel K cfg.channel K.PARAMETER_TX_NOT_RX cfg.networkNumber
          else AssignChannel K cfg.channel cfg.channelType cfg.networkNumber)]) := by
  obtain ⟨r0, r1, r2, r3, r4, r5, r6, r7, r8, r9, r10, r11, r12, r13, r14, r15, r16, r17, r18,
    r19, r20, r21, r22, r23, r24, r25, r26, r27, r28, r29, r30, r31, r32, r33, r34, r35,
    r36, r37, r38, r39, r40, r41, r42, r43, r44, r45, r46, r47, r48, r49, r50, r51, r52,
    r53, r54, r55, r56, r57, r58, r59, r60, r61, r62, r63, r64, r65, r66, r67, r68, r69,
    r70, r71, r72, r73, r74, r75, r76, r77, r78, r79, r80, r81, r82, r83, r84, r85, r86,
    r87, r88, r89⟩ := hK.response_ne
  simp only [message_response, hcfg, r0, r1, r2, r3, r4, r5, r6, r7, r8, r9, r10, r11, r12, r13, r14, r15, r16, r17, r18,
    r19, r20, r21, r22, r23, r24, r25, r26, r27, r28, r29, r30, r31, r32, r33, r34, r35,
    r36, r37, r38, r39, r40, r41, r42, r43, r44, r45, r46, r47, r48, r49, r50, r51, r52,
    r53, r54, r55, r56, r57, r58, r59, r60, r61, r62, r63, r64, r65, r66, r67, r68, r69,
    r70, r71, r72, r73, r74, r75, r76, r77, r78, r79, r80, r81, r82, r83, r84, r85, r86,
    r87, r88, r89, if_false, if_true]

theorem message_response_MESG_ASSIGN_CHANNEL_ID (K : AntDefs) (hK : K.WF) (F : FloatOps) (s : State)
    (chan : Nat) (payload : Buffer) (cfg : TDCONFIG) (hcfg : s.dcfg[chan]? = some cfg) :
    message_response K F s chan K.MESG_ASSIGN_CHANNEL_ID payload =
      some (s, [Out.write (SetChannelPeriod K cfg.channel cfg.channelPeriod)]) := by
  obtain ⟨r0, r1, r2, r3, r4, r5, r6, r7, r8, r9, r10, r11, r12, r13, r14, r15, r16, r17, r18,
    r19, r20, r21, r22, r23, r24, r25, r26, r27, r28, r29, r30, r31, r32, r33, r34, r35,
    r36, r37, r38, r39, r40, r41, r42, r43, r44, r45, r46, r47, r48, r49, r50, r51, r52,
    r53, r54, r55, r56, r57, r58, r59, r60, r61, r62, r63, r64, r65, r66, r67, r68, r69,
    r70, r71, r72, r73, r74, r75, r76, r77, r78, r79, r80, r81, r82, r83, r84, r85, r86,
    r87, r88, r89⟩ := hK.response_ne
  simp only [message_response, hcfg, r0, r1, r2, r3, r4, r5, r6, r7, r8, r9, r10, r11, r12, r13, r14, r15, r16, r17, r18,
    r19, r20, r21, r22, r23, r24, r25, r26, r27, r28, r29, r30, r31, r32, r33, r34, r35,
    r36, r37, r38, r39, r40, r41, r42, r43, r44, r45, r46, r47, r48, r49, r50, r51, r52,
    r53, r54, r55, r56, r57, r58, r59, r60, r61, r62, r63, r64, r65, r66, r67, r68, r69,
    r70, r71, r72, r73, r74, r75, r76, r77, r78, r79, r80, r81, r82, r83, r84, r85, r86,
    r87, r88, r89, if_false, if_true]

theorem message_response_MESG_CHANNEL_MESG_PERIOD_ID (K : AntDefs) (hK : K.WF) (F : FloatOps) (s : State)
    (chan : Nat) (payload : Buffer) (cfg : TDCONFIG) (hcfg : s.dcfg[chan]? = some cfg) :
    message_response K F s chan K.MESG_CHANNEL_MESG_PERIOD_ID payload =
      some (s, [Out.write (SetChannelSearchTimeout K cfg.channel cfg.searchTimeout)]) := by
  obtain ⟨r0, r1, r2, r3, r4, r5, r6, r7, r8, r9, r10, r11, r12, r13, r14, r15, r16, r17, r18,
    r19, r20, r21, r22, r23, r24, r25, r26, r27, r28, r29, r30, r31, r32, r33, r34, r35,
    r36, r37, r38, r39, r40, r41, r42, r43, r44, r45, r46, r47, r48, r49, r50, r51, r52,
    r53, r54, r55, r56, r57, r58, r59, r60, r61, r62, r63, r64, r65, r66, r67, r68, r69,
    r70, r71, r72, r73, r74, r75, r76, r77, r78, r79, r80, r81, r82, r83, r84, r85, r86,
    r87, r88, r89⟩ := hK.response_ne
  simp only [message_response, hcfg, r0, r1, r2, r3, r4, r5, r6, r7, r8, r9, r10, r11, r12, r13, r14, r15, r16, r17, r18,
    r19, r20, r21, r22, r23, r24, r25, r26, r27, r28, r29, r30, r31, r32, r33, r34, r35,
    r36, r37, r38, r39, r40, r41, r42, r43, r44, r45, r46, r47, r48, r49, r50, r51, r52,
    r53, r54, r55, r56, r57, r58, r59, r60, r61, r62, r63, r64, r65, r66, r67, r68, r69,
    r70, r71, r72, r73, r74, r75, r76, r77, r78, r79, r80, r81, r82, r83, r84, r85, r86,
    r87, r88, r89, if_false, if_true]

theorem message_response_MESG_CHANNEL_SEARCH_TIMEOUT_ID (K : AntDefs) (hK : K.WF) (F : FloatOps) (s : State)
    (chan : Nat) (payload : Buffer) (cfg : TDCONFIG) (hcfg : s.dcfg[chan]? = some cfg) :
    message_response K F s chan K.MESG_CHANNEL_SEARCH_TIMEOUT_ID payload =
      some (s, [Out.write (SetChannelRFFreq K cfg.channel cfg.RFFreq)]) := by
  obtain ⟨r0, r1, r2, r3, r4, r5, r6, r7, r8, r9, r10, r11, r12, r13, r14, r15, r16, r17, r18,
    r19, r20, r21, r22, r23, r24, r25, r26, r27, r28, r29, r30, r31, r32, r33, r34, r35,
    r36, r37, r38, r39, r40, r41, r42, r43, r44, r45, r46, r47, r48, r49, r50, r51, r52,
    r53, r54, r55, r56, r57, r58, r59, r60, r61, r62, r63, r64, r65, r66, r67, r68, r69,
    r70, r71, r72, r73, r74, r75, r76, r77, r78, r79, r80, r81, r82, r83, r84, r85, r86,
    r87, r88, r89⟩ := hK.response_ne
  simp only [message_response, hcfg, r0, r1, r2, r3, r4, r5, r6, r7, r8, r9, r10, r11, r12, r13, r14, r15, r16, r17, r18,
    r19, r20, r21, r22, r23, r24, r25, r26, r27, r28, r29, r30, r31, r32, r33, r34, r35,
    r36, r37, r38, r39, r40, r41, r42, r43, r44, r45, r46, r47, r48, r49, r50, r51, r52,
    r53, r54, r55, r56, r57, r58, r59, r60, r61, r62, r63, r64, r65, r66, r67, r68, r69,
    r70, r71, r72, r73, r74, r75, r76, r77, r78, r79, r80, r81, r82, r83, r84, r85, r86,
    r87, r88, r89, if_false, if_true]

theorem message_response_MESG_CHANNEL_RADIO_FREQ_ID (K : AntDefs) (hK : K.WF) (F : FloatOps) (s : State)
    (chan : Nat) (payload : Buffer) (cfg : TDCONFIG) (hcfg : s.dcfg[chan]? = some cfg) :
    message_response K F s chan K.MESG_CHANNEL_RADIO_FREQ_ID payload =
      some (s, [Out.write (SetSearchWaveform K cfg.channel cfg.searchWaveform)]) := by
  obtain ⟨r0, r1, r2, r3, r4, r5, r6, r7, r8, r9, r10, r11, r12, r13, r14, r15, r16, r17, r18,
    r19, r20, r21, r22, r23, r24, r25, r26, r27, r28, r29, r30, r31, r32, r33, r34, r35,
    r36, r37, r38, r39, r40, r41, r42, r43, r44, r45, r46, r47, r48, r49, r50, r51, r52,
    r53, r54, r55, r56, r57, r58, r59, r60, r61, r62, r63, r64, r65, r66, r67, r68, r69,
    r70, r71, r72, r73, r74, r75, r76, r77, r78, r79, r80, r81, r82, r83, r84, r85, r86,
    r87, r88, r89⟩ := hK.response_ne
  simp only [message_response, hcfg, r0, r1, r2, r3, r4, r5, r6, r7, r8, r9, r10, r11, r12, r13, r14, r15, r16, r17, r18,
    r19, r20, r21, r22, r23, r24, r25, r26, r27, r28, r29, r30, r31, r32, r33, r34, r35,
    r36, r37, r38, r39, r40, r41, r42, r43, r44, r45, r46, r47, r48, r49, r50, r51, r52,
    r53, r54, r55, r56, r57, r58, r59, r60, r61, r62, r63, r64, r65, r66, r67, r68, r69,
    r70, r71, r72, r73, r74, r75, r76, r77, r78, r79, r80, r81, r82, r83, r84, r85, r86,
    r87, r88, r89, if_false, if_true]

theorem message_response_MESG_SEARCH_WAVEFORM_ID (K : AntDefs) (hK : K.WF) (F : FloatOps) (s : State)
    (chan : Nat) (payload : Buffer) (cfg : TDCONFIG) (hcfg : s.dcfg[chan]? = some cfg) :
    message_response K F s chan K.MESG_SEARCH_WAVEFORM_ID payload =
      some (s, [Out.write (SetChannelId K cfg.channel cfg.deviceNumber cfg.deviceType
        cfg.transType)]) := by
  obtain ⟨r0, r1, r2, r3, r4, r5, r6, r7, r8, r9, r10, r11, r12, r13, r14, r15, r16, r17, r18,
    r19, r20, r21, r22, r23, r24, r25, r26, r27, r28, r29, r30, r31, r32, r33, r34, r35,
    r36, r37, r38, r39, r40, r41, r42, r43, r44, r45, r46, r47, r48, r49, r50, r51, r52,
    r53, r54, r55, r56, r57, r58, r59, r60, r61, r62, r63, r64, r65, r66, r67, r68, r69,
    r70, r71, r72, r73, r74, r75, r76, r77, r78, r79, r80, r81, r82, r83, r84, r85, r86,
    r87, r88, r89⟩ := hK.response_ne
  simp only [message_response, hcfg, r0, r1, r2, r3, r4, r5, r6, r7, r8, r9, r10, r11, r12, r13, r14, r15, r16, r17, r18,
    r19, r20, r21, r22, r23, r24, r25, r26, r27, r28, r29, r30, r31, r32, r33, r34, r35,
    r36, r37, r38, r39, r40, r41, r42, r43, r44, r45, r46, r47, r48, r49, r50, r51, r52,
    r53, r54, r55, r56, r57, r58, r59, r60, r61, r62, r63, r64, r65, r66, r67, r68, r69,
    r70, r71, r72, r73, r74, r75, r76, r77, r78, r79, r80, r81, r82, r83, r84, r85, r86,
    r87, r88, r89, if_false, if_true]

theorem message_response_MESG_CHANNEL_ID_ID (K : AntDefs) (hK : K.WF) (F : FloatOps) (s : State)
    (chan : Nat) (payload : Buffer) (cfg : TDCONFIG) (hcfg : s.dcfg[chan]? = some cfg) :
    message_response K F s chan K.MESG_CHANNEL_ID_ID payload =
      some (s, [Out.write (OpenChannel K cfg.channel)]) := by
  obtain ⟨r0, r1, r2, r3, r4, r5, r6, r7, r8, r9, r10, r11, r12, r13, r14, r15, r16, r17, r18,
    r19, r20, r21, r22, r23, r24, r25, r26, r27, r28, r29, r30, r31, r32, r33, r34, r35,
    r36, r37, r38, r39, r40, r41, r42, r43, r44, r45, r46, r47, r48, r49, r50, r51, r52,
    r53, r54, r55, r56, r57, r58, r59, r60, r61, r62, r63, r64, r65, r66, r67, r68, r69,
    r70, r71, r72, r73, r74, r75, r76, r77, r78, r79, r80, r81, r82, r83, r84, r85, r86,
    r87, r88, r89⟩ := hK.response_ne
  simp only [message_response, hcfg, r0, r1, r2, r3, r4, r5, r6, r7, r8, r9, r10, r11, r12, r13, r14, r15, r16, r17, r18,
    r19, r20, r21, r22, r23, r24, r25, r26, r27, r28, r29, r30, r31, r32, r33, r34, r35,
    r36, r37, r38, r39, r40, r41, r42, r43, r44, r45, r46, r47, r48, r49, r50, r51, r52,
    r53, r54, r55, r56, r57, r58, r59, r60, r61, r62, r63, r64, r65, r66, r67, r68, r69,
    r70, r71, r72, r73, r74, r75, r76, r77, r78, r79, r80, r81, r82, r83, r84, r85, r86,
    r87, r88, r89, if_false, if_true]

theorem message_response_MESG_OPEN_CHANNEL_ID (K : AntDefs) (hK : K.WF) (F : FloatOps) (s : State)
    (chan : Nat) (payload : Buffer) (cfg : TDCONFIG) (hcfg : s.dcfg[chan]? = some cfg) :
    message_response K F s chan K.MESG_OPEN_CHANNEL_ID payload =
      some (s, [Out.write (RequestMessage K cfg.channel K.MESG_CHANNEL_STATUS_ID),
        Out.write (RequestMessage K cfg.channel K.MESG_CAPABILITIES_ID),
        Out.write (RequestMessage K cfg.channel K.MESG_VERSION_ID)]) := by
  obtain ⟨r0, r1, r2, r3, r4, r5, r6, r7, r8, r9, r10, r11, r12, r13, r14, r15, r16, r17, r18,
    r19, r20, r21, r22, r23, r24, r25, r26, r27, r28, r29, r30, r31, r32, r33, r34, r35,
    r36, r37, r38, r39, r40, r41, r42, r43, r44, r45, r46, r47, r48, r49, r50, r51, r52,
    r53, r54, r55, r56, r57, r58, r59, r60, r61, r62, r63, r64, r65, r66, r67, r68, r69,
    r70, r71, r72, r73, r74, r75, r76, r77, r78, r79, r80, r81, r82, r83, r84, r85, r86,
    r87, r88, r89⟩ := hK.response_ne
  simp only [message_response, hcfg, r0, r1, r2, r3, r4, r5, r6, r7, r8, r9, r10, r11, r12, r13, r14, r15, r16, r17, r18,
    r19, r20, r21, r22, r23, r24, r25, r26, r27, r28, r29, r30, r31, r32, r33, r34, r35,
    r36, r37, r38, r39, r40, r41, r42, r43, r44, r45, r46, r47, r48, r49, r50, r51, r52,
    r53, r54, r55, r56, r57, r58, r59, r60, r61, r62, r63, r64, r65, r66, r67, r68, r69,
    r70, r71, r72, r73, r74, r75, r76, r77, r78, r79, r80, r81, r82, r83, r84, r85, r86,
    r87, r88, r89, if_false, if_true]

theorem message_response_MESG_CLOSE_CHANNEL_ID (K : AntDefs) (hK : K.WF) (F : FloatOps) (s : State)
    (chan : Nat) (payload : Buffer) (cfg : TDCONFIG) (hcfg : s.dcfg[chan]? = some cfg) :
    message_response K F s chan K.MESG_CLOSE_CHANNEL_ID payload =
      some (
        { s with dcfg := s.dcfg.set chan (sendMessageChannelStatus K
            { cfg with flags := { cfg.flags with keyAccepted := 0 } }
            K.ANT_CHANNEL_STATUS_UNASSIGNED).1 },
        (sendMessageChannelStatus K { cfg with flags := { cfg.flags with keyAccepted := 0 } }
          K.ANT_CHANNEL_STATUS_UNASSIGNED).2) := by
  obtain ⟨r0, r1, r2, r3, r4, r5, r6, r7, r8, r9, r10, r11, r12, r13, r14, r15, r16, r17, r18,
    r19, r20, r21, r22, r23, r24, r25, r26, r27, r28, r29, r30, r31, r32, r33, r34, r35,
    r36, r37, r38, r39, r40, r41, r42, r43, r44, r45, r46, r47, r48, r49, r50, r51, r52,
    r53, r54, r55, r56, r57, r58, r59, r60, r61, r62, r63, r64, r65, r66, r67, r68, r69,
    r70, r71, r72, r73, r74, r75, r76, r77, r78, r79, r80, r81, r82, r83, r84, r85, r86,
    r87, r88, r89⟩ := hK.response_ne
  simp only [message_response, hcfg, r0, r1, r2, r3, r4, r5, r6, r7, r8, r9, r10, r11, r12, r13, r14, r15, r16, r17, r18,
    r19, r20, r21, r22, r23, r24, r25, r26, r27, r28, r29, r30, r31, r32, r33, r34, r35,
    r36, r37, r38, r39, r40, r41, r42, r43, r44, r45, r46, r47, r48, r49, r50, r51, r52,
    r53, r54, r55, r56, r57, r58, r59, r60, r61, r62, r63, r64, r65, r66, r67, r68, r69,
    r70, r71, r72, r73, r74, r75, r76, r77, r78, r79, r80, r81, r82, r83, r84, r85, r86,
    r87, r88, r89, if_false, if_true]

theorem run_cons_some (K : AntDefs) (F : FloatOps) (s s1 : State) (m : Message)
    (ms : List Message) (out : List Out)
    (h : message_event K F s m.channel m.msgId m.payload = some (s1, out)) :
    run K F s (m :: ms) = (out ++ (run K F s1 ms).1, (run K F s1 ms).2) := by
  simp [run, h]

theorem set_dcfg_lookup (s : State) (c : Nat) (cfg : TDCONFIG) (h : c < s.dcfg.length) :
    ({ s with dcfg := s.dcfg.set c cfg } : State).dcfg[c]? = some cfg := by
  simp [h]

/-- What `sendMessageChannelStatus` emits and stores. -/
theorem sendMessageChannelStatus_spec (K : AntDefs) (cfg : TDCONFIG) (st : Nat) :
    (sendMessageChannelStatus K cfg st).2 =
      (if st ≠ cfg.flags.channelStatusOld then [statusNotification K cfg.channel st] else []) ∧
    (sendMessageChannelStatus K cfg st).1.flags.channelStatus = st ∧
    (sendMessageChannelStatus K cfg st).1.flags.channelStatusOld = st ∧
    (sendMessageChannelStatus K cfg st).1.channel = cfg.channel := by
  unfold sendMessageChannelStatus statusNotification
  by_cases h : st = cfg.flags.channelStatusOld
  · simp [h]
  · simp [h]

/-- `message_event` on a channel-status message for a channel of the table. -/
theorem message_event_status (K : AntDefs) (hK : K.WF) (F : FloatOps) (s : State)
    (m : Message) (c : Nat) (cfg : TDCONFIG) (hm : m.isChannelStatus K c)
    (hcfg : s.dcfg[c]? = some cfg) :
    message_event K F s m.channel m.msgId m.payload =
      some (⟨s.key, s.dcfg.set c (sendMessageChannelStatus K cfg (m.status K)).1, s.payload⟩,
        (sendMessageChannelStatus K cfg (m.status K)).2) := by
  obtain ⟨e0, e1, e2, e3, e4, e5, e6, e7, e8, e9, e10, e11, e12, e13, e14, e15, e16, e17, e18, e19,
    e20, e21, e22, e23, e24, e25, e26, e27, e28, e29, e30, e31, e32, e33, e34, e35, e36, e37, e38,
    e39, e40, e41⟩ := hK.event_ne
  obtain ⟨h1, h2⟩ := hm
  simp only [message_event, h1, h2, hcfg, Message.status, e0, e1, e2, e3, e4, e5, e6, e7, e8, e9,
    e10, e11, e12, e13, e14, e15, e16, e17, e18, e19, e20, e21, e22, e23, e24, e25, e26, e27, e28,
    e29, e30, e31, e32, e33, e34, e35, e36, e37, e38, e39, e40, e41, if_false, if_true]

/-- A run of channel-status messages for one channel emits one notification for each status
that differs from the recorded one, and records every status. -/
theorem run_status (K : AntDefs) (hK : K.WF) (F : FloatOps) (c : Nat) (ms : List Message) :
    ∀ (s : State) (cfg : TDCONFIG), s.dcfg[c]? = some cfg →
      (∀ m ∈ ms, m.isChannelStatus K c) →
      ∃ s1 cfg1, run K F s ms =
          (statusNotifications K cfg.channel cfg.flags.channelStatusOld
            (ms.map (Message.status K)), some s1) ∧
        s1.dcfg[c]? = some cfg1 ∧ cfg1.channel = cfg.channel ∧
        (ms ≠ [] → cfg1.flags.channelStatusOld = cfg1.flags.channelStatus ∧
          some cfg1.flags.channelStatus = (ms.map (Message.status K)).getLast?) := by
  induction ms with
  | nil =>
    intro s cfg hcfg _
    exact ⟨s, cfg, rfl, hcfg, rfl, fun h => absurd rfl h⟩
  | cons m ms ih =>
    intro s cfg hcfg hms
    have hm := hms m (List.mem_cons_self _ _)
    have hlen : c < s.dcfg.length := (List.getElem?_eq_some.mp hcfg).1
    obtain ⟨ho, hs1, hs2, hs3⟩ := sendMessageChannelStatus_spec K cfg (m.status K)
    obtain ⟨s1, cfg1, hrun, hl, hch, hlast⟩ := ih
      ⟨s.key, s.dcfg.set c (sendMessageChannelStatus K cfg (m.status K)).1, s.payload⟩ _
      (set_dcfg_lookup s c _ hlen) (fun x hx => hms x (List.mem_cons_of_mem _ hx))
    refine ⟨s1, cfg1, ?_, hl, by rw [hch, hs3], ?_⟩
    · rw [run_cons_some K F s _ m ms _ (message_event_status K hK F s m c cfg hm hcfg), hrun,
        ho, hs3, hs2]
      rfl
    · intro _
      cases ms with
      | nil =>
        simp only [run, Prod.mk.injEq, Option.some.injEq] at hrun
        have : cfg1 = (sendMessageChannelStatus K cfg (m.status K)).1 := by
          have h2 := set_dcfg_lookup s c (sendMessageChannelStatus K cfg (m.status K)).1 hlen
          rw [← hrun.2] at hl
          rw [hl] at h2
          exact Option.some.inj h2
        subst this
        simp [hs1, hs2]
      | cons m2 ms2 =>
        obtain ⟨h1, h2⟩ := hlast (by simp)
        refine ⟨h1, ?_⟩
        rw [h2]
        simp [List.getLast?_cons_cons]

theorem u8_natCast (n : Nat) : u8 (n : Int) = n % 256 := by
  unfold u8
  omega

/-- A notification is no channel-ID request. -/
theorem sendMessage_ne_request (K : AntDefs) (msg v c : Nat) :
    Out.sendMessage msg v ≠ channelIdRequest K c := by
  simp [channelIdRequest]

/-- A write of a size other than 6 is no channel-ID request. -/
theorem write_ne_request_of_size (K : AntDefs) (w : WriteCall) (c : Nat) (h : w.size ≠ 6) :
    Out.write w ≠ channelIdRequest K c := by
  intro e
  simp only [channelIdRequest, Out.write.injEq] at e
  rw [e] at h
  exact h rfl

/-- A write whose message id byte is not that of `MESG_REQUEST_ID` is no channel-ID
request. -/
theorem write_ne_request_of_id (K : AntDefs) (w : WriteCall) (c : Nat)
    (h : w.data[2]? ≠ some (K.MESG_REQUEST_ID % 256)) : Out.write w ≠ channelIdRequest K c := by
  intro e
  simp only [channelIdRequest, Out.write.injEq] at e
  rw [e] at h
  exact h rfl

/-- A request for another message id than `MESG_CHANNEL_ID_ID` is no channel-ID request. -/
theorem request_ne_request (K : AntDefs) (x c id : Nat) (hid : id < 256)
    (hc : K.MESG_CHANNEL_ID_ID < 256) (h : id ≠ K.MESG_CHANNEL_ID_ID) :
    Out.write (RequestMessage K x id) ≠ channelIdRequest K c := by
  intro e
  simp only [channelIdRequest, Out.write.injEq, RequestMessage, WriteCall.mk.injEq,
    List.cons_append, List.nil_append, List.cons.injEq, u8_natCast, true_and, and_true] at e
  have := e.2.1
  omega

/-- Channel-ID requests for different channels below 256 differ. -/
theorem channelIdRequest_inj (K : AntDefs) (a b : Nat) (ha : a < 256) (hb : b < 256)
    (h : channelIdRequest K a = channelIdRequest K b) : a = b := by
  simp only [channelIdRequest, Out.write.injEq, RequestMessage, WriteCall.mk.injEq,
    List.cons_append, List.nil_append, List.cons.injEq, u8_natCast, true_and, and_true] at h
  have := h.1
  omega

theorem payload_HRM_out (K : AntDefs) (hrm : payload_HRM_t) (data : Buffer)
    (r : payload_HRM_t × List Out) (h : payload_HRM K hrm data = some r) :
    ∀ o ∈ r.2, ∃ msg v, o = Out.sendMessage msg v := by
  unfold payload_HRM at h
  simp only at h
  split_ifs at h <;> cases h <;> simp

theorem payload_SPDCAD_out (K : AntDefs) (F : FloatOps) (st : payload_SPDCAD_t) (data : Buffer)
    (r : payload_SPDCAD_t × List Out) (h : payload_SPDCAD K F st data = some r) :
    ∀ o ∈ r.2, ∃ msg v, o = Out.sendMessage msg v := by
  unfold payload_SPDCAD at h
  simp only at h
  split at h
  · split at h
    · cases h
    · cases h; simp
  · cases h; simp

theorem payload_CADENCE_out (K : AntDefs) (st : payload_CADENCE_t) (data : Buffer)
    (r : payload_CADENCE_t × List Out) (h : payload_CADENCE K st data = some r) :
    ∀ o ∈ r.2, ∃ msg v, o = Out.sendMessage msg v := by
  unfold payload_CADENCE at h
  simp only at h
  split at h
  · split at h
    · cases h
    · cases h; simp
  · cases h; simp

theorem payload_STRIDE_out (K : AntDefs) (st : payload_STRIDE_t) (data : Buffer) :
    ∀ o ∈ (payload_STRIDE K st data).2, ∃ msg v, o = Out.sendMessage msg v := by
  unfold payload_STRIDE
  simp only
  split_ifs <;> simp

theorem payload_SPEED_out (K : AntDefs) (F : FloatOps) (st : payload_SPEED_t) (data : Buffer) :
    ∀ o ∈ (payload_SPEED K F st data).2, ∃ msg v, o = Out.sendMessage msg v := by
  unfold payload_SPEED
  simp only
  split <;> simp

/-- The profile decoders emit notifications only. -/
theorem dispatchPayload_out (K : AntDefs) (F : FloatOps) (p p1 : payload_genstorage_t)
    (cfg : TDCONFIG) (payload : Buffer) (out : List Out)
    (h : dispatchPayload K F p cfg payload = some (p1, out)) :
    ∀ o ∈ out, ∃ msg v, o = Out.sendMessage msg v := by
  unfold dispatchPayload at h
  split_ifs at h
  · simp only [Option.map_eq_some'] at h
    obtain ⟨r, hr, h⟩ := h
    cases h
    exact payload_HRM_out K _ _ r hr
  · simp only [Option.map_eq_some'] at h
    obtain ⟨r, hr, h⟩ := h
    cases h
    exact payload_SPDCAD_out K F _ _ r hr
  · cases h; simp [payload_POWER]
  · cases h
    exact payload_STRIDE_out K _ _
  · cases h
    exact payload_SPEED_out K F _ _
  · simp only [Option.map_eq_some'] at h
    obtain ⟨r, hr, h⟩ := h
    cases h
    exact payload_CADENCE_out K _ _ r hr
  · cases h; simp

/-- Replacing a table entry by one with the same channel and `chanIdOnce` is quiet. -/
theorem set_keys (l : List TDCONFIG) (j : Nat) (cfg x : TDCONFIG) (h : l[j]? = some cfg)
    (h1 : x.channel = cfg.channel) (h2 : x.flags.chanIdOnce = cfg.flags.chanIdOnce) (i : Nat) :
    ((l.set j x)[i]?).map (fun cfg : TDCONFIG => (cfg.channel, cfg.flags.chanIdOnce)) =
      (l[i]?).map (fun cfg : TDCONFIG => (cfg.channel, cfg.flags.chanIdOnce)) := by
  rw [List.getElem?_set]
  split
  · rename_i hji
    subst hji
    have hj : j < l.length := (List.getElem?_eq_some.mp h).1
    simp [hj, h, h1, h2]
  · rfl

theorem quietStep_refl (K : AntDefs) (s : State) : QuietStep K s s [] :=
  ⟨fun _ => rfl, fun _ h => absurd h (List.not_mem_nil _)⟩

theorem message_channel_cases (K : AntDefs) (F : FloatOps) (s s1 : State) (chan ev : Nat)
    (payload : Buffer) (out : List Out)
    (h : message_channel K F s chan ev payload = some (s1, out)) :
    (ev = K.EVENT_RX_BROADCAST ∧ BroadcastStep K s s1 out chan) ∨
      (ev ≠ K.EVENT_RX_BROADCAST ∧ s1 = s ∧ out = []) := by
  unfold message_channel at h
  split_ifs at h with hev
  · left
    refine ⟨hev, ?_⟩
    split at h
    · cases h
    · rename_i cfg hcfg
      simp only at h
      split at h
      · cases h
      · rename_i p out2 hd
        simp only [Option.some.injEq, Prod.mk.injEq] at h
        obtain ⟨rfl, rfl⟩ := h
        refine ⟨cfg, p, out2, hcfg, dispatchPayload_out K F _ _ _ _ _ hd, ?_, ?_⟩
        · by_cases h0 : cfg.flags.chanIdOnce = 0 <;> simp [h0]
        · by_cases h0 : cfg.flags.chanIdOnce = 0 <;> simp [h0]
  · right
    simp only [Option.some.injEq, Prod.mk.injEq] at h
    exact ⟨hev, h.1.symm, h.2.symm⟩


theorem sendMessageChannelStatus_chanIdOnce (K : AntDefs) (cfg : TDCONFIG) (st : Nat) :
    (sendMessageChannelStatus K cfg st).1.flags.chanIdOnce = cfg.flags.chanIdOnce := by
  unfold sendMessageChannelStatus
  simp only
  split <;> rfl

/-- A state that differs from `s` in one table entry, replaced by one with the same channel
and `chanIdOnce`, with outputs that are no channel-ID requests, is a quiet step. -/
theorem quietStep_set (K : AntDefs) (s : State) (j : Nat) (cfg x : TDCONFIG)
    (p : payload_genstorage_t) (out : List Out) (h : s.dcfg[j]? = some cfg)
    (h1 : x.channel = cfg.channel) (h2 : x.flags.chanIdOnce = cfg.flags.chanIdOnce)
    (ho : ∀ o ∈ out, ∀ c, o ≠ channelIdRequest K c) :
    QuietStep K s ⟨s.key, s.dcfg.set j x, p⟩ out :=
  ⟨fun i => set_keys s.dcfg j cfg x h h1 h2 i, ho⟩

theorem quietStep_same (K : AntDefs) (s : State) (out : List Out)
    (ho : ∀ o ∈ out, ∀ c, o ≠ channelIdRequest K c) : QuietStep K s s out :=
  ⟨fun _ => rfl, ho⟩

theorem message_response_cases (K : AntDefs) (hK : K.WF) (F : FloatOps) (s s1 : State)
    (chan id : Nat) (payload : Buffer) (out : List Out)
    (h : message_response K F s chan id payload = some (s1, out)) :
    (id = K.MESG_EVENT_ID ∧ payload K.STREAM_EVENT_EVENTID = K.EVENT_RX_BROADCAST ∧
      BroadcastStep K s s1 out chan) ∨ QuietStep K s s1 out := by
  have hnd := hK.command_ids
  simp only [List.nodup_cons, List.mem_cons, List.mem_singleton, not_or, List.not_mem_nil,
    not_false_eq_true, List.nodup_nil, and_true] at hnd
  have hb := hK.ids_byte
  simp only [List.forall_mem_cons, List.mem_singleton, forall_eq, List.mem_nil_iff] at hb
  obtain ⟨b1, b2, b3, b4, b5, b6, b7, b8, b9, b10, b11, b12, b13, b14, b15, b16, b17, b18⟩ := hb
  have hto : K.MESG_CHANNEL_SEARCH_TIMEOUT_ID % 256 ≠ K.MESG_REQUEST_ID % 256 := by
    rw [Nat.mod_eq_of_lt b6, Nat.mod_eq_of_lt b1]
    intro e; simp [e] at hnd
  have hfr : K.MESG_CHANNEL_RADIO_FREQ_ID % 256 ≠ K.MESG_REQUEST_ID % 256 := by
    rw [Nat.mod_eq_of_lt b7, Nat.mod_eq_of_lt b1]
    intro e; simp [e] at hnd
  have hev := hK.event_labels
  simp only [List.nodup_cons, List.mem_cons, List.mem_singleton, not_or, List.not_mem_nil,
    not_false_eq_true, List.nodup_nil, and_true] at hev
  have n1 : K.MESG_CHANNEL_STATUS_ID ≠ K.MESG_CHANNEL_ID_ID := by intro e; simp [e] at hev
  have n2 : K.MESG_CAPABILITIES_ID ≠ K.MESG_CHANNEL_ID_ID := by intro e; simp [e] at hev
  have n3 : K.MESG_VERSION_ID ≠ K.MESG_CHANNEL_ID_ID := by intro e; simp [e] at hev
  clear hnd hev
  unfold message_response at h
  by_cases c1 : id = K.MESG_EVENT_ID
  · rw [if_pos c1] at h
    rcases message_channel_cases K F s s1 chan _ payload out h with ⟨h1, h2⟩ | ⟨-, h1, h2⟩
    · exact Or.inl ⟨c1, h1, h2⟩
    · rw [h1, h2]
      exact Or.inr (quietStep_refl K s)
  rw [if_neg c1] at h
  by_cases c2 : id = K.MESG_NETWORK_KEY_ID
  · rw [if_pos c2] at h
    right
    split at h
    · cases h
    · rename_i cfg hcfg
      simp only [Option.some.injEq, Prod.mk.injEq] at h
      obtain ⟨rfl, rfl⟩ := h
      refine quietStep_set K s chan cfg _ _ _ hcfg rfl rfl ?_
      intro o ho c
      simp only [List.mem_singleton] at ho
      subst ho
      split_ifs <;> exact write_ne_request_of_size K _ c (by
        simp [AssignChannel, SetChannelPeriod, SetSearchWaveform, SetChannelId, OpenChannel])
  rw [if_neg c2] at h
  by_cases c3 : id = K.MESG_ASSIGN_CHANNEL_ID
  · rw [if_pos c3] at h
    right
    split at h
    · cases h
    · rename_i cfg hcfg
      simp only [Option.some.injEq, Prod.mk.injEq] at h
      obtain ⟨rfl, rfl⟩ := h
      refine quietStep_same K s _ ?_
      intro o ho c
      simp only [List.mem_singleton] at ho
      subst ho
      exact write_ne_request_of_size K _ c (by
        simp [AssignChannel, SetChannelPeriod, SetSearchWaveform, SetChannelId, OpenChannel])
  rw [if_neg c3] at h
  by_cases c4 : id = K.MESG_CHANNEL_MESG_PERIOD_ID
  · rw [if_pos c4] at h
    right
    split at h
    · cases h
    · rename_i cfg hcfg
      simp only [Option.some.injEq, Prod.mk.injEq] at h
      obtain ⟨rfl, rfl⟩ := h
      refine quietStep_same K s _ ?_
      intro o ho c
      simp only [List.mem_singleton] at ho
      subst ho
      exact write_ne_request_of_id K _ c (by
        simp only [SetChannelSearchTimeout, SetChannelRFFreq, List.cons_append,
          List.getElem?_cons_succ, List.getElem?_cons_zero, ne_eq, Option.some.injEq]
        exact hto)
  rw [if_neg c4] at h
  by_cases c5 : id = K.MESG_CHANNEL_SEARCH_TIMEOUT_ID
  · rw [if_pos c5] at h
    right
    split at h
    · cases h
    · rename_i cfg hcfg
      simp only [Option.some.injEq, Prod.mk.injEq] at h
      obtain ⟨rfl, rfl⟩ := h
      refine quietStep_same K s _ ?_
      intro o ho c
      simp only [List.mem_singleton] at ho
      subst ho
      exact write_ne_request_of_id K _ c (by
        simp only [SetChannelSearchTimeout, SetChannelRFFreq, List.cons_append,
          List.getElem?_cons_succ, List.getElem?_cons_zero, ne_eq, Option.some.injEq]
        exact hfr)
  rw [if_neg c5] at h
  by_cases c6 : id = K.MESG_CHANNEL_RADIO_FREQ_ID
  · rw [if_pos c6] at h
    right
    split at h
    · cases h
    · rename_i cfg hcfg
      simp only [Option.some.injEq, Prod.mk.injEq] at h
      obtain ⟨rfl, rfl⟩ := h
      refine quietStep_same K s _ ?_
      intro o ho c
      simp only [List.mem_singleton] at ho
      subst ho
      exact write_ne_request_of_size K _ c (by
        simp [AssignChannel, SetChannelPeriod, SetSearchWaveform, SetChannelId, OpenChannel])
  rw [if_neg c6] at h
  by_cases c7 : id = K.MESG_SEARCH_WAVEFORM_ID
  · rw [if_pos c7] at h
    right
    split at h
    · cases h
    · rename_i cfg hcfg
      simp only [Option.some.injEq, Prod.mk.injEq] at h
      obtain ⟨rfl, rfl⟩ := h
      refine quietStep_same K s _ ?_
      intro o ho c
      simp only [List.mem_singleton] at ho
      subst ho
      exact write_ne_request_of_size K _ c (by
        simp [AssignChannel, SetChannelPeriod, SetSearchWaveform, SetChannelId, OpenChannel])
  rw [if_neg c7] at h
  by_cases c8 : id = K.MESG_CHANNEL_ID_ID
  · rw [if_pos c8] at h
    right
    split at h
    · cases h
    · rename_i cfg hcfg
      simp only [Option.some.injEq, Prod.mk.injEq] at h
      obtain ⟨rfl, rfl⟩ := h
      refine quietStep_same K s _ ?_
      intro o ho c
      simp only [List.mem_singleton] at ho
      subst ho
      exact write_ne_request_of_size K _ c (by
        simp [AssignChannel, SetChannelPeriod, SetSearchWaveform, SetChannelId, OpenChannel])
  rw [if_neg c8] at h
  by_cases c9 : id = K.MESG_OPEN_CHANNEL_ID
  · rw [if_pos c9] at h
    right
    split at h
    · cases h
    · rename_i cfg hcfg
      simp only [Option.some.injEq, Prod.mk.injEq] at h
      obtain ⟨rfl, rfl⟩ := h
      refine quietStep_same K s _ ?_
      intro o ho c
      simp only [List.mem_cons, List.mem_singleton, List.mem_nil_iff, or_false] at ho
      rcases ho with rfl | rfl | rfl
      · exact request_ne_request K _ c _ b16 b4 n1
      · exact request_ne_request K _ c _ b17 b4 n2
      · exact request_ne_request K _ c _ b18 b4 n3
  rw [if_neg c9] at h
  by_cases c10 : id = K.MESG_CLOSE_CHANNEL_ID
  · rw [if_pos c10] at h
    right
    split at h
    · cases h
    · rename_i cfg hcfg
      simp only [Option.some.injEq, Prod.mk.injEq] at h
      obtain ⟨rfl, rfl⟩ := h
      refine quietStep_set K s chan cfg _ _ _ hcfg
        (sendMessageChannelStatus_spec K _ _).2.2.2
        (sendMessageChannelStatus_chanIdOnce K _ _) ?_
      intro o ho c
      rw [(sendMessageChannelStatus_spec K _ _).1] at ho
      split_ifs at ho
      · simp only [List.mem_singleton] at ho
        subst ho
        exact sendMessage_ne_request K _ _ c
      · cases ho
  rw [if_neg c10] at h
  simp only [Option.some.injEq, Prod.mk.injEq] at h
  rw [← h.1, ← h.2]
  exact Or.inr (quietStep_refl K s)


theorem message_event_cases (K : AntDefs) (hK : K.WF) (F : FloatOps) (s s1 : State)
    (m : Message) (out : List Out)
    (h : message_event K F s m.channel m.msgId m.payload = some (s1, out)) :
    (m.msgId = K.MESG_BROADCAST_DATA_ID ∧ BroadcastStep K s s1 out (m.chan K)) ∨
    (m.isBroadcastEvent K (m.payload K.STREAM_EVENT_CHANNEL_ID) ∧
      BroadcastStep K s s1 out (m.payload K.STREAM_EVENT_CHANNEL_ID)) ∨
    QuietStep K s s1 out := by
  unfold message_event at h
  simp only at h
  by_cases c1 : m.msgId = K.MESG_BROADCAST_DATA_ID
  · rw [if_pos c1] at h
    rcases message_channel_cases K F s s1 _ _ _ out h with ⟨-, h2⟩ | ⟨h1, -, -⟩
    · exact Or.inl ⟨c1, h2⟩
    · exact absurd rfl h1
  rw [if_neg c1] at h
  by_cases c2 : m.msgId = K.MESG_STARTUP_MESG_ID
  · rw [if_pos c2] at h
    right; right
    split at h
    · simp only [Option.some.injEq, Prod.mk.injEq] at h
      rw [← h.1, ← h.2]
      refine quietStep_same K s _ ?_
      intro o ho c
      simp only [List.mem_singleton] at ho
      subst ho
      exact write_ne_request_of_size K _ c (by simp [SetNetworkKey])
    · cases h
  rw [if_neg c2] at h
  by_cases c3 : m.msgId = K.MESG_RESPONSE_EVENT_ID
  · rw [if_pos c3] at h
    rcases message_response_cases K hK F s s1 _ _ _ out h with ⟨h1, h2, h3⟩ | h1
    · exact Or.inr (Or.inl ⟨⟨⟨c3, rfl, h1⟩, h2⟩, h3⟩)
    · exact Or.inr (Or.inr h1)
  rw [if_neg c3] at h
  by_cases c4 : m.msgId = K.MESG_CHANNEL_STATUS_ID
  · rw [if_pos c4] at h
    right; right
    split at h
    · cases h
    · rename_i cfg hcfg
      simp only [Option.some.injEq, Prod.mk.injEq] at h
      rw [← h.1, ← h.2]
      refine quietStep_set K s _ cfg _ _ _ hcfg
        (sendMessageChannelStatus_spec K _ _).2.2.2
        (sendMessageChannelStatus_chanIdOnce K _ _) ?_
      intro o ho c
      rw [(sendMessageChannelStatus_spec K _ _).1] at ho
      split_ifs at ho
      · simp only [List.mem_singleton] at ho
        subst ho
        exact sendMessage_ne_request K _ _ c
      · cases ho
  rw [if_neg c4] at h
  by_cases c5 : m.msgId = K.MESG_CHANNEL_ID_ID
  · rw [if_pos c5] at h
    right; right
    split at h
    · cases h
    · rename_i cfg hcfg
      simp only [Option.some.injEq, Prod.mk.injEq] at h
      rw [← h.1, ← h.2]
      refine quietStep_set K s _ cfg _ _ _ hcfg rfl rfl ?_
      intro o ho c
      simp only [List.mem_singleton] at ho
      subst ho
      exact sendMessage_ne_request K _ _ c
  rw [if_neg c5] at h
  simp only [Option.some.injEq, Prod.mk.injEq] at h
  rw [← h.1, ← h.2]
  exact Or.inr (Or.inr (quietStep_refl K s))

theorem quiet_lookup (K : AntDefs) (s s1 : State) (out : List Out) (h : QuietStep K s s1 out)
    (c : Nat) (cfg : TDCONFIG) (hc : s.dcfg[c]? = some cfg) :
    ∃ cfg1, s1.dcfg[c]? = some cfg1 ∧ cfg1.channel = cfg.channel ∧
      cfg1.flags.chanIdOnce = cfg.flags.chanIdOnce ∧ channelIdRequest K c ∉ out := by
  have h1 := h.1 c
  rw [hc] at h1
  simp only [Option.map_some', Option.map_eq_some', Prod.mk.injEq] at h1
  obtain ⟨cfg1, e1, e2, e3⟩ := h1
  exact ⟨cfg1, e1, e2, e3, fun hm => h.2 _ hm c rfl⟩

theorem quiet_lookup_rev (K : AntDefs) (s s1 : State) (out : List Out)
    (h : QuietStep K s s1 out) (c : Nat) (cfg1 : TDCONFIG) (hc : s1.dcfg[c]? = some cfg1) :
    ∃ cfg, s.dcfg[c]? = some cfg ∧ cfg1.channel = cfg.channel := by
  have h1 := (h.1 c).symm
  rw [hc] at h1
  simp only [Option.map_some', Option.map_eq_some', Prod.mk.injEq] at h1
  obtain ⟨cfg, e1, e2, -⟩ := h1
  exact ⟨cfg, e1, e2.symm⟩

/-- A broadcast step seen from its own table entry. -/
theorem broadcast_lookup (K : AntDefs) (s s1 : State) (out : List Out) (c : Nat)
    (h : BroadcastStep K s s1 out c) (cfg : TDCONFIG) (hc : s.dcfg[c]? = some cfg)
    (hch : cfg.channel = c) :
    ∃ cfg1, s1.dcfg[c]? = some cfg1 ∧ cfg1.channel = c ∧ cfg1.flags.chanIdOnce ≠ 0 ∧
      (cfg.flags.chanIdOnce = 0 → ∃ tail, out = channelIdRequest K c :: tail ∧
        ∀ o ∈ tail, ∃ msg v, o = Out.sendMessage msg v) ∧
      (cfg.flags.chanIdOnce ≠ 0 → channelIdRequest K c ∉ out) := by
  obtain ⟨cfg', p, outs, h1, h2, h3, h4⟩ := h
  rw [hc] at h1
  cases h1
  have hlt : c < s.dcfg.length := (List.getElem?_eq_some.mp hc).1
  subst h3 h4
  by_cases h0 : cfg.flags.chanIdOnce = 0
  · refine ⟨_, List.getElem?_set_self hlt, ?_, ?_, ?_, ?_⟩
    · simp [h0, hch]
    · simp [h0]
    · intro _
      exact ⟨outs, by simp [h0, channelIdRequest, hch], h2⟩
    · intro h; exact absurd h0 h
  · refine ⟨_, List.getElem?_set_self hlt, ?_, ?_, ?_, ?_⟩
    · simp [h0, hch]
    · simp [h0]
    · intro h; exact absurd h h0
    · intro _ hm
      simp only [h0, if_false, List.nil_append] at hm
      obtain ⟨msg, v, e⟩ := h2 _ hm
      exact sendMessage_ne_request K msg v c e.symm

/-- A broadcast step seen from another table entry. -/
theorem broadcast_lookup_other (K : AntDefs) (s s1 : State) (out : List Out) (chan c : Nat)
    (h : BroadcastStep K s s1 out chan) (hne : chan ≠ c)
    (hwf : ∀ (i : Nat) (cfg : TDCONFIG), s.dcfg[i]? = some cfg → cfg.channel = i) (hlen : s.dcfg.length ≤ 256)
    (hc : c < s.dcfg.length) :
    s1.dcfg[c]? = s.dcfg[c]? ∧ channelIdRequest K c ∉ out := by
  obtain ⟨cfg', p, outs, h1, h2, h3, h4⟩ := h
  have hlt : chan < s.dcfg.length := (List.getElem?_eq_some.mp h1).1
  have hch := hwf chan cfg' h1
  subst h3 h4
  refine ⟨by simp [List.getElem?_set, hne], ?_⟩
  intro hm
  rw [List.mem_append] at hm
  rcases hm with hm | hm
  · split_ifs at hm
    · simp only [List.mem_singleton] at hm
      rw [hch] at hm
      exact hne (channelIdRequest_inj K c chan (by omega) (by omega) hm).symm
    · cases hm
  · obtain ⟨msg, v, e⟩ := h2 _ hm
    exact sendMessage_ne_request K msg v c e.symm

theorem broadcast_wf (K : AntDefs) (s s1 : State) (out : List Out) (chan : Nat)
    (h : BroadcastStep K s s1 out chan)
    (hwf : ∀ (i : Nat) (cfg : TDCONFIG), s.dcfg[i]? = some cfg → cfg.channel = i) :
    (∀ (i : Nat) (cfg : TDCONFIG), s1.dcfg[i]? = some cfg → cfg.channel = i) ∧ s1.dcfg.length = s.dcfg.length := by
  obtain ⟨cfg', p, outs, h1, h2, h3, h4⟩ := h
  have hch := hwf chan cfg' h1
  subst h3
  refine ⟨?_, by simp⟩
  intro i cfg hi
  rw [List.getElem?_set] at hi
  by_cases e : chan = i
  · rw [if_pos e, if_pos (List.getElem?_eq_some.mp h1).1] at hi
    simp only [Option.some.injEq] at hi
    rw [← hi, ← e]
    by_cases h0 : cfg'.flags.chanIdOnce = 0 <;> simp [h0, hch]
  · rw [if_neg e] at hi
    exact hwf i cfg hi

theorem quiet_wf (K : AntDefs) (s s1 : State) (out : List Out) (h : QuietStep K s s1 out)
    (hwf : ∀ (i : Nat) (cfg : TDCONFIG), s.dcfg[i]? = some cfg → cfg.channel = i) (hlen : s.dcfg.length ≤ 256) :
    (∀ (i : Nat) (cfg : TDCONFIG), s1.dcfg[i]? = some cfg → cfg.channel = i) ∧ s1.dcfg.length ≤ 256 := by
  refine ⟨?_, ?_⟩
  · intro i cfg1 hi
    obtain ⟨cfg, e1, e2⟩ := quiet_lookup_rev K s s1 out h i cfg1 hi
    rw [e2]
    exact hwf i cfg e1
  · by_contra hgt
    have h256 : 256 < s1.dcfg.length := by omega
    obtain ⟨cfg, e1, -⟩ := quiet_lookup_rev K s s1 out h 256 _ (List.getElem?_eq_getElem h256)
    have := (List.getElem?_eq_some.mp e1).1
    omega


/-- A broadcast event for channel `c` that is handled is a broadcast step on entry `c`. -/
theorem broadcast_step_of (K : AntDefs) (hK : K.WF) (F : FloatOps) (s s1 : State) (m : Message)
    (out : List Out) (c : Nat) (hb : m.isBroadcastData K c ∨ m.isBroadcastEvent K c)
    (h : message_event K F s m.channel m.msgId m.payload = some (s1, out)) :
    BroadcastStep K s s1 out c := by
  rcases hb with ⟨h1, h2⟩ | ⟨h1, h2⟩
  · unfold message_event at h
    simp only at h
    rw [if_pos h1] at h
    rcases message_channel_cases K F s s1 _ _ _ out h with ⟨-, h3⟩ | ⟨h3, -, -⟩
    · rw [← h2]; exact h3
    · exact absurd rfl h3
  · rw [message_event_ack K hK F s m c _ h1] at h
    unfold message_response at h
    rw [if_pos rfl] at h
    rcases message_channel_cases K F s s1 _ _ _ out h with ⟨-, h3⟩ | ⟨h3, -, -⟩
    · exact h3
    · exact absurd h2 h3

/-- One handled message, seen from the table entry of channel `c`. -/
theorem step_summary (K : AntDefs) (hK : K.WF) (F : FloatOps) (s s1 : State) (m : Message)
    (out : List Out) (h : message_event K F s m.channel m.msgId m.payload = some (s1, out))
    (hwf : ∀ (i : Nat) (cfg : TDCONFIG), s.dcfg[i]? = some cfg → cfg.channel = i)
    (hlen : s.dcfg.length ≤ 256) (c : Nat) (cfg : TDCONFIG) (hc : s.dcfg[c]? = some cfg) :
    (∀ (i : Nat) (cfg : TDCONFIG), s1.dcfg[i]? = some cfg → cfg.channel = i) ∧
    s1.dcfg.length ≤ 256 ∧
    ∃ cfg1, s1.dcfg[c]? = some cfg1 ∧
      (cfg.flags.chanIdOnce ≠ 0 → cfg1.flags.chanIdOnce ≠ 0 ∧ channelIdRequest K c ∉ out) ∧
      (¬ (m.isBroadcastData K c ∨ m.isBroadcastEvent K c) →
        cfg1.flags.chanIdOnce = cfg.flags.chanIdOnce ∧ channelIdRequest K c ∉ out) ∧
      ((m.isBroadcastData K c ∨ m.isBroadcastEvent K c) → cfg1.flags.chanIdOnce ≠ 0 ∧
        (cfg.flags.chanIdOnce = 0 → ∃ tail, out = channelIdRequest K c :: tail ∧
          ∀ o ∈ tail, ∃ msg v, o = Out.sendMessage msg v)) := by
  have hclt : c < s.dcfg.length := (List.getElem?_eq_some.mp hc).1
  by_cases hb : m.isBroadcastData K c ∨ m.isBroadcastEvent K c
  · have hstep := broadcast_step_of K hK F s s1 m out c hb h
    obtain ⟨w1, w2⟩ := broadcast_wf K s s1 out c hstep hwf
    obtain ⟨cfg1, e1, -, e3, e4, e5⟩ := broadcast_lookup K s s1 out c hstep cfg hc (hwf c cfg hc)
    exact ⟨w1, by omega, cfg1, e1, fun h0 => ⟨e3, e5 h0⟩, fun hn => absurd hb hn,
      fun _ => ⟨e3, e4⟩⟩
  · have other : ∀ chan, BroadcastStep K s s1 out chan → chan ≠ c →
        (∀ (i : Nat) (cfg : TDCONFIG), s1.dcfg[i]? = some cfg → cfg.channel = i) ∧
        s1.dcfg.length ≤ 256 ∧
        ∃ cfg1, s1.dcfg[c]? = some cfg1 ∧
          (cfg.flags.chanIdOnce ≠ 0 → cfg1.flags.chanIdOnce ≠ 0 ∧ channelIdRequest K c ∉ out) ∧
          (¬ (m.isBroadcastData K c ∨ m.isBroadcastEvent K c) →
            cfg1.flags.chanIdOnce = cfg.flags.chanIdOnce ∧ channelIdRequest K c ∉ out) ∧
          ((m.isBroadcastData K c ∨ m.isBroadcastEvent K c) → cfg1.flags.chanIdOnce ≠ 0 ∧
            (cfg.flags.chanIdOnce = 0 → ∃ tail, out = channelIdRequest K c :: tail ∧
              ∀ o ∈ tail, ∃ msg v, o = Out.sendMessage msg v)) := by
      intro chan hstep hne
      obtain ⟨w1, w2⟩ := broadcast_wf K s s1 out chan hstep hwf
      obtain ⟨e1, e2⟩ := broadcast_lookup_other K s s1 out chan c hstep hne hwf hlen hclt
      exact ⟨w1, by omega, cfg, by rw [e1, hc], fun h0 => ⟨h0, e2⟩, fun _ => ⟨rfl, e2⟩,
        fun hx => absurd hx hb⟩
    rcases message_event_cases K hK F s s1 m out h with ⟨h1, hstep⟩ | ⟨h1, hstep⟩ | hq
    · exact other _ hstep (fun e => hb (Or.inl ⟨h1, e⟩))
    · exact other _ hstep (fun e => hb (Or.inr (e ▸ h1)))
    · obtain ⟨w1, w2⟩ := quiet_wf K s s1 out hq hwf hlen
      obtain ⟨cfg1, e1, -, e3, e4⟩ := quiet_lookup K s s1 out hq c cfg hc
      exact ⟨w1, w2, cfg1, e1, fun h0 => ⟨by rw [e3]; exact h0, e4⟩, fun _ => ⟨e3, e4⟩,
        fun hx => absurd hx hb⟩

/-- Once `chanIdOnce` of channel `c` is set, it stays set and no channel-ID request for `c`
is emitted. -/
theorem run_once_set (K : AntDefs) (hK : K.WF) (F : FloatOps) (c : Nat) (ms : List Message) :
    ∀ (s : State) (cfg : TDCONFIG),
      (∀ (i : Nat) (cfg : TDCONFIG), s.dcfg[i]? = some cfg → cfg.channel = i) →
      s.dcfg.length ≤ 256 → s.dcfg[c]? = some cfg → cfg.flags.chanIdOnce ≠ 0 →
      channelIdRequest K c ∉ (run K F s ms).1 ∧
      ∀ s3, (run K F s ms).2 = some s3 →
        ∃ cfg3, s3.dcfg[c]? = some cfg3 ∧ cfg3.flags.chanIdOnce ≠ 0 := by
  induction ms with
  | nil =>
    intro s cfg _ _ hc h0
    refine ⟨by simp [run], ?_⟩
    intro s3 h3
    simp only [run, Option.some.injEq] at h3
    subst h3
    exact ⟨cfg, hc, h0⟩
  | cons m ms ih =>
    intro s cfg hwf hlen hc h0
    cases hme : message_event K F s m.channel m.msgId m.payload with
    | none => simp [run, hme]
    | some r =>
      obtain ⟨s1, out⟩ := r
      obtain ⟨w1, w2, cfg1, e1, e2, -, -⟩ := step_summary K hK F s s1 m out hme hwf hlen c cfg hc
      obtain ⟨e3, e4⟩ := e2 h0
      obtain ⟨i1, i2⟩ := ih s1 cfg1 w1 w2 e1 e3
      rw [run_cons_some K F s s1 m ms out hme]
      refine ⟨?_, i2⟩
      simp only [List.mem_append, not_or]
      exact ⟨e4, i1⟩

/-- At most one channel-ID request for channel `c` is emitted in any run. -/
theorem run_count_request (K : AntDefs) (hK : K.WF) (F : FloatOps) (c : Nat)
    (ms : List Message) :
    ∀ (s : State) (cfg : TDCONFIG),
      (∀ (i : Nat) (cfg : TDCONFIG), s.dcfg[i]? = some cfg → cfg.channel = i) →
      s.dcfg.length ≤ 256 → s.dcfg[c]? = some cfg →
      (run K F s ms).1.count (channelIdRequest K c) ≤ 1 := by
  induction ms with
  | nil => intro s cfg _ _ _; simp [run]
  | cons m ms ih =>
    intro s cfg hwf hlen hc
    by_cases h0 : cfg.flags.chanIdOnce = 0
    · cases hme : message_event K F s m.channel m.msgId m.payload with
      | none => simp [run, hme]
      | some r =>
        obtain ⟨s1, out⟩ := r
        obtain ⟨w1, w2, cfg1, e1, -, e3, e4⟩ :=
          step_summary K hK F s s1 m out hme hwf hlen c cfg hc
        rw [run_cons_some K F s s1 m ms out hme]
        simp only [List.count_append]
        by_cases hb : m.isBroadcastData K c ∨ m.isBroadcastEvent K c
        · obtain ⟨f1, f2⟩ := e4 hb
          obtain ⟨tail, t1, t2⟩ := f2 h0
          have hrest := (run_once_set K hK F c ms s1 cfg1 w1 w2 e1 f1).1
          have htail : channelIdRequest K c ∉ tail := by
            intro hm
            obtain ⟨msg, v, e⟩ := t2 _ hm
            exact sendMessage_ne_request K msg v c e.symm
          rw [List.count_eq_zero.mpr hrest, t1, List.count_cons_self,
            List.count_eq_zero.mpr htail]
        · obtain ⟨-, f2⟩ := e3 hb
          rw [List.count_eq_zero.mpr f2]
          have := ih s1 cfg1 w1 w2 e1
          omega
    · have := (run_once_set K hK F c (m :: ms) s cfg hwf hlen hc h0).1
      rw [List.count_eq_zero.mpr this]
      omega

/-- Messages that are no broadcast events for channel `c` emit no channel-ID request for
`c` and leave its `chanIdOnce` as it is. -/
theorem run_no_broadcast (K : AntDefs) (hK : K.WF) (F : FloatOps) (c : Nat)
    (pre : List Message) :
    ∀ (s s1 : State) (cfg : TDCONFIG) (o1 : List Out),
      (∀ (i : Nat) (cfg : TDCONFIG), s.dcfg[i]? = some cfg → cfg.channel = i) →
      s.dcfg.length ≤ 256 → s.dcfg[c]? = some cfg →
      (∀ x ∈ pre, ¬ (x.isBroadcastData K c ∨ x.isBroadcastEvent K c)) →
      run K F s pre = (o1, some s1) →
      channelIdRequest K c ∉ o1 ∧
      (∀ (i : Nat) (cfg : TDCONFIG), s1.dcfg[i]? = some cfg → cfg.channel = i) ∧
      s1.dcfg.length ≤ 256 ∧
      ∃ cfg1, s1.dcfg[c]? = some cfg1 ∧ cfg1.flags.chanIdOnce = cfg.flags.chanIdOnce := by
  induction pre with
  | nil =>
    intro s s1 cfg o1 hwf hlen hc _ hrun
    simp only [run, Prod.mk.injEq, Option.some.injEq] at hrun
    obtain ⟨rfl, rfl⟩ := hrun
    exact ⟨by simp, hwf, hlen, cfg, hc, rfl⟩
  | cons m pre ih =>
    intro s s1 cfg o1 hwf hlen hc hpre hrun
    cases hme : message_event K F s m.channel m.msgId m.payload with
    | none => simp [run, hme] at hrun
    | some r =>
      obtain ⟨s2, out⟩ := r
      obtain ⟨w1, w2, cfg2, e1, -, e3, -⟩ :=
        step_summary K hK F s s2 m out hme hwf hlen c cfg hc
      obtain ⟨f1, f2⟩ := e3 (hpre m (List.mem_cons_self _ _))
      rw [run_cons_some K F s s2 m pre out hme] at hrun
      simp only [Prod.mk.injEq] at hrun
      obtain ⟨g1, g2, g3, cfg1, g4, g5⟩ := ih s2 s1 cfg2 (run K F s2 pre).1 w1 w2 e1
        (fun x hx => hpre x (List.mem_cons_of_mem _ hx)) (by rw [← hrun.2])
      refine ⟨?_, g2, g3, cfg1, g4, by rw [g5, f1]⟩
      rw [← hrun.1]
      simp only [List.mem_append, not_or]
      exact ⟨f2, g1⟩

/-- An option that holds a value is `some` of that value. -/
theorem eq_some_getD {α : Type} (o : Option α) (d : α) (h : o.isSome = true) :
    o = some (o.getD d) := by
  cases o with
  | none => cases h
  | some a => rfl

theorem payload_HRM_again (K : AntDefs) (hrm h1 : payload_HRM_t) (data : Buffer)
    (o1 : List Out) (h : payload_HRM K hrm data = some (h1, o1)) :
    payload_HRM K h1 data = some (h1, []) := by
  unfold payload_HRM at h
  simp only at h
  split_ifs at h with c1 c2
  · simp only [Option.some.injEq, Prod.mk.injEq] at h
    obtain ⟨rfl, -⟩ := h
    simp [payload_HRM]
  · simp only [Option.some.injEq, Prod.mk.injEq] at h
    obtain ⟨rfl, -⟩ := h
    simp only [ne_eq, Decidable.not_not] at c2
    simp [payload_HRM, c2]
  · simp only [Option.some.injEq, Prod.mk.injEq] at h
    obtain ⟨rfl, -⟩ := h
    simp only [not_or, ne_eq, Decidable.not_not] at c1
    simp [payload_HRM, c1]

theorem payload_SPDCAD_again (K : AntDefs) (F : FloatOps) (st s1 : payload_SPDCAD_t)
    (data : Buffer) (o1 : List Out) (h : payload_SPDCAD K F st data = some (s1, o1)) :
    payload_SPDCAD K F s1 data = some ({ s1 with cadChange := 0, spdChange := 0 }, []) := by
  unfold payload_SPDCAD at h
  simp only at h
  split at h
  · split at h
    · cases h
    · simp only [Option.some.injEq, Prod.mk.injEq] at h
      obtain ⟨rfl, -⟩ := h
      simp [payload_SPDCAD]
  · rename_i c
    simp only [Option.some.injEq, Prod.mk.injEq] at h
    obtain ⟨rfl, -⟩ := h
    simp only [Bool.or_eq_true, decide_eq_true_eq, not_or, ne_eq, Decidable.not_not] at c
    simp [payload_SPDCAD, c]

theorem payload_SPEED_again (K : AntDefs) (F : FloatOps) (st : payload_SPEED_t)
    (data : Buffer) :
    payload_SPEED K F (payload_SPEED K F st data).1 data =
      ({ (payload_SPEED K F st data).1 with spdChange := 0 }, []) := by
  unfold payload_SPEED
  simp only
  split
  · simp
  · rename_i c
    simp only [decide_eq_true_eq, not_or, ne_eq, Decidable.not_not] at c
    simp [c]

theorem payload_CADENCE_again (K : AntDefs) (cad c1 : payload_CADENCE_t)
    (data : Buffer) (o1 : List Out) (h : payload_CADENCE K cad data = some (c1, o1)) :
    payload_CADENCE K c1 data = some ({ c1 with cadChange := 0 }, []) := by
  unfold payload_CADENCE at h
  simp only at h
  split at h
  · split at h
    · cases h
    · simp only [Option.some.injEq, Prod.mk.injEq] at h
      obtain ⟨rfl, -⟩ := h
      simp [payload_CADENCE]
  · rename_i c
    simp only [decide_eq_true_eq, not_or, ne_eq, Decidable.not_not] at c
    simp only [Option.some.injEq, Prod.mk.injEq] at h
    obtain ⟨rfl, -⟩ := h
    simp [payload_CADENCE, c]

theorem wrap32_eq (x : Int) (h0 : 0 ≤ x) (h1 : x < 2147483648) : wrap32 x = x := by
  unfold wrap32 toU32 ofU32
  have e : x % 4294967296 = x := Int.emod_eq_of_lt h0 (by omega)
  rw [e]
  have e2 : ((x.toNat : Nat) : Int) = x := Int.toNat_of_nonneg h0
  have h2 : x.toNat < 2147483648 := by omega
  rw [if_pos h2, e2]

/-- The cadence expression on counters advanced by `N` revolutions in `T > 0` ticks, when
`60 * N * 1024` stays within `int`. -/
theorem cadenceCalc_advance (prevCt prevTime N T : Nat) (hT : 0 < T) (hN : N ≤ 34952) :
    cadenceCalc (prevCt + N) prevCt (prevTime + T) prevTime =
      some ((60 * N * 1024 / T) % 65536) := by
  unfold cadenceCalc
  simp only
  have hd : ((prevTime + T : Nat) : Int) - (prevTime : Int) = (T : Int) := by push_cast; ring
  have hn : ((prevCt + N : Nat) : Int) - (prevCt : Int) = (N : Int) := by push_cast; ring
  rw [hd, hn]
  have hT0 : ¬ ((T : Int) = 0) := by omega
  rw [if_neg hT0]
  rw [wrap32_eq (60 * (N : Int)) (by omega) (by omega),
    wrap32_eq (60 * (N : Int) * 1024) (by omega) (by omega)]
  have e : (60 * (N : Int) * 1024).tdiv (T : Int) = ((60 * N * 1024 / T : Nat) : Int) := by
    have : (60 * (N : Int) * 1024) = ((60 * N * 1024 : Nat) : Int) := by push_cast; ring
    rw [this]
    exact Int.tdiv_eq_ediv (Int.natCast_nonneg _) (Int.natCast_nonneg _)
  rw [e]
  congr 1

theorem cadenceCalc_eq_none (ct prevCt time prevTime : Nat) :
    cadenceCalc ct prevCt time prevTime = none ↔ time = prevTime := by
  unfold cadenceCalc
  simp only
  split_ifs with h
  · simp only [true_iff]
    omega
  · simp only [false_iff]
    omega

theorem andInt_1F (channel : Int) :
    andInt channel 0x1F = (((toU32 channel &&& 0x1F : Nat)) : Int) ∧
      (toU32 channel &&& 0x1F) < 32 := by
  have h : toU32 channel &&& 0x1F ≤ 0x1F := Nat.and_le_right
  have h31 : toU32 (0x1F : Int) = 0x1F := by decide
  refine ⟨?_, by omega⟩
  unfold andInt ofU32
  rw [h31, if_pos (by omega)]

theorem shift_or_small : ∀ s < 8, ∀ c < 32, (s <<< 5) ||| c = s * 32 + c := by decide

theorem burstSeq_lt (n i : Nat) : burstSeq n i < 8 := by
  unfold burstSeq
  have h : i % 4 < 4 := Nat.mod_lt _ (by decide)
  have h4 : ∀ x < 4, x ||| 0x04 < 8 := by decide
  split_ifs
  · exact h4 _ h
  · omega

theorem u8_orInt_small (s c : Nat) (hs : s < 8) (hc : c < 32) :
    u8 (orInt ((s <<< 5 : Nat) : Int) (c : Int)) = (s <<< 5) ||| c := by
  have hs5 : s <<< 5 = s * 32 := by rw [Nat.shiftLeft_eq]
  have hv := shift_or_small s hs c hc
  unfold orInt toU32 ofU32 u8
  have e1 : (((s <<< 5 : Nat) : Int) % 4294967296).toNat = s <<< 5 := by omega
  have e2 : ((c : Int) % 4294967296).toNat = c := by omega
  rw [e1, e2, if_pos (by omega)]
  omega

theorem burst_channel_byte (channel : Int) (s : Nat) (hs : s < 8) :
    u8 (orInt ((s <<< 5 : Nat) : Int) (andInt channel 0x1F)) =
      (s <<< 5) ||| (andInt channel 0x1F).toNat := by
  obtain ⟨e, hlt⟩ := andInt_1F channel
  rw [e, Int.toNat_ofNat]
  exact u8_orInt_small s _ hs hlt

theorem burst_seq_next (n i : Nat) : (burstSeq n i + 1) &&& 0x03 = (i + 1) % 4 := by
  have h : i % 4 < 4 := Nat.mod_lt _ (by decide)
  have h4 : ∀ x < 4, (x + 1) &&& 0x03 = (x + 1) % 4 ∧ ((x ||| 0x04) + 1) &&& 0x03 = (x + 1) % 4 := by
    decide
  unfold burstSeq
  split_ifs
  · rw [(h4 _ h).2]; omega
  · rw [(h4 _ h).1]; omega

theorem burst_packet_eq (K : AntDefs) (channel : Int) (data : List Nat) (n i : Nat) :
    SendBurstTransferPacket K (orInt ((burstSeq n i <<< 5 : Nat) : Int) (andInt channel 0x1F))
      (data.drop (i <<< 3)) = burstPacket K channel data n i := by
  have hd : ∀ j, (data.drop (i <<< 3)).getD j 0 = data.getD (8 * i + j) 0 := by
    intro j
    simp only [List.getD_eq_getElem?_getD, List.getElem?_drop, Nat.shiftLeft_eq]
    congr 2
    omega
  have hsync : MESG_TX_SYNC % 256 = 0xA4 := by decide
  unfold SendBurstTransferPacket burstPacket
  simp only [hd, hsync, burst_channel_byte channel _ (burstSeq_lt n i), Nat.add_zero]

theorem SendBurstTransferLoop_eq (K : AntDefs) (channel : Int) (data : List Nat) (n : Nat) :
    ∀ remaining i, SendBurstTransferLoop K channel data n remaining i (i % 4) =
      (List.range remaining).map (fun k => burstPacket K channel data n (i + k)) := by
  intro remaining
  induction remaining with
  | zero => intro i; rfl
  | succ r ih =>
    intro i
    have hseq : (if i = n - 1 then (i % 4) ||| 0x04 else i % 4) = burstSeq n i := rfl
    unfold SendBurstTransferLoop
    simp only [hseq, burst_seq_next, ih (i + 1), burst_packet_eq]
    rw [List.range_succ_eq_map, List.map_cons, List.map_map]
    simp only [Nat.add_zero, List.cons.injEq, true_and]
    apply List.map_congr_left
    intro k _
    simp only [Function.comp, Nat.succ_eq_add_one]
    congr 1
    omega

theorem foldl_xor_init (l : List Nat) (c : Nat) :
    l.foldl (fun a b => a ^^^ b) c = c ^^^ xorAll l := by
  unfold xorAll
  induction l generalizing c with
  | nil => simp
  | cons x l ih =>
    simp only [List.foldl_cons]
    rw [ih (c ^^^ x), ih (0 ^^^ x), Nat.zero_xor, Nat.xor_assoc]

theorem xorAll_append (A B : List Nat) : xorAll (A ++ B) = xorAll A ^^^ xorAll B := by
  unfold xorAll
  rw [List.foldl_append, foldl_xor_init]
  rfl

theorem xorAll_singleton (x : Nat) : xorAll [x] = x := by
  simp [xorAll]

theorem bytesAt_congr (s t : Buffer) (a n : Nat) (h : ∀ k, k < n → s (a + k) = t (a + k)) :
    bytesAt s a n = bytesAt t a n := by
  unfold bytesAt
  apply List.map_congr_left
  intro k hk
  exact h k (List.mem_range.mp hk)

/-- Replacing one byte among the first `n` changes the XOR of these bytes. -/
theorem xorAll_update_ne (stream : Buffer) (n i v : Nat) (hi : i < n) (hv : v ≠ stream i) :
    xorAll (bytesAt (Function.update stream i v) 0 n) ≠ xorAll (bytesAt stream 0 n) := by
  have hn : n = i + (1 + (n - i - 1)) := by omega
  have e1 : bytesAt (Function.update stream i v) 0 i = bytesAt stream 0 i :=
    bytesAt_congr _ _ _ _ (fun k hk => by
      rw [Function.update_noteq (by omega)])
  have e2 : bytesAt (Function.update stream i v) (0 + i + 1) (n - i - 1) =
      bytesAt stream (0 + i + 1) (n - i - 1) :=
    bytesAt_congr _ _ _ _ (fun k hk => by
      rw [Function.update_noteq (by omega)])
  have e3 : bytesAt (Function.update stream i v) (0 + i) 1 = [v] := by
    show bytesAt (Function.update stream i v) (0 + i) (0 + 1) = [v]
    rw [bytesAt_succ, bytesAt_zero, Nat.zero_add, Function.update_same]
  have e4 : bytesAt stream (0 + i) 1 = [stream i] := by
    show bytesAt stream (0 + i) (0 + 1) = [stream i]
    rw [bytesAt_succ, bytesAt_zero]
    simp
  rw [hn, bytesAt_add, bytesAt_add, bytesAt_add, bytesAt_add, e1, e2, e3, e4]
  simp only [xorAll_append, xorAll_singleton]
  intro h
  exact hv (Nat.xor_left_injective (Nat.xor_right_injective h))

theorem msgCheckIntegrity_five (stream : Buffer) (len : Int) (hL : 1 ≤ stream 1)
    (h5 : 5 ≤ len) :
    msgCheckIntegrity stream len =
      decide (xorAll (bytesAt stream 0 (stream 1 + 3)) = stream (stream 1 + 3)) := by
  have e := msgCheckIntegrity_eq stream ((stream 1 : Int) + 4) hL (le_refl _)
  rw [← e]
  unfold msgCheckIntegrity
  rw [if_neg (by omega), if_neg (by omega)]

theorem findStreamSyncLoop_some (stream : Buffer) (remaining pos p : Nat)
    (h : (findStreamSyncLoop stream remaining pos).1 = some p) :
    pos ≤ p ∧ p < pos + remaining ∧ stream p = MESG_TX_SYNC ∧
      (∀ j, pos ≤ j → j < p → stream j ≠ MESG_TX_SYNC) ∧
      (findStreamSyncLoop stream remaining pos).2 = p := by
  induction remaining generalizing pos with
  | zero => simp [findStreamSyncLoop] at h
  | succ r ih =>
    unfold findStreamSyncLoop at h ⊢
    by_cases hs : stream pos = MESG_TX_SYNC
    · rw [if_pos hs] at h ⊢
      simp only [Option.some.injEq] at h
      subst h
      exact ⟨le_refl _, by omega, hs, fun j h1 h2 => by omega, rfl⟩
    · rw [if_neg hs] at h ⊢
      obtain ⟨h1, h2, h3, h4, h5⟩ := ih (pos + 1) h
      refine ⟨by omega, by omega, h3, ?_, h5⟩
      intro j hj1 hj2
      by_cases e : j = pos
      · rw [e]; exact hs
      · exact h4 j (by omega) hj2

theorem findStreamSyncLoop_none (stream : Buffer) (remaining pos : Nat) :
    ((findStreamSyncLoop stream remaining pos).1 = none ↔
      ∀ j, pos ≤ j → j < pos + remaining → stream j ≠ MESG_TX_SYNC) ∧
    ((findStreamSyncLoop stream remaining pos).1 = none →
      (findStreamSyncLoop stream remaining pos).2 = pos + remaining) := by
  induction remaining generalizing pos with
  | zero =>
    simp only [findStreamSyncLoop, true_iff, Nat.add_zero, forall_true_left, and_true]
    intro j h1 h2
    omega
  | succ r ih =>
    unfold findStreamSyncLoop
    by_cases hs : stream pos = MESG_TX_SYNC
    · rw [if_pos hs]
      simp only [false_iff, not_forall, false_implies, and_true, reduceCtorEq]
      exact ⟨pos, le_refl _, by omega, fun h => h hs⟩
    · rw [if_neg hs]
      obtain ⟨h1, h2⟩ := ih (pos + 1)
      constructor
      · rw [h1]
        constructor
        · intro h j hj1 hj2
          by_cases e : j = pos
          · rw [e]; exact hs
          · exact h j (by omega) (by omega)
        · intro h j hj1 hj2
          exact h j (by omega) (by omega)
      · intro h
        rw [h2 h]
        omega

theorem findStreamSyncLoop_congr (stream other : Buffer) (remaining pos : Nat)
    (h : ∀ j, pos ≤ j → j < pos + remaining → other j = stream j) :
    findStreamSyncLoop other remaining pos = findStreamSyncLoop stream remaining pos := by
  induction remaining generalizing pos with
  | zero => rfl
  | succ r ih =>
    unfold findStreamSyncLoop
    rw [h pos (le_refl _) (by omega), ih (pos + 1) (fun j h1 h2 => h j (by omega) (by omega))]

theorem message_channel_key (K : AntDefs) (F : FloatOps) (s s1 : State) (chan ev : Nat)
    (payload : Buffer) (out : List Out)
    (h : message_channel K F s chan ev payload = some (s1, out)) :
    s1.key = s.key ∧ s1.dcfg.length = s.dcfg.length := by
  unfold message_channel at h
  split_ifs at h
  · split at h
    · cases h
    · simp only at h
      split at h
      · cases h
      · simp only [Option.some.injEq, Prod.mk.injEq] at h
        obtain ⟨rfl, -⟩ := h
        exact ⟨rfl, by simp⟩
  · simp only [Option.some.injEq, Prod.mk.injEq] at h
    obtain ⟨rfl, -⟩ := h
    exact ⟨rfl, rfl⟩

theorem message_response_key (K : AntDefs) (F : FloatOps) (s s1 : State) (chan id : Nat)
    (payload : Buffer) (out : List Out)
    (h : message_response K F s chan id payload = some (s1, out)) :
    s1.key = s.key ∧ s1.dcfg.length = s.dcfg.length := by
  unfold message_response at h
  by_cases c0 : id = K.MESG_EVENT_ID
  · rw [if_pos c0] at h
    exact message_channel_key K F s s1 chan _ payload out h
  rw [if_neg c0] at h
  by_cases c1 : id = K.MESG_NETWORK_KEY_ID
  · rw [if_pos c1] at h
    split at h
    · cases h
    · simp only [Option.some.injEq, Prod.mk.injEq] at h
      obtain ⟨rfl, -⟩ := h
      exact ⟨rfl, by simp⟩
  rw [if_neg c1] at h
  by_cases c2 : id = K.MESG_ASSIGN_CHANNEL_ID
  · rw [if_pos c2] at h
    split at h
    · cases h
    · simp only [Option.some.injEq, Prod.mk.injEq] at h
      obtain ⟨rfl, -⟩ := h
      exact ⟨rfl, by simp⟩
  rw [if_neg c2] at h
  by_cases c3 : id = K.MESG_CHANNEL_MESG_PERIOD_ID
  · rw [if_pos c3] at h
    split at h
    · cases h
    · simp only [Option.some.injEq, Prod.mk.injEq] at h
      obtain ⟨rfl, -⟩ := h
      exact ⟨rfl, by simp⟩
  rw [if_neg c3] at h
  by_cases c4 : id = K.MESG_CHANNEL_SEARCH_TIMEOUT_ID
  · rw [if_pos c4] at h
    split at h
    · cases h
    · simp only [Option.some.injEq, Prod.mk.injEq] at h
      obtain ⟨rfl, -⟩ := h
      exact ⟨rfl, by simp⟩
  rw [if_neg c4] at h
  by_cases c5 : id = K.MESG_CHANNEL_RADIO_FREQ_ID
  · rw [if_pos c5] at h
    split at h
    · cases h
    · simp only [Option.some.injEq, Prod.mk.injEq] at h
      obtain ⟨rfl, -⟩ := h
      exact ⟨rfl, by simp⟩
  rw [if_neg c5] at h
  by_cases c6 : id = K.MESG_SEARCH_WAVEFORM_ID
  · rw [if_pos c6] at h
    split at h
    · cases h
    · simp only [Option.some.injEq, Prod.mk.injEq] at h
      obtain ⟨rfl, -⟩ := h
      exact ⟨rfl, by simp⟩
  rw [if_neg c6] at h
  by_cases c7 : id = K.MESG_CHANNEL_ID_ID
  · rw [if_pos c7] at h
    split at h
    · cases h
    · simp only [Option.some.injEq, Prod.mk.injEq] at h
      obtain ⟨rfl, -⟩ := h
      exact ⟨rfl, by simp⟩
  rw [if_neg c7] at h
  by_cases c8 : id = K.MESG_OPEN_CHANNEL_ID
  · rw [if_pos c8] at h
    split at h
    · cases h
    · simp only [Option.some.injEq, Prod.mk.injEq] at h
      obtain ⟨rfl, -⟩ := h
      exact ⟨rfl, by simp⟩
  rw [if_neg c8] at h
  by_cases c9 : id = K.MESG_CLOSE_CHANNEL_ID
  · rw [if_pos c9] at h
    split at h
    · cases h
    · simp only [Option.some.injEq, Prod.mk.injEq] at h
      obtain ⟨rfl, -⟩ := h
      exact ⟨rfl, by simp⟩
  rw [if_neg c9] at h
  simp only [Option.some.injEq, Prod.mk.injEq] at h
  obtain ⟨rfl, -⟩ := h
  exact ⟨rfl, rfl⟩

/-- Handling a message changes neither `ant.key` nor the number of table entries. -/
theorem message_event_key (K : AntDefs) (F : FloatOps) (s s1 : State) (channel id : Nat)
    (payload : Buffer) (out : List Out)
    (h : message_event K F s channel id payload = some (s1, out)) :
    s1.key = s.key ∧ s1.dcfg.length = s.dcfg.length := by
  unfold message_event at h
  simp only at h
  by_cases c0 : id = K.MESG_BROADCAST_DATA_ID
  · rw [if_pos c0] at h
    exact message_channel_key K F s s1 _ _ payload out h
  rw [if_neg c0] at h
  by_cases c1 : id = K.MESG_STARTUP_MESG_ID
  · rw [if_pos c1] at h
    split at h
    · simp only [Option.some.injEq, Prod.mk.injEq] at h
      obtain ⟨rfl, -⟩ := h
      exact ⟨rfl, rfl⟩
    · cases h
  rw [if_neg c1] at h
  by_cases c2 : id = K.MESG_RESPONSE_EVENT_ID
  · rw [if_pos c2] at h
    exact message_response_key K F s s1 _ _ payload out h
  rw [if_neg c2] at h
  by_cases c3 : id = K.MESG_CHANNEL_STATUS_ID
  · rw [if_pos c3] at h
    split at h
    · cases h
    · simp only [Option.some.injEq, Prod.mk.injEq] at h
      obtain ⟨rfl, -⟩ := h
      exact ⟨rfl, by simp⟩
  rw [if_neg c3] at h
  by_cases c4 : id = K.MESG_CHANNEL_ID_ID
  · rw [if_pos c4] at h
    split at h
    · cases h
    · simp only [Option.some.injEq, Prod.mk.injEq] at h
      obtain ⟨rfl, -⟩ := h
      exact ⟨rfl, by simp⟩
  rw [if_neg c4] at h
  simp only [Option.some.injEq, Prod.mk.injEq] at h
  obtain ⟨rfl, -⟩ := h
  exact ⟨rfl, rfl⟩

theorem run_key (K : AntDefs) (F : FloatOps) (ms : List Message) :
    ∀ (s s1 : State) (out : List Out), run K F s ms = (out, some s1) →
      s1.key = s.key ∧ s1.dcfg.length = s.dcfg.length := by
  induction ms with
  | nil =>
    intro s s1 out h
    simp only [run, Prod.mk.injEq, Option.some.injEq] at h
    obtain ⟨-, rfl⟩ := h
    exact ⟨rfl, rfl⟩
  | cons m ms ih =>
    intro s s1 out h
    cases hme : message_event K F s m.channel m.msgId m.payload with
    | none => simp [run, hme] at h
    | some r =>
      obtain ⟨s2, o2⟩ := r
      rw [run_cons_some K F s s2 m ms o2 hme] at h
      simp only [Prod.mk.injEq] at h
      obtain ⟨e1, e2⟩ := message_event_key K F s s2 _ _ _ o2 hme
      obtain ⟨g1, g2⟩ := ih s2 s1 (run K F s2 ms).1 (by rw [← h.2])
      exact ⟨by rw [g1, e1], by rw [g2, e2]⟩

theorem getAntKey_begin (K : AntDefs) (s0 : State) (k : Nat) :
    getAntKey (begin K s0 k).key = some (if k < KEY_TOTAL then antkeys.getD k []
      else [0xB9, 0xA5, 0x21, 0xFB, 0xBD, 0x72, 0xC3, 0x45]) := by
  have hkey : (begin K s0 k).key = if k < KEY_TOTAL then k else 0 := rfl
  rw [hkey]
  by_cases h : k < KEY_TOTAL
  · rw [if_pos h, if_pos h]
    have h4 : k < 4 := h
    interval_cases k <;> rfl
  · rw [if_neg h, if_neg h]
    rfl

theorem SetNetworkKey_data (K : AntDefs) (netNumber : Int) (k : Nat) :
    (SetNetworkKey K netNumber (if k < KEY_TOTAL then antkeys.getD k []
      else [0xB9, 0xA5, 0x21, 0xFB, 0xBD, 0x72, 0xC3, 0x45])).data =
      ([0xA4, 9, K.MESG_NETWORK_KEY_ID % 256, u8 netNumber] ++
        (if k < KEY_TOTAL then antkeys.getD k []
          else [0xB9, 0xA5, 0x21, 0xFB, 0xBD, 0x72, 0xC3, 0x45])) ++
      [calcMsgChecksum ([0xA4, 9, K.MESG_NETWORK_KEY_ID % 256, u8 netNumber] ++
        (if k < KEY_TOTAL then antkeys.getD k []
          else [0xB9, 0xA5, 0x21, 0xFB, 0xBD, 0x72, 0xC3, 0x45])) 12] := by
  by_cases h : k < KEY_TOTAL
  · rw [if_pos h]
    have h4 : k < 4 := h
    interval_cases k <;> rfl
  · rw [if_neg h]
    rfl

theorem sendMessageChannelStatus_eq (K : AntDefs) (cfg : TDCONFIG) (st : Nat) :
    sendMessageChannelStatus K cfg st =
      ({ cfg with flags := { cfg.flags with channelStatus := st, channelStatusOld := st } },
        if st ≠ cfg.flags.channelStatusOld then [statusNotification K cfg.channel st] else []) := by
  unfold sendMessageChannelStatus statusNotification
  by_cases h : st = cfg.flags.channelStatusOld
  · simp only [h, ne_eq, not_true_eq_false, if_false]
  · simp only [ne_eq, h, not_false_eq_true, if_true]

/-- `transmit` either submits nothing and leaves the queue as it is, or submits one
transfer, which it does only when `txready` is set and the queue is not empty, and then it
clears `txready`. -/
theorem transmit_cases (q : TxQueue) :
    ((transmit q).2 = none ∧ (transmit q).1 = q) ∨
    (∃ t, (transmit q).2 = some t ∧ q.txready = true ∧ q.txhead ≠ q.txtail ∧
      (transmit q).1.txready = false) := by
  unfold transmit
  by_cases h1 : q.txready = true
  · have hn : (!q.txready) = false := by rw [h1]; rfl
    by_cases h2 : q.txhead = q.txtail
    · left
      simp [hn, h2]
    · right
      simp only [hn, Bool.false_eq_true, if_false, h2]
      split_ifs <;> exact ⟨_, rfl, h1, h2, rfl⟩
  · left
    simp [h1]

/-- A returning `write` of at most 64 bytes ends with `transmit` on a queue with the same
`txready` and `txtail`. -/
theorem write_eq_transmit (q q1 : TxQueue) (data : List Nat) (size v : Nat)
    (t : Option Transfer) (h : write q data size = some (v, q1, t)) (h64 : ¬ size > 64) :
    ∃ Q : TxQueue, q1 = (transmit Q).1 ∧ t = (transmit Q).2 ∧ Q.txready = q.txready ∧
      Q.txtail = q.txtail ∧ Q.txbuffer.length = q.txbuffer.length := by
  have hm : ∀ (b : List Nat) (dst : Nat), (memcpy b dst data size).length = b.length := by
    intro b dst
    unfold memcpy
    generalize List.range size = l
    induction l generalizing b with
    | nil => rfl
    | cons x l ih => simp only [List.foldl_cons]; rw [ih]; simp
  simp only [write, h64, if_false] at h
  split_ifs at h <;>
    (simp only [Option.some.injEq, Prod.mk.injEq] at h
     obtain ⟨-, rfl, rfl⟩ := h
     exact ⟨_, rfl, rfl, rfl, rfl, by simp [hm]⟩)

theorem write_cases (q q1 : TxQueue) (data : List Nat) (size v : Nat) (t : Option Transfer)
    (h : write q data size = some (v, q1, t)) :
    (t = none ∧ q1.txready = q.txready) ∨
    (∃ t', t = some t' ∧ q.txready = true ∧ q1.txready = false) := by
  by_cases h64 : size > 64
  · simp only [write, h64, if_true, Option.some.injEq, Prod.mk.injEq] at h
    obtain ⟨-, rfl, rfl⟩ := h
    exact Or.inl ⟨rfl, rfl⟩
  · obtain ⟨Q, rfl, rfl, e1, -, -⟩ := write_eq_transmit q q1 data size v t h h64
    rcases transmit_cases Q with ⟨e3, e4⟩ | ⟨t', e3, e4, -, e6⟩
    · left
      refine ⟨e3, ?_⟩
      rw [e4, e1]
    · right
      exact ⟨t', e3, by rw [← e1]; exact e4, e6⟩

theorem tx_data_cases (q : TxQueue) (t : Transfer) :
    ((tx_data q t).2 = none ∧ (tx_data q t).1.txready = true) ∨
    (∃ t', (tx_data q t).2 = some t' ∧ (tx_data q t).1.txready = false) := by
  unfold tx_data
  rcases transmit_cases _ with ⟨e1, e2⟩ | ⟨t', e1, -, -, e4⟩
  · left
    refine ⟨e1, ?_⟩
    rw [e2]
  · right
    exact ⟨t', e1, e4⟩

/-- One event keeps `txready` clear exactly while a transfer is in flight, and the number
of submitted transfers grows with the completions. -/
theorem TxSim.step_inflight (s s1 : TxSim) (op : TxOp) (h : s.step op = some s1)
    (hinv : s.inflight.isSome = !s.q.txready) :
    s1.inflight.isSome = (!s1.q.txready) ∧
    s1.submitted.length + (if s.inflight.isSome then 1 else 0) =
      s.submitted.length + (if op = TxOp.complete then 1 else 0) +
        (if s1.inflight.isSome then 1 else 0) ∧
    (s.inflight.isSome → op ≠ TxOp.complete →
      s1.submitted = s.submitted ∧ s1.inflight = s.inflight) := by
  cases op with
  | write data size =>
    simp only [TxSim.step] at h
    split at h
    · cases h
    · rename_i v q1 t hw
      simp only [Option.some.injEq] at h
      subst h
      rcases write_cases _ _ _ _ _ _ hw with ⟨e1, e2⟩ | ⟨t', e1, e2, e3⟩
      · subst e1
        simp only [TxSim.submit, e2, hinv, reduceCtorEq, if_false, Nat.add_zero, true_and,
          implies_true, and_self]
      · subst e1
        have hn : s.inflight.isSome = false := by rw [hinv, e2]; rfl
        simp [TxSim.submit, e3, hn]
  | complete =>
    simp only [TxSim.step] at h
    split at h
    · cases h
    · rename_i t ht
      simp only [Option.some.injEq] at h
      subst h
      rcases tx_data_cases s.q t with ⟨e1, e2⟩ | ⟨t', e1, e2⟩
      · simp [TxSim.submit, e1, e2, ht]
      · simp [TxSim.submit, e1, e2, ht]

theorem TxSim.run_inflight (ops : List TxOp) :
    ∀ s s1 : TxSim, s.run ops = some s1 → s.inflight.isSome = (!s.q.txready) →
      s1.inflight.isSome = (!s1.q.txready) ∧
      s1.submitted.length + (if s.inflight.isSome then 1 else 0) =
        s.submitted.length + ops.count TxOp.complete +
          (if s1.inflight.isSome then 1 else 0) := by
  induction ops with
  | nil =>
    intro s s1 h hinv
    simp only [TxSim.run, Option.some.injEq] at h
    subst h
    exact ⟨hinv, by simp⟩
  | cons op ops ih =>
    intro s s1 h hinv
    simp only [TxSim.run] at h
    split at h
    · cases h
    · rename_i s2 hs
      obtain ⟨i1, i2, -⟩ := TxSim.step_inflight s s2 op hs hinv
      obtain ⟨j1, j2⟩ := ih s2 s1 h i1
      refine ⟨j1, ?_⟩
      rw [List.count_cons]
      by_cases hc : op = TxOp.complete
      · simp only [hc, if_true] at i2
        simp only [hc, beq_self_eq_true, if_true]
        omega
      · simp only [hc, if_false] at i2
        have : (op == TxOp.complete) = false := by simpa using hc
        simp only [this, Bool.false_eq_true, if_false]
        omega

/-- The decode loop returns, with enough iterations, and does what decoding until the first
failure says. -/
theorem handleMessagesLoop_decodes (K : AntDefs) (buffer : Buffer) (fuel : Nat) :
    ∀ (pos : Nat) (tBytes : Int), tBytes.toNat ≤ fuel →
      ∃ ds r, handleMessagesLoop K buffer fuel pos tBytes = some (ds, r) ∧
        DecodesUntilFailure K buffer pos tBytes ds r := by
  induction fuel with
  | zero =>
    intro pos tBytes h
    have h0 : tBytes ≤ 0 := by omega
    exact ⟨[], 1, handleMessagesLoop_done K buffer 0 pos tBytes h0,
      DecodesUntilFailure.exhausted pos tBytes h0⟩
  | succ fuel ih =>
    intro pos tBytes h
    by_cases hpos : tBytes > 0
    · cases hfs : findStreamSync (advance buffer pos) tBytes.toNat with
      | mk a b =>
        cases a with
        | none =>
          have hn := (findStreamSyncLoop_none (advance buffer pos) tBytes.toNat 0).1.mp
            (by unfold findStreamSync at hfs; rw [hfs])
          refine ⟨[], 0, ?_, DecodesUntilFailure.noSync pos tBytes hpos ?_⟩
          · simp only [handleMessagesLoop, hpos, if_true, hfs]
          · intro i hi
            have := hn i (Nat.zero_le _) (by omega)
            simpa [advance] using this
        | some off =>
          obtain ⟨-, h2, h3, h4, h5⟩ := findStreamSyncLoop_some (advance buffer pos)
            tBytes.toNat 0 off (by unfold findStreamSync at hfs; rw [hfs])
          have hb : b = off := by
            unfold findStreamSync at hfs
            rw [hfs] at h5
            exact h5
          subst hb
          have hj : (b : Int) < tBytes := by omega
          have hjunk : ∀ i : Nat, i < b → buffer (pos + i) ≠ MESG_TX_SYNC := by
            intro i hi
            have := h4 i (Nat.zero_le _) hi
            simpa [advance] using this
          have hsync : buffer (pos + b) = MESG_TX_SYNC := by simpa [advance] using h3
          cases hint : msgCheckIntegrity (advance buffer (pos + b)) (tBytes - b) with
          | false =>
            refine ⟨[], 0, ?_, DecodesUntilFailure.badFrame pos tBytes b hj hjunk hsync hint⟩
            simp only [handleMessagesLoop, hpos, if_true, hfs, hint, Bool.not_false]
          | true =>
            have hlen : msgGetLength (advance buffer (pos + b)) = buffer (pos + b + 1) + 4 := by
              simp [msgGetLength, advance, STREAM_LENGTH]
            obtain ⟨ds, r, e1, e2⟩ := ih (pos + b + (buffer (pos + b + 1) + 4))
              (tBytes - b - ((buffer (pos + b + 1) + 4 : Nat) : Int)) (by omega)
            refine ⟨_ :: ds, r, ?_,
              DecodesUntilFailure.frame pos tBytes b ds r hj hjunk hsync hint e2⟩
            simp only [handleMessagesLoop, hpos, if_true, hfs, hint, Bool.not_true,
              Bool.false_eq_true, if_false, hlen, e1, STREAM_MESSAGE, STREAM_DATA,
              STREAM_LENGTH]
    · have h0 : tBytes ≤ 0 := by omega
      exact ⟨[], 1, handleMessagesLoop_done K buffer _ pos tBytes h0,
        DecodesUntilFailure.exhausted pos tBytes h0⟩

/-- Decoding until the first failure determines the dispatched messages and the result. -/
theorem DecodesUntilFailure.unique (K : AntDefs) (buffer : Buffer) (pos : Nat) (tBytes : Int)
    (ds ds1 : List Dispatch) (r r1 : Nat) (h : DecodesUntilFailure K buffer pos tBytes ds r)
    (h1 : DecodesUntilFailure K buffer pos tBytes ds1 r1) : ds = ds1 ∧ r = r1 := by
  induction h generalizing ds1 r1 with
  | exhausted pos tBytes h =>
    cases h1 with
    | exhausted _ _ _ => exact ⟨rfl, rfl⟩
    | noSync _ _ h' _ => omega
    | badFrame _ _ j hj _ _ _ => omega
    | frame _ _ j _ _ hj _ _ _ _ => omega
  | noSync pos tBytes h hjunk =>
    cases h1 with
    | exhausted _ _ h' => omega
    | noSync _ _ _ _ => exact ⟨rfl, rfl⟩
    | badFrame _ _ j hj _ hsync _ => exact absurd hsync (hjunk j hj)
    | frame _ _ j _ _ hj _ hsync _ _ => exact absurd hsync (hjunk j hj)
  | badFrame pos tBytes j hj hjunk hsync hbad =>
    cases h1 with
    | exhausted _ _ h' => omega
    | noSync _ _ _ hjunk' => exact absurd hsync (hjunk' j hj)
    | badFrame _ _ _ _ _ _ _ => exact ⟨rfl, rfl⟩
    | frame _ _ j' _ _ hj' hjunk' hsync' hgood _ =>
      have e : j' = j := by
        by_contra hne
        rcases Nat.lt_or_gt_of_ne hne with hlt | hgt
        · exact hjunk j' hlt hsync'
        · exact hjunk' j hgt hsync
      subst e
      rw [hbad] at hgood
      cases hgood
  | frame pos tBytes j ds r hj hjunk hsync hgood hrest ih =>
    cases h1 with
    | exhausted _ _ h' => omega
    | noSync _ _ _ hjunk' => exact absurd hsync (hjunk' j hj)
    | badFrame _ _ j' hj' hjunk' hsync' hbad =>
      have e : j' = j := by
        by_contra hne
        rcases Nat.lt_or_gt_of_ne hne with hlt | hgt
        · exact hjunk j' hlt hsync'
        · exact hjunk' j hgt hsync
      subst e
      rw [hbad] at hgood
      cases hgood
    | frame _ _ j' ds' r' hj' hjunk' hsync' hgood' hrest' =>
      have e : j' = j := by
        by_contra hne
        rcases Nat.lt_or_gt_of_ne hne with hlt | hgt
        · exact hjunk j' hlt hsync'
        · exact hjunk' j hgt hsync
      subst e
      obtain ⟨e1, e2⟩ := ih _ _ hrest'
      exact ⟨by rw [e1], e2⟩

theorem DecodesUntilFailure.result (K : AntDefs) (buffer : Buffer) (pos : Nat) (tBytes : Int)
    (ds : List Dispatch) (r : Nat) (h : DecodesUntilFailure K buffer pos tBytes ds r) :
    r = 0 ∨ r = 1 := by
  induction h with
  | exhausted _ _ _ => exact Or.inr rfl
  | noSync _ _ _ _ => exact Or.inl rfl
  | badFrame _ _ _ _ _ _ _ => exact Or.inl rfl
  | frame _ _ _ _ _ _ _ _ _ _ ih => exact ih

theorem SingleRounding.bounds (rnd : ℚ → ℚ) (h : SingleRounding rnd) (x : ℚ) (hx : 0 ≤ x) :
    x - x / 2 ^ 24 ≤ rnd x ∧ rnd x ≤ x + x / 2 ^ 24 := by
  have := h x
  rw [abs_of_nonneg hx, abs_le] at this
  constructor <;> linarith [this.1, this.2]

/-- One wheel revolution of 2122 mm adds 2 to a running distance of at most `10^6`. -/
theorem addDistanceWith_one_revolution (rnd : ℚ → ℚ) (h : SingleRounding rnd) (d : Nat)
    (hd : d ≤ 1000000) : addDistanceWith rnd d 1 2122 = d + 2 := by
  unfold addDistanceWith
  simp only [Nat.cast_one, Nat.cast_ofNat]
  obtain ⟨a1, a2⟩ := h.bounds rnd 1 (by norm_num)
  obtain ⟨b1, b2⟩ := h.bounds rnd 2122 (by norm_num)
  have ha0 : (0 : ℚ) ≤ rnd 1 := by norm_num at a1; linarith
  have hb0 : (0 : ℚ) ≤ rnd 2122 := by norm_num at b1; linarith
  have hab0 : 0 ≤ rnd 1 * rnd 2122 := mul_nonneg ha0 hb0
  have hab1 : (2121.99 : ℚ) ≤ rnd 1 * rnd 2122 := by
    norm_num at a1 b1
    nlinarith
  have hab2 : rnd 1 * rnd 2122 ≤ (2122.01 : ℚ) := by
    norm_num at a2 b2
    nlinarith
  obtain ⟨p1, p2⟩ := h.bounds rnd (rnd 1 * rnd 2122) hab0
  have hp0 : 0 ≤ rnd (rnd 1 * rnd 2122) / 1000 := by
    apply div_nonneg _ (by norm_num)
    linarith
  obtain ⟨q1, q2⟩ := h.bounds rnd (rnd (rnd 1 * rnd 2122) / 1000) hp0
  have hq1 : (2.1219 : ℚ) ≤ rnd (rnd (rnd 1 * rnd 2122) / 1000) := by
    linarith
  have hq2 : rnd (rnd (rnd 1 * rnd 2122) / 1000) ≤ (2.1221 : ℚ) := by
    linarith
  have hdq : (d : ℚ) ≤ 1000000 := by exact_mod_cast hd
  have hd0 : (0 : ℚ) ≤ (d : ℚ) := Nat.cast_nonneg d
  obtain ⟨d1, d2⟩ := h.bounds rnd (d : ℚ) hd0
  have hx0 : 0 ≤ rnd (d : ℚ) + rnd (rnd (rnd 1 * rnd 2122) / 1000) := by linarith
  obtain ⟨s1, s2⟩ := h.bounds rnd _ hx0
  have hfloor : ⌊rnd (rnd (d : ℚ) + rnd (rnd (rnd 1 * rnd 2122) / 1000))⌋ = ((d + 2 : Nat) : Int) := by
    rw [Int.floor_eq_iff]
    push_cast
    constructor <;> linarith
  rw [hfloor, Int.toNat_ofNat]

theorem payload_SPEED_one_revolution (K : AntDefs) (sp : Nat → Int → Nat → Nat)
    (rnd : ℚ → ℚ) (h : SingleRounding rnd) (st : payload_SPEED_t) (data : Buffer)
    (hw : st.wheelCircumference = 0 ∨ st.wheelCircumference = 2122)
    (hct : le16 data 7 = st.previous.speedCt + 1)
    (ht : le16 data 5 = st.previous.speedTime + 1024)
    (hd : st.current.distance ≤ 1000000) :
    (payload_SPEED K ⟨sp, addDistanceWith rnd⟩ st data).1.current.distance =
        st.current.distance + 2 ∧
      (payload_SPEED K ⟨sp, addDistanceWith rnd⟩ st data).1.previous.distance =
        st.current.distance + 2 ∧
      (payload_SPEED K ⟨sp, addDistanceWith rnd⟩ st data).1.wheelCircumference = 2122 ∧
      (payload_SPEED K ⟨sp, addDistanceWith rnd⟩ st data).2 =
        [Out.sendMessage K.ANTP_MSG_PROFILE_DATA K.PROFILE_SPEED] := by
  have hne : le16 data 5 ≠ st.previous.speedTime := by omega
  have hwheel : (if st.wheelCircumference = 0 then WHEEL_CIRCUMFERENCE
      else st.wheelCircumference) = 2122 := by
    rcases hw with e | e
    · rw [if_pos e]; rfl
    · rw [if_neg (by omega), e]
  have hdelta : toU32 (((st.previous.speedCt + 1 : Nat) : Int) - (st.previous.speedCt : Int)) =
      1 := by
    unfold toU32
    omega
  unfold payload_SPEED
  simp only [hne, ne_eq, not_false_eq_true, true_or, decide_True, if_true, hwheel, hct, hdelta,
    addDistanceWith_one_revolution rnd h _ hd, and_self]

theorem feedSPEED_distance (K : AntDefs) (sp : Nat → Int → Nat → Nat) (rnd : ℚ → ℚ)
    (h : SingleRounding rnd) (ps : List Buffer) :
    ∀ st : payload_SPEED_t, (st.wheelCircumference = 0 ∨ st.wheelCircumference = 2122) →
      OneRevolutionEach K ⟨sp, addDistanceWith rnd⟩ st ps →
      st.current.distance + 2 * ps.length ≤ 1000000 →
      (feedSPEED K ⟨sp, addDistanceWith rnd⟩ st ps).current.distance =
        st.current.distance + 2 * ps.length := by
  induction ps with
  | nil => intro st _ _ _; simp [feedSPEED]
  | cons p ps ih =>
    intro st hw hone hd
    obtain ⟨h1, h2, h3⟩ := hone
    simp only [List.length_cons] at hd
    obtain ⟨e1, -, e3, -⟩ := payload_SPEED_one_revolution K sp rnd h st p hw h1 h2 (by omega)
    have := ih (payload_SPEED K ⟨sp, addDistanceWith rnd⟩ st p).1 (Or.inr e3) h3
      (by rw [e1]; omega)
    simp only [feedSPEED, List.length_cons]
    rw [this, e1]
    omega

theorem andInt_FF (x : Int) : andInt x 0xFF = x % 256 := by
  have h : toU32 x &&& 0xFF ≤ 0xFF := Nat.and_le_right
  have hff : toU32 (0xFF : Int) = 0xFF := by decide
  have hmod : toU32 x &&& 0xFF = toU32 x % 256 := Nat.and_pow_two_sub_one_eq_mod _ 8
  unfold andInt ofU32
  rw [hff, if_pos (by omega), hmod]
  unfold toU32
  omega

/-- The shift `x >> 8` of an `int` is the quotient by 256 rounded down. -/
theorem shiftRight_eight (x : Int) : x >>> (8 : Int) = x / 256 := by
  have h8 : (8 : Int) = ((8 : Nat) : Int) := rfl
  cases x with
  | ofNat a =>
    rw [Int.ofNat_eq_coe, h8, Int.shiftRight_coe_nat, Nat.shiftRight_eq_div_pow]
    omega
  | negSucc a =>
    rw [h8, Int.shiftRight_negSucc, Nat.shiftRight_eq_div_pow, Int.negSucc_eq, Int.negSucc_eq]
    omega

/-- A response to one of the nine bring-up and close ids fails (an access outside `ant.dcfg`)
exactly when its channel byte is not an index of the table. -/
theorem message_response_none_iff (K : AntDefs) (hK : K.WF) (F : FloatOps) (s : State)
    (chan id : Nat) (payload : Buffer)
    (hid : id ∈ [K.MESG_NETWORK_KEY_ID, K.MESG_ASSIGN_CHANNEL_ID, K.MESG_CHANNEL_MESG_PERIOD_ID,
      K.MESG_CHANNEL_SEARCH_TIMEOUT_ID, K.MESG_CHANNEL_RADIO_FREQ_ID, K.MESG_SEARCH_WAVEFORM_ID,
      K.MESG_CHANNEL_ID_ID, K.MESG_OPEN_CHANNEL_ID, K.MESG_CLOSE_CHANNEL_ID]) :
    message_response K F s chan id payload = none ↔ s.dcfg.length ≤ chan := by
  obtain ⟨r0, r1, r2, r3, r4, r5, r6, r7, r8, r9, r10, r11, r12, r13, r14, r15, r16, r17, r18,
    r19, r20, r21, r22, r23, r24, r25, r26, r27, r28, r29, r30, r31, r32, r33, r34, r35,
    r36, r37, r38, r39, r40, r41, r42, r43, r44, r45, r46, r47, r48, r49, r50, r51, r52,
    r53, r54, r55, r56, r57, r58, r59, r60, r61, r62, r63, r64, r65, r66, r67, r68, r69,
    r70, r71, r72, r73, r74, r75, r76, r77, r78, r79, r80, r81, r82, r83, r84, r85, r86,
    r87, r88, r89⟩ := hK.response_ne
  simp only [List.mem_cons, List.mem_singleton, List.mem_nil_iff, or_false] at hid
  cases h : s.dcfg[chan]? with
  | none =>
    have hl : s.dcfg.length ≤ chan := List.getElem?_eq_none_iff.mp h
    simp only [hl, iff_true]
    rcases hid with e | e | e | e | e | e | e | e | e <;> subst e <;>
      simp only [message_response, h, r0, r1, r2, r3, r4, r5, r6, r7, r8, r9, r10, r11, r12,
        r13, r14, r15, r16, r17, r18,
        r19, r20, r21, r22, r23, r24, r25, r26, r27, r28, r29, r30, r31, r32, r33, r34, r35,
        r36, r37, r38, r39, r40, r41, r42, r43, r44, r45, r46, r47, r48, r49, r50, r51, r52,
        r53, r54, r55, r56, r57, r58, r59, r60, r61, r62, r63, r64, r65, r66, r67, r68, r69,
        r70, r71, r72, r73, r74, r75, r76, r77, r78, r79, r80, r81, r82, r83, r84, r85, r86,
        r87, r88, r89, if_false, if_true]
  | some cfg =>
    have hl : ¬ s.dcfg.length ≤ chan := by
      intro hl
      rw [List.getElem?_eq_none_iff.mpr hl] at h
      cases h
    simp only [hl, iff_false]
    rcases hid with e | e | e | e | e | e | e | e | e <;> subst e <;>
      simp only [message_response, h, r0, r1, r2, r3, r4, r5, r6, r7, r8, r9, r10, r11, r12,
        r13, r14, r15, r16, r17, r18,
        r19, r20, r21, r22, r23, r24, r25, r26, r27, r28, r29, r30, r31, r32, r33, r34, r35,
        r36, r37, r38, r39, r40, r41, r42, r43, r44, r45, r46, r47, r48, r49, r50, r51, r52,
        r53, r54, r55, r56, r57, r58, r59, r60, r61, r62, r63, r64, r65, r66, r67, r68, r69,
        r70, r71, r72, r73, r74, r75, r76, r77, r78, r79, r80, r81, r82, r83, r84, r85, r86,
        r87, r88, r89, if_false, if_true, reduceCtorEq, not_false_eq_true]

/-- A channel-status message fails (an access outside `ant.dcfg`) exactly when its channel
byte is not an index of the table. -/
theorem message_event_status_none_iff (K : AntDefs) (hK : K.WF) (F : FloatOps) (s : State)
    (m : Message) (c : Nat) (hm : m.isChannelStatus K c) :
    message_event K F s m.channel m.msgId m.payload = none ↔ s.dcfg.length ≤ c := by
  cases h : s.dcfg[c]? with
  | none =>
    have hl : s.dcfg.length ≤ c := List.getElem?_eq_none_iff.mp h
    obtain ⟨e0, e1, e2, e3, e4, e5, e6, e7, e8, e9, e10, e11, e12, e13, e14, e15, e16, e17, e18,
      e19, e20, e21, e22, e23, e24, e25, e26, e27, e28, e29, e30, e31, e32, e33, e34, e35, e36,
      e37, e38, e39, e40, e41⟩ := hK.event_ne
    obtain ⟨h1, h2⟩ := hm
    simp only [message_event, h1, h2, h, hl, e0, e1, e2, e3, e4, e5, e6, e7, e8, e9,
      e10, e11, e12, e13, e14, e15, e16, e17, e18, e19, e20, e21, e22, e23, e24, e25, e26, e27,
      e28, e29, e30, e31, e32, e33, e34, e35, e36, e37, e38, e39, e40, e41, if_false, if_true]
  | some cfg =>
    have hl : ¬ s.dcfg.length ≤ c := by
      intro hl
      rw [List.getElem?_eq_none_iff.mpr hl] at h
      cases h
    rw [message_event_status K hK F s m c cfg hm h]
    simp only [hl, iff_false, reduceCtorEq, not_false_eq_true]

/-- The index `chan` that `message_event` computes from its `channel` argument is an index
of a table of `PROFILE_TOTAL` entries. -/
theorem Message.chan_lt (K : AntDefs) (hK : K.WF) (m : Message) : m.chan K < K.PROFILE_TOTAL := by
  have h0 : K.PROFILE_HRM < K.PROFILE_TOTAL :=
    (hK.profile_cover K.PROFILE_HRM).mpr (List.mem_cons_self _ _)
  have hb := hK.profile_total_byte
  unfold Message.chan
  split_ifs with h
  · rw [Nat.mod_eq_of_lt (by omega)]
    exact h
  · omega

theorem u8_natCast_lt (n : Nat) (h : n < 256) : u8 (n : Int) = n := by
  unfold u8
  omega

theorem ext_burst_packet_eq (K : AntDefs) (channel devNum devType tranType : Int)
    (data : List Nat) (n i : Nat) :
    SendExtBurstTransferPacket K
      (orInt ((burstSeq n i <<< 5 : Nat) : Int) (andInt channel 0x1F)) devNum devType tranType
      (data.drop (i <<< 3)) =
    SendExtBroadcastData K
      (((burstSeq n i <<< 5) ||| (andInt channel 0x1F).toNat : Nat) : Int) devNum devType
      tranType (data.drop (8 * i)) := by
  have hb := burst_channel_byte channel _ (burstSeq_lt n i)
  have hlt : (burstSeq n i <<< 5) ||| (andInt channel 0x1F).toNat < 256 := by
    rw [← hb]
    exact u8_lt _
  have hsh : i <<< 3 = 8 * i := by rw [Nat.shiftLeft_eq]; omega
  unfold SendExtBurstTransferPacket SendExtBroadcastData
  rw [hb, u8_natCast_lt _ hlt, hsh]

theorem SendExtBurstTransferLoop_eq (K : AntDefs) (channel devNum devType tranType : Int)
    (data : List Nat) (n : Nat) :
    ∀ remaining i,
      SendExtBurstTransferLoop K channel devNum devType tranType data n remaining i (i % 4) =
      (List.range remaining).map (fun k => SendExtBroadcastData K
        (((burstSeq n (i + k) <<< 5) ||| (andInt channel 0x1F).toNat : Nat) : Int) devNum
        devType tranType (data.drop (8 * (i + k)))) := by
  intro remaining
  induction remaining with
  | zero => intro i; rfl
  | succ r ih =>
    intro i
    have hseq : (if i = n - 1 then (i % 4) ||| 0x04 else i % 4) = burstSeq n i := rfl
    unfold SendExtBurstTransferLoop
    simp only [hseq, burst_seq_next, ih (i + 1), ext_burst_packet_eq]
    rw [List.range_succ_eq_map, List.map_cons, List.map_map]
    simp only [Nat.add_zero, List.cons.injEq, true_and]
    apply List.map_congr_left
    intro k _
    simp only [Function.comp, Nat.succ_eq_add_one]
    have e : i + 1 + k = i + (k + 1) := by omega
    rw [e]

/-- The bytes an encoder assembles (sync, number of data bytes, id, data bytes, checksum)
are the bytes of the frame with that id and those data bytes. -/
theorem encoder_bytes_eq_frame (id : Nat) (hid : id < 256) (body : List Nat)
    (hb : ∀ b ∈ body, b < 256) (hlen : body.length < 256) :
    (MESG_TX_SYNC % 256 :: body.length :: id % 256 :: body) ++
        [calcMsgChecksum (MESG_TX_SYNC % 256 :: body.length :: id % 256 :: body)
          (body.length + 3)] =
      Frame.bytes ⟨id, body⟩ := by
  have hsync : MESG_TX_SYNC % 256 = MESG_TX_SYNC := by decide
  rw [Nat.mod_eq_of_lt hid, hsync, calcMsgChecksum_eq _ _ (by simp) (by
    intro b hb1
    simp only [List.mem_cons] at hb1
    rcases hb1 with h | h | h | h
    · rw [h]; decide
    · rw [h]; exact hlen
    · rw [h]; exact hid
    · exact hb b h)]
  rfl

theorem u8_low_byte (p : Nat) : u8 (andInt (p : Int) 0xFF) = p % 256 := by
  rw [andInt_FF]
  unfold u8
  omega

theorem u8_high_byte (p : Nat) : u8 ((p : Int) >>> (8 : Int)) = p / 256 % 256 := by
  rw [shiftRight_eight]
  unfold u8
  omega

theorem mod_256_lt (x : Nat) : x % 256 < 256 := Nat.mod_lt _ (by omega)

theorem AssignChannel_frame (K : AntDefs) (hK : K.WF) (c t n : Nat) (hc : c < 256) :
    AssignChannel K c t n =
      ⟨Frame.bytes ⟨K.MESG_ASSIGN_CHANNEL_ID, [c, t % 256, n % 256]⟩, 7⟩ := by
  have hid : K.MESG_ASSIGN_CHANNEL_ID < 256 := hK.ids_byte _ (by simp)
  unfold AssignChannel
  simp only [u8_natCast, Nat.mod_eq_of_lt hc]
  exact congrArg (fun d => WriteCall.mk d 7) (encoder_bytes_eq_frame _ hid [c, t % 256, n % 256]
    (by simp [hc, mod_256_lt]) (by simp))

theorem SetChannelPeriod_frame (K : AntDefs) (hK : K.WF) (c p : Nat) (hc : c < 256) :
    SetChannelPeriod K c p =
      ⟨Frame.bytes ⟨K.MESG_CHANNEL_MESG_PERIOD_ID, [c, p % 256, p / 256 % 256]⟩, 7⟩ := by
  have hid : K.MESG_CHANNEL_MESG_PERIOD_ID < 256 := hK.ids_byte _ (by simp)
  unfold SetChannelPeriod
  simp only [u8_natCast, Nat.mod_eq_of_lt hc, u8_low_byte, u8_high_byte]
  exact congrArg (fun d => WriteCall.mk d 7) (encoder_bytes_eq_frame _ hid
    [c, p % 256, p / 256 % 256] (by simp [hc, mod_256_lt]) (by simp))

theorem SetChannelSearchTimeout_frame (K : AntDefs) (hK : K.WF) (c t : Nat) (hc : c < 256) :
    SetChannelSearchTimeout K c t =
      ⟨Frame.bytes ⟨K.MESG_CHANNEL_SEARCH_TIMEOUT_ID, [c, t % 256]⟩, 6⟩ := by
  have hid : K.MESG_CHANNEL_SEARCH_TIMEOUT_ID < 256 := hK.ids_byte _ (by simp)
  unfold SetChannelSearchTimeout
  simp only [u8_natCast, Nat.mod_eq_of_lt hc]
  exact congrArg (fun d => WriteCall.mk d 6) (encoder_bytes_eq_frame _ hid [c, t % 256]
    (by simp [hc, mod_256_lt]) (by simp))

theorem SetChannelRFFreq_frame (K : AntDefs) (hK : K.WF) (c f : Nat) (hc : c < 256) :
    SetChannelRFFreq K c f =
      ⟨Frame.bytes ⟨K.MESG_CHANNEL_RADIO_FREQ_ID, [c, f % 256]⟩, 6⟩ := by
  have hid : K.MESG_CHANNEL_RADIO_FREQ_ID < 256 := hK.ids_byte _ (by simp)
  unfold SetChannelRFFreq
  simp only [u8_natCast, Nat.mod_eq_of_lt hc]
  exact congrArg (fun d => WriteCall.mk d 6) (encoder_bytes_eq_frame _ hid [c, f % 256]
    (by simp [hc, mod_256_lt]) (by simp))

/-- The frame of `SetSearchWaveform` for a waveform below 256, whose second byte is 0. -/
theorem SetSearchWaveform_frame (K : AntDefs) (hK : K.WF) (c w : Nat) (hc : c < 256)
    (hw : w < 256) :
    SetSearchWaveform K c w =
      ⟨Frame.bytes ⟨K.MESG_SEARCH_WAVEFORM_ID, [c, w % 256, w / 256 % 256]⟩, 7⟩ := by
  have hid : K.MESG_SEARCH_WAVEFORM_ID < 256 := hK.ids_byte _ (by simp)
  have h1 : (w &&& 0xFF) % 256 = w % 256 := by
    rw [Nat.and_pow_two_sub_one_eq_mod w 8]
    omega
  have h2 : (w >>> 8) % 256 = w / 256 % 256 := by
    rw [Nat.shiftRight_eq_div_pow]
  unfold SetSearchWaveform
  simp only [u8_natCast, Nat.mod_eq_of_lt hc, Nat.mod_eq_of_lt hw]
  rw [h1, h2, Nat.mod_eq_of_lt hw]
  exact congrArg (fun d => WriteCall.mk d 7) (encoder_bytes_eq_frame _ hid
    [c, w, w / 256 % 256] (by simp [hc, hw, mod_256_lt]) (by simp))

theorem SetChannelId_frame (K : AntDefs) (hK : K.WF) (c n t x : Nat) (hc : c < 256) :
    SetChannelId K c n t x =
      ⟨Frame.bytes ⟨K.MESG_CHANNEL_ID_ID, [c, n % 256, n / 256 % 256, t % 256, x % 256]⟩,
        9⟩ := by
  have hid : K.MESG_CHANNEL_ID_ID < 256 := hK.ids_byte _ (by simp)
  unfold SetChannelId
  simp only [u8_natCast, Nat.mod_eq_of_lt hc, u8_low_byte, u8_high_byte]
  exact congrArg (fun d => WriteCall.mk d 9) (encoder_bytes_eq_frame _ hid
    [c, n % 256, n / 256 % 256, t % 256, x % 256] (by simp [hc, mod_256_lt]) (by simp))

theorem OpenChannel_frame (K : AntDefs) (hK : K.WF) (c : Nat) (hc : c < 256) :
    OpenChannel K c = ⟨Frame.bytes ⟨K.MESG_OPEN_CHANNEL_ID, [c]⟩, 5⟩ := by
  have hid : K.MESG_OPEN_CHANNEL_ID < 256 := hK.ids_byte _ (by simp)
  unfold OpenChannel
  simp only [u8_natCast, Nat.mod_eq_of_lt hc]
  exact congrArg (fun d => WriteCall.mk d 5) (encoder_bytes_eq_frame _ hid [c]
    (by simp [hc]) (by simp))

theorem RequestMessage_frame (K : AntDefs) (hK : K.WF) (c m : Nat) (hc : c < 256)
    (hm : m < 256) :
    RequestMessage K c m = ⟨Frame.bytes ⟨K.MESG_REQUEST_ID, [c, m]⟩, 6⟩ := by
  have hid : K.MESG_REQUEST_ID < 256 := hK.ids_byte _ (by simp)
  unfold RequestMessage
  simp only [u8_natCast, Nat.mod_eq_of_lt hc, Nat.mod_eq_of_lt hm]
  exact congrArg (fun d => WriteCall.mk d 6) (encoder_bytes_eq_frame _ hid [c, m]
    (by simp [hc, hm]) (by simp))

/-- The device type, channel period and RF frequency `begin` stores for each profile. -/
theorem begin_dcfg_profile (K : AntDefs) (hK : K.WF) (s0 : State) (key c : Nat)
    (hlen : s0.dcfg.length = K.PROFILE_TOTAL) (hc : c < K.PROFILE_TOTAL) :
    ∃ cfg, (begin K s0 key).dcfg[c]? = some cfg ∧
    (c = K.PROFILE_HRM → cfg.deviceType = K.ANT_DEVICE_HRM ∧
      cfg.channelPeriod = K.ANT_PERIOD_HRM ∧ cfg.RFFreq = K.ANT_FREQUENCY_SPORT) ∧
    (c = K.PROFILE_SPDCAD → cfg.deviceType = K.ANT_DEVICE_SPDCAD ∧
      cfg.channelPeriod = K.ANT_PERIOD_SPDCAD ∧ cfg.RFFreq = K.ANT_FREQUENCY_SPORT) ∧
    (c = K.PROFILE_POWER → cfg.deviceType = K.ANT_DEVICE_POWER ∧
      cfg.channelPeriod = K.ANT_PERIOD_POWER ∧ cfg.RFFreq = K.ANT_FREQUENCY_SPORT) ∧
    (c = K.PROFILE_STRIDE → cfg.deviceType = K.ANT_DEVICE_STRIDE ∧
      cfg.channelPeriod = K.ANT_PERIOD_STRIDE ∧ cfg.RFFreq = K.ANT_FREQUENCY_STRIDE) ∧
    (c = K.PROFILE_SPEED → cfg.deviceType = K.ANT_DEVICE_SPEED ∧
      cfg.channelPeriod = K.ANT_PERIOD_SPEED ∧ cfg.RFFreq = K.ANT_FREQUENCY_SPORT) ∧
    (c = K.PROFILE_CADENCE → cfg.deviceType = K.ANT_DEVICE_CADENCE ∧
      cfg.channelPeriod = K.ANT_PERIOD_CADENCE ∧ cfg.RFFreq = K.ANT_FREQUENCY_SPORT) := by
  have hmem := (hK.profile_cover c).mp hc
  obtain ⟨p0, p1, p2, p3, p4, p5, p6, p7, p8, p9, p10, p11, p12, p13, p14, p15, p16, p17, p18,
    p19, p20, p21, p22, p23, p24, p25, p26, p27, p28, p29⟩ := hK.profile_ne
  obtain ⟨c0, hc0⟩ : ∃ c0, s0.dcfg[c]? = some c0 :=
    ⟨s0.dcfg[c], List.getElem?_eq_getElem (by omega)⟩
  simp only [List.mem_cons, List.mem_singleton, List.mem_nil_iff, or_false] at hmem
  simp only [begin, updateCfg_getElem?]
  rcases hmem with h | h | h | h | h | h <;> subst h <;>
    simp only [p0, p1, p2, p3, p4, p5, p6, p7, p8, p9, p10, p11, p12, p13, p14, p15, p16, p17,
      p18, p19, p20, p21, p22, p23, p24, p25, p26, p27, p28, p29, if_false, if_true, hc0,
      Option.map_some', Option.some.injEq, exists_eq_left', profileSetup_HRM,
      profileSetup_SPDCAD, profileSetup_POWER, profileSetup_STRIDE, profileSetup_SPEED,
      profileSetup_CADENCE, and_self, false_implies, true_implies, forall_const, and_true,
      true_and, IsEmpty.forall_iff]

/-! ## Theorems -/


/-- C1 (as stated, refuted): the four bytes `A4 00 4A EE` are a whole frame with length
byte 0 whose trailing byte is the XOR of the bytes before it, and `msgCheckIntegrity`
returns false on it, with `len = 4` as well as with `len = 5`. -/
theorem msgCheckIntegrity_zero_length_counterexample :
    (bufferOf [0xA4, 0, 0x4A, 0xEE]) 1 = 0 ∧
    (bufferOf [0xA4, 0, 0x4A, 0xEE]) ((bufferOf [0xA4, 0, 0x4A, 0xEE]) 1 + 3) =
      xorAll (bytesAt (bufferOf [0xA4, 0, 0x4A, 0xEE]) 0 ((bufferOf [0xA4, 0, 0x4A, 0xEE]) 1 + 3)) ∧
    msgCheckIntegrity (bufferOf [0xA4, 0, 0x4A, 0xEE]) 4 = false ∧
    msgCheckIntegrity (bufferOf [0xA4, 0, 0x4A, 0xEE]) 5 = false := by
  decide

/-- C1 (amended): for every buffer and byte count `len` that contains the whole frame
(`stream[1] + 4 <= len`) and whose length byte is at least 1, `msgCheckIntegrity` returns
true if and only if the trailing byte `stream[stream[1] + 3]` equals the XOR of all the
frame bytes before it, `stream[0 .. stream[1] + 3)`. -/
theorem msgCheckIntegrity_iff (stream : Buffer) (len : Int) (hL : 1 ≤ stream 1)
    (hlen : (stream 1 : Int) + 4 ≤ len) :
    msgCheckIntegrity stream len = true ↔
      stream (stream 1 + 3) = xorAll (bytesAt stream 0 (stream 1 + 3)) := by
  rw [msgCheckIntegrity_eq stream len hL hlen, decide_eq_true_iff]
  exact eq_comm

/-- C1, the amended statement at the reset frame `A4 01 4A 00 EF`. -/
theorem msgCheckIntegrity_iff_witness :
    msgCheckIntegrity (bufferOf [0xA4, 1, 0x4A, 0, 0xEF]) 5 = true ↔
      (bufferOf [0xA4, 1, 0x4A, 0, 0xEF]) ((bufferOf [0xA4, 1, 0x4A, 0, 0xEF]) 1 + 3) =
        xorAll (bytesAt (bufferOf [0xA4, 1, 0x4A, 0, 0xEF]) 0
          ((bufferOf [0xA4, 1, 0x4A, 0, 0xEF]) 1 + 3)) :=
  msgCheckIntegrity_iff (bufferOf [0xA4, 1, 0x4A, 0, 0xEF]) 5 (by decide) (by decide)

/-- C2 (as stated, refuted): the four bytes `A4 00 4A EE` are a valid frame with `L = 0`
(sync, length 0, message id, no data byte, XOR checksum), and `handleMessages` applied to
exactly these `L + 4 = 4` bytes dispatches nothing and returns 0. -/
theorem handleMessages_roundtrip_counterexample :
    xorAll [0xA4, 0, 0x4A] = 0xEE ∧
    handleMessages antDefs (bufferOf [0xA4, 0, 0x4A, 0xEE]) 4 = some ([], 0) := by
  decide

/-- C2 (amended): for every valid frame with at least one data byte (sync `0xA4`, length
byte `L ≥ 1`, message id, `L` data bytes, trailing XOR checksum), whatever is stored after
it, `handleMessages` applied to exactly those `L + 4` bytes dispatches exactly one message,
whose message id, data bytes and data length `L` are the encoded ones, and returns 1; this
holds in particular for the bytes submitted by every command encoder for every argument
value. -/
theorem handleMessages_roundtrip (K : AntDefs) (hK : K.WF) (buffer : Buffer) (L : Nat)
    (hL : 1 ≤ L) (hsync : buffer 0 = 0xA4) (hlen : buffer 1 = L)
    (hck : buffer (L + 3) = xorAll (bytesAt buffer 0 (L + 3))) :
    (∃ d, handleMessages K buffer ((L : Int) + 4) = some ([d], 1) ∧
      d.msgId = buffer 2 ∧ d.dataLength = L ∧ d.data buffer = bytesAt buffer 3 L) ∧
    ∀ (c : Command) (rest : List Nat),
      ∃ d, handleMessages K (bufferOf ((c.submit K).data ++ rest)) ((c.submit K).size : Int) =
          some ([d], 1) ∧
        d.msgId = c.msgId K ∧ d.dataLength = c.dataLen ∧
        d.data (bufferOf ((c.submit K).data ++ rest)) =
          ((c.submit K).data.drop 3).take c.dataLen := by
  refine ⟨⟨_, handleMessages_single K buffer L hL hsync hlen hck, rfl, rfl, rfl⟩, ?_⟩
  intro c rest
  obtain ⟨body, hblen, hdata, hsize⟩ := submit_shape K hK c
  have hL1 : 1 ≤ c.dataLen := by cases c <;> simp [Command.dataLen]
  have hlength : (c.submit K).data.length = c.dataLen + 4 := by simp [hdata, hblen]
  have hb : ∀ i, i < c.dataLen + 4 →
      bufferOf ((c.submit K).data ++ rest) i = (c.submit K).data.getD i 0 :=
    fun i hi => bufferOf_append_left _ _ _ (by omega)
  have h0 : bufferOf ((c.submit K).data ++ rest) 0 = MESG_TX_SYNC := by
    rw [hb 0 (by omega), hdata]; rfl
  have h1 : bufferOf ((c.submit K).data ++ rest) 1 = c.dataLen := by
    rw [hb 1 (by omega), hdata]; rfl
  have h2 : bufferOf ((c.submit K).data ++ rest) 2 = c.msgId K := by
    rw [hb 2 (by omega), hdata]; rfl
  have hpre : bytesAt (bufferOf ((c.submit K).data ++ rest)) 0 (c.dataLen + 3) =
      MESG_TX_SYNC :: c.dataLen :: c.msgId K :: body := by
    rw [bytesAt_bufferOf _ _ _ _ (by omega), hdata, List.drop_zero,
      List.take_append_of_le_length (by simp [hblen])]
    exact List.take_of_length_le (by simp [hblen])
  have h3 : bufferOf ((c.submit K).data ++ rest) (c.dataLen + 3) =
      xorAll (bytesAt (bufferOf ((c.submit K).data ++ rest)) 0 (c.dataLen + 3)) := by
    rw [hpre, hb _ (by omega), hdata, List.getD_eq_getElem?_getD,
      List.getElem?_append_right (by simp [hblen])]
    simp [hblen]
  have hsz : ((c.submit K).size : Int) = (c.dataLen : Int) + 4 := by rw [hsize]; push_cast; rfl
  refine ⟨⟨bufferOf ((c.submit K).data ++ rest) K.STREAM_CHANNEL, c.msgId K, 3, c.dataLen⟩,
    ?_, rfl, rfl, ?_⟩
  · rw [hsz]
    have := handleMessages_single K _ c.dataLen hL1 h0 h1 h3
    rw [h2] at this
    exact this
  · simp only [Dispatch.data]
    exact bytesAt_bufferOf _ _ _ _ (by omega)

/-- C2, the amended statement at the reset frame `A4 01 4A 00 EF`. -/
theorem handleMessages_roundtrip_witness :
    antDefs.WF ∧
    ∃ d, handleMessages antDefs (bufferOf [0xA4, 1, 0x4A, 0, 0xEF]) ((1 : Nat) + 4) =
        some ([d], 1) ∧ d.msgId = (bufferOf [0xA4, 1, 0x4A, 0, 0xEF]) 2 ∧ d.dataLength = 1 ∧
      d.data (bufferOf [0xA4, 1, 0x4A, 0, 0xEF]) = bytesAt (bufferOf [0xA4, 1, 0x4A, 0, 0xEF]) 3 1 :=
  ⟨antDefs_wf, (handleMessages_roundtrip antDefs antDefs_wf (bufferOf [0xA4, 1, 0x4A, 0, 0xEF]) 1
    (by decide) (by decide) (by decide) (by decide)).1⟩

/-- C3: for every command encoder and every argument value, the bytes handed to `write`
satisfy the frame invariant: byte 0 is `0xA4`, byte 1 is the number `L` of data bytes, byte 2
is the command's message id, the last byte is the XOR of all bytes before it, and the number
of bytes submitted is `L + 4`, which is also the value `write` returns (it is not zero, and
`write` does return it from the queue state `claim` sets up). -/
theorem encoder_frame_invariant (K : AntDefs) (hK : K.WF) (c : Command) :
    (c.submit K).data.length = c.dataLen + 4 ∧
    (c.submit K).size = c.dataLen + 4 ∧
    (c.submit K).data[0]? = some 0xA4 ∧
    (c.submit K).data[1]? = some c.dataLen ∧
    (c.submit K).data[2]? = some (c.msgId K) ∧
    (c.submit K).data.getLast? = some (xorAll (c.submit K).data.dropLast) ∧
    (∀ q r, write q (c.submit K).data (c.submit K).size = some r →
      r.1 = c.dataLen + 4 ∧ r.1 ≠ 0) ∧
    (∀ n, 19 ≤ n → ∃ r, write (claimQueue n) (c.submit K).data (c.submit K).size = some r) := by
  obtain ⟨body, hlen, hdata, hsize⟩ := submit_shape K hK c
  have hL : c.dataLen ≤ 13 := by cases c <;> simp [Command.dataLen]
  rw [hdata, hsize]
  refine ⟨by simp [hlen], rfl, by simp [MESG_TX_SYNC], by simp, by simp, ?_, ?_, ?_⟩
  · rw [List.getLast?_append, List.dropLast_concat]
    simp
  · intro q r h
    have := write_returns_size q _ _ (by omega) r h
    omega
  · intro n hn
    exact write_claimQueue n _ _ (by omega) (by omega)

/-- C3 at `RequestMessage(1, 0x52)` with the protocol's constants. -/
theorem encoder_frame_invariant_witness :
    antDefs.WF ∧
    ((Command.requestMessage 1 0x52).submit antDefs).data = [0xA4, 2, 0x4D, 1, 0x52, 0xB8] ∧
    ((Command.requestMessage 1 0x52).submit antDefs).data.getLast? =
      some (xorAll ((Command.requestMessage 1 0x52).submit antDefs).data.dropLast) :=
  ⟨antDefs_wf, by decide,
    (encoder_frame_invariant antDefs antDefs_wf (Command.requestMessage 1 0x52)).2.2.2.2.2.1⟩

/-- C4 (as stated, refuted): the bytes `ResetSystem` submits are not `A4 01 4A 00 EB`. -/
theorem ResetSystem_bytes_counterexample :
    ResetSystem.data ≠ [0xA4, 0x01, 0x4A, 0x00, 0xEB] := by
  decide

/-- C4 (amended): `ResetSystem` submits exactly the 5 bytes `A4 01 4A 00 EF` to the transmit
queue; the checksum `A4 ^ 01 ^ 4A ^ 00` is `EF`. -/
theorem ResetSystem_bytes :
    ResetSystem = ⟨[0xA4, 0x01, 0x4A, 0x00, 0xEF], 5⟩ ∧ xorAll [0xA4, 0x01, 0x4A, 0x00] = 0xEF := by
  decide

/-- C5 (as stated, refuted): on the input stream `A4 01 4A 00 EB` with `tBytes = 5` the
integrity check fails, and `handleMessages` dispatches no message and returns 0. -/
theorem handleMessages_reset_counterexample :
    msgCheckIntegrity (bufferOf [0xA4, 0x01, 0x4A, 0x00, 0xEB]) 5 = false ∧
    handleMessages antDefs (bufferOf [0xA4, 0x01, 0x4A, 0x00, 0xEB]) 5 = some ([], 0) := by
  decide

/-- C5 (amended): decoding the 5-byte input stream `A4 01 4A 00 EF` with `handleMessages`
(`tBytes = 5`) passes the sync and integrity checks and dispatches exactly one message, with
message id `SYSTEM_RESET` (`0x4A`), data length 1 and the single data byte `00`; the call
returns 1. -/
theorem handleMessages_reset (K : AntDefs) (rest : List Nat) :
    msgCheckIntegrity (bufferOf ([0xA4, 0x01, 0x4A, 0x00, 0xEF] ++ rest)) 5 = true ∧
    ∃ d, handleMessages K (bufferOf ([0xA4, 0x01, 0x4A, 0x00, 0xEF] ++ rest)) 5 = some ([d], 1) ∧
      d.msgId = MESG_SYSTEM_RESET_ID ∧ d.msgId = 0x4A ∧ d.dataLength = 1 ∧
      d.data (bufferOf ([0xA4, 0x01, 0x4A, 0x00, 0xEF] ++ rest)) = [0x00] := by
  have h0 : bufferOf ([0xA4, 0x01, 0x4A, 0x00, 0xEF] ++ rest) 0 = MESG_TX_SYNC := rfl
  have h1 : bufferOf ([0xA4, 0x01, 0x4A, 0x00, 0xEF] ++ rest) 1 = 1 := rfl
  have hck : bufferOf ([0xA4, 0x01, 0x4A, 0x00, 0xEF] ++ rest) (1 + 3) =
      xorAll (bytesAt (bufferOf ([0xA4, 0x01, 0x4A, 0x00, 0xEF] ++ rest)) 0 (1 + 3)) := by
    have hbytes : bytesAt (bufferOf ([0xA4, 0x01, 0x4A, 0x00, 0xEF] ++ rest)) 0 (1 + 3) =
        [0xA4, 0x01, 0x4A, 0x00] := rfl
    have h4 : bufferOf ([0xA4, 0x01, 0x4A, 0x00, 0xEF] ++ rest) (1 + 3) = 0xEF := rfl
    rw [hbytes, h4]
    decide
  refine ⟨?_, _, handleMessages_single K _ 1 (by omega) h0 h1 hck, rfl, rfl, rfl, rfl⟩
  rw [msgCheckIntegrity_eq _ 5 (by rw [h1]) (by rw [h1]; decide), h1, decide_eq_true_eq]
  exact hck.symm

/-- C6 (as stated, refuted): the nine bytes `A4 01 4A 00 EF` `A4 00 4A EE` are the
concatenation of two valid frames, the second with no data byte; `handleMessages` with
`tBytes = 9` dispatches one message only and returns 0. -/
theorem handleMessages_frames_counterexample :
    segmentsBytes [⟨[], ⟨0x4A, [0x00]⟩⟩, ⟨[], ⟨0x4A, []⟩⟩] =
      [0xA4, 0x01, 0x4A, 0x00, 0xEF, 0xA4, 0x00, 0x4A, 0xEE] ∧
    handleMessages antDefs (bufferOf [0xA4, 0x01, 0x4A, 0x00, 0xEF, 0xA4, 0x00, 0x4A, 0xEE]) 9 =
      some ([⟨0x00, 0x4A, 3, 1⟩], 0) := by
  decide

/-- C6 (amended): for every buffer that is the concatenation of `k` valid frames with at
least one data byte each, every frame optionally preceded by a run of bytes that contains no
`0xA4`, `handleMessages` called with `tBytes` equal to the total byte count dispatches
exactly `k` messages, in buffer order, the i-th carrying the id, the data bytes and the
length of the i-th frame, and returns 1. -/
theorem handleMessages_frames (K : AntDefs) (segs : List Segment) (rest : List Nat)
    (hjunk : ∀ s ∈ segs, MESG_TX_SYNC ∉ s.junk)
    (hdata : ∀ s ∈ segs, 1 ≤ s.frame.data.length) :
    ∃ ds, handleMessages K (bufferOf (segmentsBytes segs ++ rest))
        ((segmentsBytes segs).length : Int) = some (ds, 1) ∧
      ds.length = segs.length ∧
      ds.map (fun d => (d.msgId, d.dataLength, d.data (bufferOf (segmentsBytes segs ++ rest)))) =
        segs.map (fun s => (s.frame.msgId, s.frame.data.length, s.frame.data)) := by
  obtain ⟨ds, hds, hmap⟩ := handleMessagesLoop_segments K segs [] rest
    (segmentsBytes segs).length hjunk hdata (le_refl _)
  refine ⟨ds, ?_, ?_, hmap⟩
  · simpa [handleMessages] using hds
  · have := congrArg List.length hmap
    simpa using this

/-- C6, the amended statement at two reset frames, the second after the bytes `00 FF`. -/
theorem handleMessages_frames_witness :
    ∃ ds, handleMessages antDefs
        (bufferOf (segmentsBytes [⟨[], ⟨0x4A, [0x00]⟩⟩, ⟨[0x00, 0xFF], ⟨0x4A, [0x00]⟩⟩] ++ []))
        ((segmentsBytes [⟨[], ⟨0x4A, [0x00]⟩⟩, ⟨[0x00, 0xFF], ⟨0x4A, [0x00]⟩⟩]).length : Int) =
          some (ds, 1) ∧
      ds.length = [(⟨[], ⟨0x4A, [0x00]⟩⟩ : Segment), ⟨[0x00, 0xFF], ⟨0x4A, [0x00]⟩⟩].length ∧
      ds.map (fun d => (d.msgId, d.dataLength, d.data (bufferOf
          (segmentsBytes [⟨[], ⟨0x4A, [0x00]⟩⟩, ⟨[0x00, 0xFF], ⟨0x4A, [0x00]⟩⟩] ++ [])))) =
        [(⟨[], ⟨0x4A, [0x00]⟩⟩ : Segment), ⟨[0x00, 0xFF], ⟨0x4A, [0x00]⟩⟩].map
          (fun s => (s.frame.msgId, s.frame.data.length, s.frame.data)) :=
  handleMessages_frames antDefs [⟨[], ⟨0x4A, [0x00]⟩⟩, ⟨[0x00, 0xFF], ⟨0x4A, [0x00]⟩⟩] []
    (by decide) (by decide)

/-- C7 (the code at the failing input): the five received bytes `A4 02 4D 00 51` are a
truncated frame (it needs `2 + 4 = 6` bytes). With `tBytes = 5`, `handleMessages` dispatches
a message for it when the stale byte stored at index 5 is `BA`, and none when that byte is
`00`: the result depends on a byte at an index `>= tBytes`. -/
theorem handleMessages_truncated_frame :
    handleMessages antDefs (bufferOf [0xA4, 0x02, 0x4D, 0x00, 0x51, 0xBA]) 5 =
      some ([⟨0x00, 0x4D, 3, 2⟩], 1) ∧
    handleMessages antDefs (bufferOf [0xA4, 0x02, 0x4D, 0x00, 0x51, 0x00]) 5 = some ([], 0) ∧
    (∀ i, i < 5 → bufferOf [0xA4, 0x02, 0x4D, 0x00, 0x51, 0xBA] i =
      bufferOf [0xA4, 0x02, 0x4D, 0x00, 0x51, 0x00] i) := by
  refine ⟨by decide, by decide, ?_⟩
  intro i hi
  interval_cases i <;> rfl

/-- The run of the eight bring-up acknowledgements for a channel `c < PROFILE_TOTAL` from
the state `begin` leaves, as the calls of the command encoders with the fields of the table
entry `c`. -/
theorem bringup_run (K : AntDefs) (F : FloatOps) (hK : K.WF) (s0 : State)
    (hs0 : s0.dcfg.length = K.PROFILE_TOTAL) (key c : Nat) (hc : c < K.PROFILE_TOTAL)
    (ms : List Message)
    (hms : List.Forall₂ (fun m id => m.isResponse K c id) ms (bringUpAcks K)) :
    ∃ cfg s1, (begin K s0 key).dcfg[c]? = some cfg ∧ cfg.channel = c ∧
      cfg.transType = K.ANT_TRANSMISSION_SLAVE ∧
      cfg.channelType = K.ANT_CHANNEL_TYPE_SLAVE ∧ cfg.networkNumber = 0 ∧
      cfg.deviceNumber = 0 ∧ cfg.searchTimeout = 255 ∧ cfg.searchWaveform = 0x53 ∧
      run K F (begin K s0 key) ms =
        ([Out.write (AssignChannel K c cfg.channelType cfg.networkNumber),
          Out.write (SetChannelPeriod K c cfg.channelPeriod),
          Out.write (SetChannelSearchTimeout K c cfg.searchTimeout),
          Out.write (SetChannelRFFreq K c cfg.RFFreq),
          Out.write (SetSearchWaveform K c cfg.searchWaveform),
          Out.write (SetChannelId K c cfg.deviceNumber cfg.deviceType cfg.transType),
          Out.write (OpenChannel K c),
          Out.write (RequestMessage K c K.MESG_CHANNEL_STATUS_ID),
          Out.write (RequestMessage K c K.MESG_CAPABILITIES_ID),
          Out.write (RequestMessage K c K.MESG_VERSION_ID)], some s1) := by
  obtain ⟨cfg, hcfg, hch, -, htt, hct, hnn, hdn, hst, hsw⟩ := begin_dcfg K hK s0 key c hs0 hc
  simp only [bringUpAcks, List.forall₂_cons_right_iff, List.forall₂_nil_right_iff] at hms
  obtain ⟨m1, _, h1, ⟨m2, _, h2, ⟨m3, _, h3, ⟨m4, _, h4, ⟨m5, _, h5, ⟨m6, _, h6,
    ⟨m7, _, h7, ⟨m8, _, h8, rfl, rfl⟩, rfl⟩, rfl⟩, rfl⟩, rfl⟩, rfl⟩, rfl⟩, rfl⟩ := hms
  have hlen : c < (begin K s0 key).dcfg.length := by rw [begin_length]; omega
  have hms : cfg.transType ≠ K.ANT_TRANSMISSION_MASTER := by
    rw [htt]; exact hK.slave_ne_master
  refine ⟨cfg, ⟨(begin K s0 key).key, (begin K s0 key).dcfg.set c
    { cfg with flags := { cfg.flags with keyAccepted := 1 } }, (begin K s0 key).payload⟩,
    hcfg, hch, htt, hct, hnn, hdn, hst, hsw, ?_⟩
  rw [run_cons_some K F _ _ m1 _ _ (by
    rw [message_event_ack K hK F _ m1 c _ h1,
      message_response_MESG_NETWORK_KEY_ID K hK F _ c _ cfg hcfg])]
  rw [run_cons_some K F _ _ m2 _ _ (by
    rw [message_event_ack K hK F _ m2 c _ h2,
      message_response_MESG_ASSIGN_CHANNEL_ID K hK F _ c _ _ (set_dcfg_lookup _ c _ hlen)])]
  rw [run_cons_some K F _ _ m3 _ _ (by
    rw [message_event_ack K hK F _ m3 c _ h3,
      message_response_MESG_CHANNEL_MESG_PERIOD_ID K hK F _ c _ _ (set_dcfg_lookup _ c _ hlen)])]
  rw [run_cons_some K F _ _ m4 _ _ (by
    rw [message_event_ack K hK F _ m4 c _ h4,
      message_response_MESG_CHANNEL_SEARCH_TIMEOUT_ID K hK F _ c _ _ (set_dcfg_lookup _ c _ hlen)])]
  rw [run_cons_some K F _ _ m5 _ _ (by
    rw [message_event_ack K hK F _ m5 c _ h5,
      message_response_MESG_CHANNEL_RADIO_FREQ_ID K hK F _ c _ _ (set_dcfg_lookup _ c _ hlen)])]
  rw [run_cons_some K F _ _ m6 _ _ (by
    rw [message_event_ack K hK F _ m6 c _ h6,
      message_response_MESG_SEARCH_WAVEFORM_ID K hK F _ c _ _ (set_dcfg_lookup _ c _ hlen)])]
  rw [run_cons_some K F _ _ m7 _ _ (by
    rw [message_event_ack K hK F _ m7 c _ h7,
      message_response_MESG_CHANNEL_ID_ID K hK F _ c _ _ (set_dcfg_lookup _ c _ hlen)])]
  rw [run_cons_some K F _ _ m8 _ _ (by
    rw [message_event_ack K hK F _ m8 c _ h8,
      message_response_MESG_OPEN_CHANNEL_ID K hK F _ c _ _ (set_dcfg_lookup _ c _ hlen)])]
  simp only [run, if_neg hms, hch, List.cons_append, List.nil_append, List.append_nil]

/-- C9: for every channel of the table and every sequence of channel-status messages for
it, a status-change notification (`ANTP_MSG_CHANNELSTATUS`) is emitted for a message if and
only if its masked status differs from the status recorded in `channelStatusOld` (which
`begin` sets to `0xFF`, no masked status); its value is
`(status & 0x0F) | ((channel & 0x0F) << 4)`; after every message
`channelStatusOld == channelStatus`, so the second of two consecutive messages with the same
status emits nothing: the two emit exactly one notification when the status is a change (as
it always is when nothing is recorded), and none otherwise. -/
theorem channel_status_dedup (K : AntDefs) (F : FloatOps) (hK : K.WF) (s : State) (c : Nat)
    (cfg : TDCONFIG) (hcfg : s.dcfg[c]? = some cfg) (ms : List Message)
    (hms : ∀ m ∈ ms, m.isChannelStatus K c) :
    (∃ s1 cfg1, run K F s ms =
        (statusNotifications K cfg.channel cfg.flags.channelStatusOld
          (ms.map (Message.status K)), some s1) ∧
      s1.dcfg[c]? = some cfg1 ∧
      (ms ≠ [] → cfg1.flags.channelStatusOld = cfg1.flags.channelStatus)) ∧
    (∀ m : Message, m.isChannelStatus K c →
      ∃ s1 cfg1, message_event K F s m.channel m.msgId m.payload =
          some (s1, if m.status K ≠ cfg.flags.channelStatusOld then
            [Out.sendMessage K.ANTP_MSG_CHANNELSTATUS
              ((m.status K &&& 0x0F) ||| ((cfg.channel &&& 0x0F) <<< 4))] else []) ∧
        s1.dcfg[c]? = some cfg1 ∧ cfg1.flags.channelStatusOld = m.status K ∧
        cfg1.flags.channelStatus = m.status K) ∧
    (∀ m1 m2 : Message, m1.isChannelStatus K c → m2.isChannelStatus K c →
      m1.status K = m2.status K →
      (run K F s [m1, m2]).1 =
          (if m1.status K ≠ cfg.flags.channelStatusOld then
            [statusNotification K cfg.channel (m1.status K)] else []) ∧
        (cfg.flags.channelStatusOld = 0xFF →
          (run K F s [m1, m2]).1 = [statusNotification K cfg.channel (m1.status K)])) ∧
    (∀ (s0 : State) (key : Nat), s0.dcfg.length = K.PROFILE_TOTAL → c < K.PROFILE_TOTAL →
      ∃ cfg0, (begin K s0 key).dcfg[c]? = some cfg0 ∧ cfg0.flags.channelStatusOld = 0xFF ∧
        cfg0.channel = c) := by
  have hlen : c < s.dcfg.length := (List.getElem?_eq_some.mp hcfg).1
  refine ⟨?_, ?_, ?_, ?_⟩
  · obtain ⟨s1, cfg1, h1, h2, -, h4⟩ := run_status K hK F c ms s cfg hcfg hms
    exact ⟨s1, cfg1, h1, h2, fun h => (h4 h).1⟩
  · intro m hm
    obtain ⟨ho, hs1, hs2, -⟩ := sendMessageChannelStatus_spec K cfg (m.status K)
    refine ⟨_, _, ?_, set_dcfg_lookup s c _ hlen, hs2, hs1⟩
    rw [message_event_status K hK F s m c cfg hm hcfg, ho]
    rfl
  · intro m1 m2 h1 h2 h12
    obtain ⟨s1, cfg1, hrun, -⟩ := run_status K hK F c [m1, m2] s cfg hcfg (by
      intro m hm
      simp only [List.mem_cons, List.mem_singleton, List.mem_nil_iff, or_false] at hm
      rcases hm with rfl | rfl
      · exact h1
      · exact h2)
    have hout : (run K F s [m1, m2]).1 =
        (if m1.status K ≠ cfg.flags.channelStatusOld then
          [statusNotification K cfg.channel (m1.status K)] else []) := by
      rw [hrun]
      simp [statusNotifications, h12]
    refine ⟨hout, fun hold => ?_⟩
    have hmask : m1.status K ≤ K.ANT_CHANNEL_STATUS_MASK := Nat.and_le_right
    have hne : m1.status K ≠ cfg.flags.channelStatusOld := by
      have := hK.status_mask
      omega
    rw [hout, if_pos hne]
  · intro s0 key h0 hc
    obtain ⟨cfg0, h1, h2, h3, -⟩ := begin_dcfg K hK s0 key c h0 hc
    exact ⟨cfg0, h1, by rw [h3]; rfl, h2⟩

/-- C9 on the speed and cadence channel after `begin`: of three status messages with the
masked statuses 2, 2 and 3, the first and the third emit a notification. -/
theorem channel_status_dedup_witness :
    ∃ s1 cfg1, run antDefs noFloatOps (begin antDefs (zeroState 6) 0)
        [⟨0, 0x52, bufferOf [1, 2]⟩, ⟨0, 0x52, bufferOf [1, 0xF2]⟩, ⟨0, 0x52, bufferOf [1, 3]⟩] =
        ([Out.sendMessage antDefs.ANTP_MSG_CHANNELSTATUS 0x12,
          Out.sendMessage antDefs.ANTP_MSG_CHANNELSTATUS 0x13], some s1) ∧
      s1.dcfg[1]? = some cfg1 ∧ cfg1.flags.channelStatusOld = cfg1.flags.channelStatus :=
  have h := (channel_status_dedup antDefs noFloatOps antDefs_wf (begin antDefs (zeroState 6) 0) 1
    (profileSetup_SPDCAD antDefs zeroConfig 0) (by decide)
    [⟨0, 0x52, bufferOf [1, 2]⟩, ⟨0, 0x52, bufferOf [1, 0xF2]⟩, ⟨0, 0x52, bufferOf [1, 3]⟩]
    (by
      intro m hm
      simp only [List.mem_cons, List.mem_singleton, List.mem_nil_iff, or_false] at hm
      rcases hm with rfl | rfl | rfl <;> exact ⟨rfl, rfl⟩)).1
  let ⟨s1, cfg1, h1, h2, h3⟩ := h
  ⟨s1, cfg1, h1, h2, h3 (by simp)⟩

/-- C10 (as stated, refuted): after `begin`, the channel-event response `40: 00 01 9A`
(channel 0, `MESG_EVENT_ID`, `EVENT_RX_BROADCAST`) is no broadcast-data message, yet it emits
the channel-ID request for channel 0, and the first broadcast-data message of channel 0 that
follows emits none; and the first broadcast-data message with channel byte 9, which is no
channel, emits the channel-ID request for channel 0. -/
theorem channel_id_request_counterexample :
    (⟨0, 0x40, bufferOf [0, 0x01, 0x9A]⟩ : Message).msgId ≠ antDefs.MESG_BROADCAST_DATA_ID ∧
    (run antDefs noFloatOps (begin antDefs (zeroState 6) 0)
      [⟨0, 0x40, bufferOf [0, 0x01, 0x9A]⟩]).1 = [channelIdRequest antDefs 0] ∧
    (⟨0, 0x4E, bufferOf [0, 0, 0, 0, 0, 0, 0, 1, 60]⟩ : Message).isBroadcastData antDefs 0 ∧
    (run antDefs noFloatOps (begin antDefs (zeroState 6) 0)
      [⟨0, 0x40, bufferOf [0, 0x01, 0x9A]⟩, ⟨0, 0x4E, bufferOf [0, 0, 0, 0, 0, 0, 0, 1, 60]⟩]).1 =
      [channelIdRequest antDefs 0, Out.sendMessage antDefs.ANTP_MSG_PROFILE_DATA 0] ∧
    (run antDefs noFloatOps (begin antDefs (zeroState 6) 0)
      [⟨9, 0x4E, bufferOf [0, 0, 0, 0, 0, 0, 0, 1, 60]⟩]).1 =
      [channelIdRequest antDefs 0, Out.sendMessage antDefs.ANTP_MSG_PROFILE_DATA 0] := by
  refine ⟨by decide, by decide, ⟨by decide, by decide⟩, by decide, by decide⟩

/-- C10 (amended): after `begin`, for every channel `c < PROFILE_TOTAL` and every sequence of
decoded messages, at most one channel-ID request `RequestMessage(c, MESG_CHANNEL_ID_ID)` is
emitted. It is emitted on the first broadcast event of the channel, which is a
broadcast-data message attributed to `c` or a channel-event response for `c` with event code
`EVENT_RX_BROADCAST`: no message before it emits the request, the request is the first
output of that message, followed only by the notifications of the profile decoder, and
afterwards `chanIdOnce` stays set and no later message emits the request. -/
theorem channel_id_request_once (K : AntDefs) (F : FloatOps) (hK : K.WF) (s0 : State)
    (key c : Nat) (hlen : s0.dcfg.length = K.PROFILE_TOTAL) (hc : c < K.PROFILE_TOTAL) :
    (∀ ms : List Message,
      (run K F (begin K s0 key) ms).1.count (channelIdRequest K c) ≤ 1) ∧
    ∀ (pre post : List Message) (m : Message) (o1 o2 : List Out) (s1 s2 : State),
      (∀ x ∈ pre, ¬ (x.isBroadcastData K c ∨ x.isBroadcastEvent K c)) →
      (m.isBroadcastData K c ∨ m.isBroadcastEvent K c) →
      run K F (begin K s0 key) pre = (o1, some s1) →
      message_event K F s1 m.channel m.msgId m.payload = some (s2, o2) →
      channelIdRequest K c ∉ o1 ∧
      (∃ tail, o2 = channelIdRequest K c :: tail ∧
        ∀ o ∈ tail, ∃ msg v, o = Out.sendMessage msg v) ∧
      (∃ cfg2, s2.dcfg[c]? = some cfg2 ∧ cfg2.flags.chanIdOnce ≠ 0) ∧
      channelIdRequest K c ∉ (run K F s2 post).1 ∧
      ∀ s3, (run K F s2 post).2 = some s3 →
        ∃ cfg3, s3.dcfg[c]? = some cfg3 ∧ cfg3.flags.chanIdOnce ≠ 0 := by
  have hwf : ∀ (i : Nat) (cfg : TDCONFIG),
      (begin K s0 key).dcfg[i]? = some cfg → cfg.channel = i := by
    intro i cfg hi
    have hlt : i < K.PROFILE_TOTAL := by
      have := (List.getElem?_eq_some.mp hi).1
      rw [begin_length, hlen] at this
      exact this
    obtain ⟨cfg', e1, e2, -⟩ := begin_dcfg K hK s0 key i hlen hlt
    rw [hi] at e1
    cases e1
    exact e2
  have hl : (begin K s0 key).dcfg.length ≤ 256 := by
    rw [begin_length, hlen]
    exact hK.profile_total_byte
  obtain ⟨cfg, hcfg, -, hflags, -⟩ := begin_dcfg K hK s0 key c hlen hc
  have h0 : cfg.flags.chanIdOnce = 0 := by rw [hflags]; rfl
  refine ⟨fun ms => run_count_request K hK F c ms _ cfg hwf hl hcfg, ?_⟩
  intro pre post m o1 o2 s1 s2 hpre hm hrun hstep
  obtain ⟨g1, g2, g3, cfg1, g4, g5⟩ :=
    run_no_broadcast K hK F c pre _ s1 cfg o1 hwf hl hcfg hpre hrun
  obtain ⟨w1, w2, cfg2, e1, -, -, e4⟩ := step_summary K hK F s1 s2 m o2 hstep g2 g3 c cfg1 g4
  obtain ⟨f1, f2⟩ := e4 hm
  obtain ⟨r1, r2⟩ := run_once_set K hK F c post s2 cfg2 w1 w2 e1 f1
  exact ⟨g1, f2 (by rw [g5, h0]), ⟨cfg2, e1, f1⟩, r1, r2⟩

/-- C10 (amended), at a concrete run of the HRM channel: a channel-status message, then the
first broadcast-data message, which emits the request, then a second one, which does not. -/
theorem channel_id_request_once_witness :
    ∃ (o1 o2 : List Out) (s1 s2 : State),
      run antDefs noFloatOps (begin antDefs (zeroState 6) 0) [⟨0, 0x52, bufferOf [0, 2]⟩] =
        (o1, some s1) ∧
      message_event antDefs noFloatOps s1 0 0x4E (bufferOf [0, 0, 0, 0, 0, 0, 0, 1, 60]) =
        some (s2, o2) ∧
      channelIdRequest antDefs 0 ∉ o1 ∧
      (∃ tail, o2 = channelIdRequest antDefs 0 :: tail ∧
        ∀ o ∈ tail, ∃ msg v, o = Out.sendMessage msg v) ∧
      channelIdRequest antDefs 0 ∉
        (run antDefs noFloatOps s2 [⟨0, 0x4E, bufferOf [0, 0, 0, 0, 0, 0, 4, 2, 61]⟩]).1 := by
  have h1 : run antDefs noFloatOps (begin antDefs (zeroState 6) 0) [⟨0, 0x52, bufferOf [0, 2]⟩] =
      ((run antDefs noFloatOps (begin antDefs (zeroState 6) 0) [⟨0, 0x52, bufferOf [0, 2]⟩]).1,
       some ((run antDefs noFloatOps (begin antDefs (zeroState 6) 0)
        [⟨0, 0x52, bufferOf [0, 2]⟩]).2.getD (zeroState 6))) :=
    Prod.ext rfl (eq_some_getD _ _ (by decide))
  have h2 := eq_some_getD (message_event antDefs noFloatOps
    ((run antDefs noFloatOps (begin antDefs (zeroState 6) 0)
      [⟨0, 0x52, bufferOf [0, 2]⟩]).2.getD (zeroState 6)) 0 0x4E
    (bufferOf [0, 0, 0, 0, 0, 0, 0, 1, 60])) (zeroState 6, []) (by decide)
  have h := (channel_id_request_once antDefs noFloatOps antDefs_wf (zeroState 6) 0 0 rfl
    (by decide)).2 [⟨0, 0x52, bufferOf [0, 2]⟩]
    [⟨0, 0x4E, bufferOf [0, 0, 0, 0, 0, 0, 4, 2, 61]⟩]
    ⟨0, 0x4E, bufferOf [0, 0, 0, 0, 0, 0, 0, 1, 60]⟩ _ _ _ _
    (by
      intro x hx
      simp only [List.mem_singleton] at hx
      subst hx
      rintro (⟨h, -⟩ | ⟨⟨h, -⟩, -⟩) <;> exact absurd h (by decide))
    (Or.inl ⟨rfl, rfl⟩) h1 h2
  exact ⟨_, _, _, _, h1, h2, h.1, h.2.1, h.2.2.2.1⟩

/-- C11: idempotence under no-change input. For the heart-rate, speed+cadence, standalone
speed and standalone cadence decoders: when decoding a payload completes, decoding the same
payload again completes too, emits nothing, and leaves the previous sample and the current
sample with its derived fields (interval, cadence, speed, distance) and the wheel
circumference as they are; only the change flags are cleared. -/
theorem decoders_idempotent (K : AntDefs) (F : FloatOps) (data : Buffer) :
    (∀ (hrm h1 : payload_HRM_t) (o1 : List Out), payload_HRM K hrm data = some (h1, o1) →
      payload_HRM K h1 data = some (h1, [])) ∧
    (∀ (st s1 : payload_SPDCAD_t) (o1 : List Out),
      payload_SPDCAD K F st data = some (s1, o1) →
      ∃ s2, payload_SPDCAD K F s1 data = some (s2, []) ∧ s2.previous = s1.previous ∧
        s2.current = s1.current ∧ s2.wheelCircumference = s1.wheelCircumference) ∧
    (∀ (st s1 : payload_SPEED_t) (o1 : List Out), payload_SPEED K F st data = (s1, o1) →
      ∃ s2, payload_SPEED K F s1 data = (s2, []) ∧ s2.previous = s1.previous ∧
        s2.current = s1.current ∧ s2.wheelCircumference = s1.wheelCircumference) ∧
    (∀ (cad c1 : payload_CADENCE_t) (o1 : List Out),
      payload_CADENCE K cad data = some (c1, o1) →
      ∃ c2, payload_CADENCE K c1 data = some (c2, []) ∧ c2.previous = c1.previous ∧
        c2.current = c1.current) := by
  refine ⟨fun hrm h1 o1 h => payload_HRM_again K hrm h1 data o1 h, ?_, ?_, ?_⟩
  · intro st s1 o1 h
    exact ⟨_, payload_SPDCAD_again K F st s1 data o1 h, rfl, rfl, rfl⟩
  · intro st s1 o1 h
    have e : s1 = (payload_SPEED K F st data).1 := by rw [h]
    subst e
    exact ⟨_, payload_SPEED_again K F st data, rfl, rfl, rfl⟩
  · intro cad c1 o1 h
    exact ⟨_, payload_CADENCE_again K cad c1 data o1 h, rfl, rfl⟩

/-- C11 at a concrete payload of the speed+cadence decoder: the first decoding emits a
reading, the second none. -/
theorem decoders_idempotent_witness :
    payload_SPDCAD antDefs noFloatOps ⟨⟨0, 0, 0, 0, 0, 0, 0⟩, ⟨0, 0, 0, 0, 0, 0, 0⟩, 0, 0, 0⟩
        (bufferOf [0, 0, 4, 1, 0, 0, 4, 1, 0]) =
      some (⟨⟨1024, 60, 1, 1024, 0, 1, 0⟩, ⟨1024, 60, 1, 1024, 0, 1, 0⟩, 2122, 1, 1⟩,
        [Out.sendMessage 3 1]) ∧
    ∃ s2, payload_SPDCAD antDefs noFloatOps
        ⟨⟨1024, 60, 1, 1024, 0, 1, 0⟩, ⟨1024, 60, 1, 1024, 0, 1, 0⟩, 2122, 1, 1⟩
        (bufferOf [0, 0, 4, 1, 0, 0, 4, 1, 0]) = some (s2, []) ∧
      s2.previous = ⟨1024, 60, 1, 1024, 0, 1, 0⟩ ∧ s2.current = ⟨1024, 60, 1, 1024, 0, 1, 0⟩ ∧
      s2.wheelCircumference = 2122 :=
  have h1 : payload_SPDCAD antDefs noFloatOps
      ⟨⟨0, 0, 0, 0, 0, 0, 0⟩, ⟨0, 0, 0, 0, 0, 0, 0⟩, 0, 0, 0⟩
        (bufferOf [0, 0, 4, 1, 0, 0, 4, 1, 0]) =
      some (⟨⟨1024, 60, 1, 1024, 0, 1, 0⟩, ⟨1024, 60, 1, 1024, 0, 1, 0⟩, 2122, 1, 1⟩,
        [Out.sendMessage 3 1]) := by decide
  ⟨h1, (decoders_idempotent antDefs noFloatOps (bufferOf [0, 0, 4, 1, 0, 0, 4, 1, 0])).2.1
    _ _ _ h1⟩

/-- C12 (as stated, refuted): from zeroed storage the cadence decoder, fed the revolution
count 2 at event time 1 (`N = 2`, `T = 1`), stores the cadence 57344, not
`60 * 2 * 1024 / 1 = 122880`. -/
theorem cadence_formula_counterexample :
    (payload_CADENCE antDefs ⟨⟨0, 0, 0⟩, ⟨0, 0, 0⟩, 0⟩
      (bufferOf [0, 0, 0, 0, 0, 1, 0, 2, 0])).map (fun r => r.1.current.cadence) = some 57344 ∧
    60 * 2 * 1024 / 1 = 122880 := by
  decide

/-- C12 (amended): in the combined speed+cadence decoder and in the standalone cadence
decoder, for every previous sample and every payload whose cadence revolution count is
advanced by `N ≤ 34952` (so that `60 * N * 1024` fits an `int`) and whose cadence event time
is advanced by `T > 0` ticks over the previous sample, the decoder completes, emits a
reading, and the stored current cadence is `60 * N * 1024 / T` reduced modulo `2^16`, the
width of the cadence field; it is `60 * N * 1024 / T` exactly when that quotient is below
`65536`. -/
theorem cadence_formula (K : AntDefs) (F : FloatOps) (N T : Nat) (hT : 0 < T)
    (hN : N ≤ 34952) (data : Buffer) :
    (∀ st : payload_SPDCAD_t, le16 data 3 = st.previous.cadenceCt + N →
      le16 data 1 = st.previous.cadenceTime + T →
      ∃ s1, payload_SPDCAD K F st data =
          some (s1, [Out.sendMessage K.ANTP_MSG_PROFILE_DATA K.PROFILE_SPDCAD]) ∧
        s1.current.cadence = (60 * N * 1024 / T) % 65536 ∧
        (60 * N * 1024 / T < 65536 → s1.current.cadence = 60 * N * 1024 / T)) ∧
    (∀ cad : payload_CADENCE_t, le16 data 7 = cad.previous.cadenceCt + N →
      le16 data 5 = cad.previous.cadenceTime + T →
      ∃ c1, payload_CADENCE K cad data =
          some (c1, [Out.sendMessage K.ANTP_MSG_PROFILE_DATA K.PROFILE_CADENCE]) ∧
        c1.current.cadence = (60 * N * 1024 / T) % 65536 ∧
        (60 * N * 1024 / T < 65536 → c1.current.cadence = 60 * N * 1024 / T)) := by
  constructor
  · intro st h1 h2
    have hne : le16 data 1 ≠ st.previous.cadenceTime := by omega
    unfold payload_SPDCAD
    simp only [hne, ne_eq, not_false_eq_true, true_or, decide_True, Bool.true_or, if_true]
    rw [h1, h2, cadenceCalc_advance _ _ N T hT hN]
    exact ⟨_, rfl, rfl, fun h => Nat.mod_eq_of_lt h⟩
  · intro cad h1 h2
    have hne : le16 data 5 ≠ cad.previous.cadenceTime := by omega
    unfold payload_CADENCE
    simp only [hne, ne_eq, not_false_eq_true, true_or, decide_True, if_true]
    rw [h1, h2, cadenceCalc_advance _ _ N T hT hN]
    exact ⟨_, rfl, rfl, fun h => Nat.mod_eq_of_lt h⟩

/-- C12 (amended) at one revolution in 1024 ticks, one second: the cadence is 60. -/
theorem cadence_formula_witness :
    ∃ c1, payload_CADENCE antDefs ⟨⟨0, 0, 0⟩, ⟨0, 0, 0⟩, 0⟩ (bufferOf [0, 0, 0, 0, 0, 0, 4, 1, 0]) =
        some (c1, [Out.sendMessage 3 5]) ∧ c1.current.cadence = 60 :=
  let ⟨c1, h1, _, h3⟩ := (cadence_formula antDefs noFloatOps 1 1024 (by decide) (by decide)
    (bufferOf [0, 0, 0, 0, 0, 0, 4, 1, 0])).2 ⟨⟨0, 0, 0⟩, ⟨0, 0, 0⟩, 0⟩ (by decide) (by decide)
  ⟨c1, h1, h3 (by decide)⟩

/-- C13 (code evaluated at a wrapped timestamp): the previous cadence sample has event time
65535 and count 0, the payload event time 1023 and count 1, so the count advanced by
`N = 1` and the time by `T = 1024` ticks modulo `2^16`. The decoder divides `60 * 1 * 1024`
by the negative difference `1023 - 65535` and stores the cadence 0, not `60`. The speed
decoder, with previous wheel count and time 65535 and payload count 0 and time 1023, passes
on the revolution delta `2^32 - 65535` and the time difference `-64512`, not 1 and 1024. -/
theorem rollover_deltas_not_modular :
    (payload_CADENCE antDefs ⟨⟨0, 0, 0⟩, ⟨65535, 0, 0⟩, 0⟩
      (bufferOf [0, 0, 0, 0, 0, 0xFF, 0x03, 1, 0])).map (fun r => r.1.current.cadence) =
        some 0 ∧
    (payload_SPDCAD antDefs noFloatOps ⟨⟨0, 0, 0, 0, 0, 0, 0⟩, ⟨65535, 0, 0, 0, 0, 0, 0⟩, 0, 0, 0⟩
      (bufferOf [0, 0xFF, 0x03, 1, 0, 0, 0, 0, 0])).map (fun r => r.1.current.cadence) =
        some 0 ∧
    60 * ((1 + 65536 - 0) % 65536) * 1024 / ((1023 + 65536 - 65535) % 65536) = 60 ∧
    ∀ F : FloatOps,
      (payload_SPEED antDefs F ⟨⟨0, 0, 0, 0⟩, ⟨65535, 0, 65535, 0⟩, 0, 0⟩
        (bufferOf [0, 0, 0, 0, 0, 0xFF, 0x03, 0, 0])).1.current.speed =
          F.speed100 4294901761 (-64512) 2122 := by
  refine ⟨by decide, by decide, by decide, fun F => ?_⟩
  rfl

/-- C14 (code evaluated where a time delta is zero): the cadence expression has no value
exactly when the cadence event time equals the previous one; the standalone cadence decoder
reaches it in that state whenever the revolution count changed, the combined decoder
whenever the revolution count or a speed field changed. From zeroed storage, a combined
payload in which only the speed fields changed, and a cadence payload in which only the
revolution count changed, both divide by zero. -/
theorem decoders_divide_by_zero (K : AntDefs) (F : FloatOps) :
    (∀ (cad : payload_CADENCE_t) (data : Buffer), payload_CADENCE K cad data = none ↔
      (le16 data 5 = cad.previous.cadenceTime ∧ le16 data 7 ≠ cad.previous.cadenceCt)) ∧
    (∀ (st : payload_SPDCAD_t) (data : Buffer), payload_SPDCAD K F st data = none ↔
      (le16 data 1 = st.previous.cadenceTime ∧
        (le16 data 3 ≠ st.previous.cadenceCt ∨ le16 data 5 ≠ st.previous.speedTime ∨
          le16 data 7 ≠ st.previous.speedCt))) ∧
    payload_SPDCAD K F ⟨⟨0, 0, 0, 0, 0, 0, 0⟩, ⟨0, 0, 0, 0, 0, 0, 0⟩, 0, 0, 0⟩
      (bufferOf [0, 0, 0, 0, 0, 0, 4, 1, 0]) = none ∧
    payload_CADENCE K ⟨⟨0, 0, 0⟩, ⟨0, 0, 0⟩, 0⟩ (bufferOf [0, 0, 0, 0, 0, 0, 0, 1, 0]) = none := by
  have hc : ∀ (cad : payload_CADENCE_t) (data : Buffer), payload_CADENCE K cad data = none ↔
      (le16 data 5 = cad.previous.cadenceTime ∧ le16 data 7 ≠ cad.previous.cadenceCt) := by
    intro cad data
    unfold payload_CADENCE
    simp only
    split
    · rename_i c
      simp only [decide_eq_true_eq] at c
      split
      · rename_i hnone
        rw [cadenceCalc_eq_none] at hnone
        simp only [true_iff]
        exact ⟨hnone, by tauto⟩
      · rename_i cadence hsome
        have hne : ¬ (le16 data 5 = cad.previous.cadenceTime) := by
          intro e
          have := (cadenceCalc_eq_none (le16 data 7) cad.previous.cadenceCt (le16 data 5)
            cad.previous.cadenceTime).mpr e
          rw [hsome] at this
          cases this
        simp [hne]
    · rename_i c
      simp only [decide_eq_true_eq, not_or, ne_eq, Decidable.not_not] at c
      simp [c]
  have hs : ∀ (st : payload_SPDCAD_t) (data : Buffer), payload_SPDCAD K F st data = none ↔
      (le16 data 1 = st.previous.cadenceTime ∧
        (le16 data 3 ≠ st.previous.cadenceCt ∨ le16 data 5 ≠ st.previous.speedTime ∨
          le16 data 7 ≠ st.previous.speedCt)) := by
    intro st data
    unfold payload_SPDCAD
    simp only
    split
    · rename_i c
      simp only [Bool.or_eq_true, decide_eq_true_eq] at c
      split
      · rename_i hnone
        rw [cadenceCalc_eq_none] at hnone
        simp only [true_iff]
        exact ⟨hnone, by tauto⟩
      · rename_i cadence hsome
        have hne : ¬ (le16 data 1 = st.previous.cadenceTime) := by
          intro e
          have := (cadenceCalc_eq_none (le16 data 3) st.previous.cadenceCt (le16 data 1)
            st.previous.cadenceTime).mpr e
          rw [hsome] at this
          cases this
        simp [hne]
    · rename_i c
      simp only [Bool.or_eq_true, decide_eq_true_eq, not_or, ne_eq, Decidable.not_not] at c
      simp [c]
  refine ⟨hc, hs, ?_, ?_⟩
  · rw [hs]
    decide
  · rw [hc]
    decide

/-- C15: burst sequence numbering. For every channel and every packet count `N`,
`SendBurstTransfer` submits exactly `N` burst-data packets, packet `i` being the frame
`A4 09 MESG_BURST_DATA_ID b data[8i] .. data[8i+7] checksum` of 13 bytes, whose channel byte
`b` has `channel & 0x1F` in its low 5 bits and in its top 3 bits `i mod 4` for `i < N - 1`
and `((N - 1) mod 4) | 0x04` for the final packet. -/
theorem burst_sequence (K : AntDefs) (channel : Int) (data : List Nat) (N : Nat) :
    (SendBurstTransfer K channel data N).length = N ∧
    andInt channel 0x1F = channel % 32 ∧
    ∀ i, i < N → ∃ b : Nat,
      (SendBurstTransfer K channel data N)[i]? = some
        ⟨[0xA4, 9, K.MESG_BURST_DATA_ID % 256, b,
          data.getD (8 * i) 0 % 256, data.getD (8 * i + 1) 0 % 256,
          data.getD (8 * i + 2) 0 % 256, data.getD (8 * i + 3) 0 % 256,
          data.getD (8 * i + 4) 0 % 256, data.getD (8 * i + 5) 0 % 256,
          data.getD (8 * i + 6) 0 % 256, data.getD (8 * i + 7) 0 % 256] ++
          [calcMsgChecksum [0xA4, 9, K.MESG_BURST_DATA_ID % 256, b,
            data.getD (8 * i) 0 % 256, data.getD (8 * i + 1) 0 % 256,
            data.getD (8 * i + 2) 0 % 256, data.getD (8 * i + 3) 0 % 256,
            data.getD (8 * i + 4) 0 % 256, data.getD (8 * i + 5) 0 % 256,
            data.getD (8 * i + 6) 0 % 256, data.getD (8 * i + 7) 0 % 256] 12], 13⟩ ∧
      b < 256 ∧ ((b &&& 0x1F : Nat) : Int) = andInt channel 0x1F ∧
      b >>> 5 = (if i = N - 1 then (i % 4) ||| 0x04 else i % 4) ∧
      (i < N - 1 → b >>> 5 = i % 4) ∧ (i = N - 1 → b >>> 5 = ((N - 1) % 4) ||| 0x04) := by
  have hall : SendBurstTransfer K channel data N =
      (List.range N).map (fun k => burstPacket K channel data N k) := by
    unfold SendBurstTransfer
    rw [Int.toNat_ofNat]
    have := SendBurstTransferLoop_eq K channel data N N 0
    simpa using this
  obtain ⟨e, hlt⟩ := andInt_1F channel
  refine ⟨by rw [hall]; simp, ?_, ?_⟩
  · rw [e]
    have : toU32 channel &&& 0x1F = toU32 channel % 32 :=
      Nat.and_pow_two_sub_one_eq_mod _ 5
    rw [this]
    unfold toU32
    omega
  · intro i hi
    have hs := burstSeq_lt N i
    have hv := shift_or_small _ hs _ hlt
    have hb : (burstSeq N i <<< 5) ||| (andInt channel 0x1F).toNat =
        burstSeq N i * 32 + (toU32 channel &&& 0x1F) := by
      rw [e, Int.toNat_ofNat]
      exact hv
    have hshift : ((burstSeq N i <<< 5) ||| (andInt channel 0x1F).toNat) >>> 5 =
        burstSeq N i := by
      rw [hb, Nat.shiftRight_eq_div_pow]
      omega
    refine ⟨(burstSeq N i <<< 5) ||| (andInt channel 0x1F).toNat, ?_, ?_, ?_, ?_, ?_, ?_⟩
    · rw [hall, List.getElem?_map, List.getElem?_range hi]
      rfl
    · rw [hb]; omega
    · rw [hb, e]
      have : (burstSeq N i * 32 + (toU32 channel &&& 0x1F)) &&& 0x1F =
          (burstSeq N i * 32 + (toU32 channel &&& 0x1F)) % 32 :=
        Nat.and_pow_two_sub_one_eq_mod _ 5
      rw [this]
      congr 1
      omega
    · rw [hshift]; rfl
    · intro h
      rw [hshift, burstSeq, if_neg (by omega)]
    · intro h
      rw [hshift, burstSeq, if_pos h, h]

/-- C15 at three packets on channel 3: the channel bytes are `03`, `23` and `C3`. -/
theorem burst_sequence_witness :
    (SendBurstTransfer antDefs 3 (List.range 24) 3).map (fun w => w.data.getD 3 0) =
      [0x03, 0x23, 0xC3] ∧
    (SendBurstTransfer antDefs 3 (List.range 24) 3).length = 3 :=
  ⟨by decide, (burst_sequence antDefs 3 (List.range 24) 3).1⟩

/-- C16: oversize rejection. For every queue state and every `size > 64`, `write` returns 0,
submits no transfer and leaves the queue (`txbuffer`, `txhead`, `txtail`, `txready`) as it
is; for every `size ≤ 64`, whenever `write` returns, it returns `size`. -/
theorem write_oversize (q : TxQueue) (data : List Nat) (size : Nat) :
    (size > 64 → write q data size = some (0, q, none)) ∧
    (size ≤ 64 → ∀ r, write q data size = some r → r.1 = size) := by
  constructor
  · intro h
    simp [write, h]
  · intro h r hr
    exact write_returns_size q data size h r hr

/-- C16 at a 65-byte and a 5-byte message on the empty queue of a 240-byte buffer. -/
theorem write_oversize_witness :
    write (claimQueue 240) (List.replicate 65 1) 65 = some (0, claimQueue 240, none) ∧
    (write (claimQueue 240) [0xA4, 1, 0x4A, 0, 0xEF] 5).map (fun r => r.1) = some 5 :=
  ⟨(write_oversize (claimQueue 240) (List.replicate 65 1) 65).1 (by decide), by
    obtain ⟨r, hr⟩ := write_claimQueue 240 [0xA4, 1, 0x4A, 0, 0xEF] 5 (by decide) (by decide)
    rw [hr]
    exact congrArg some
      ((write_oversize (claimQueue 240) [0xA4, 1, 0x4A, 0, 0xEF] 5).2 (by decide) r hr)⟩

set_option maxRecDepth 1000000 in
/-- C17 (code evaluated across the physical end of `txbuffer`): from the empty queue of a
240-byte buffer, 18 messages of 13 bytes are written, each completed before the next is
written. After the 17th completion `txhead = txtail = 238` and 17 transfers were submitted.
The 18th message is placed at the start of the buffer behind the `0xFF` marker, with
`txhead = 13`; its completion advances `txtail` from 0 to 14, one past `txhead`, and
`transmit` submits a 19th transfer: the 13 stale bytes of the second message. The same
happens in a 32-byte buffer at the third message. -/
theorem tx_queue_wrap_resubmits :
    ((TxSim.init 240).run ((List.range 17).flatMap
        (fun k => [TxOp.write (List.replicate 13 (k + 1)) 13, TxOp.complete]))).map
      (fun s => (s.q.txhead, s.q.txtail, s.inflight, s.submitted.length)) =
      some (238, 238, none, 17) ∧
    ((TxSim.init 240).run ((List.range 18).flatMap
        (fun k => [TxOp.write (List.replicate 13 (k + 1)) 13, TxOp.complete]))).map
      (fun s => (s.q.txhead, s.q.txtail, s.inflight, s.submitted.drop 17)) =
      some (13, 14, some ⟨16, 13⟩, [List.replicate 13 18, List.replicate 13 2]) ∧
    ((TxSim.init 32).run [TxOp.write (List.replicate 13 1) 13, TxOp.complete,
        TxOp.write (List.replicate 13 2) 13, TxOp.complete,
        TxOp.write (List.replicate 13 3) 13, TxOp.complete]).map
      (fun s => (s.q.txhead, s.q.txtail, s.inflight, s.submitted)) =
      some (13, 14, some ⟨16, 13⟩, [List.replicate 13 1, List.replicate 13 2,
        List.replicate 13 3, List.replicate 13 2]) := by
  refine ⟨by decide, by decide, by decide⟩

/-- C18 (as stated, refuted): the frame `A4 02 00 00 A5 03` passes `msgCheckIntegrity`, and
so does the frame with its length byte replaced by `01`, whose trailing byte is then `A5`;
the bytes `A4 00 A4 00` with length byte 0 pass, and so do they with byte 3 replaced by
`07`. -/
theorem msgCheckIntegrity_mutation_counterexample :
    msgCheckIntegrity (bufferOf [0xA4, 2, 0, 0, 0xA5, 3]) 6 = true ∧
    msgCheckIntegrity (Function.update (bufferOf [0xA4, 2, 0, 0, 0xA5, 3]) 1 1) 6 = true ∧
    msgCheckIntegrity (bufferOf [0xA4, 0, 0xA4, 0, 0]) 5 = true ∧
    msgCheckIntegrity (Function.update (bufferOf [0xA4, 0, 0xA4, 0, 0]) 3 7) 5 = true := by
  decide

/-- C18 (amended): single-byte sensitivity. For every frame with at least one data byte
that passes `msgCheckIntegrity`, every byte position `i` inside the frame other than the
length byte at position 1, and every value different from the original, the frame with byte
`i` replaced by that value fails `msgCheckIntegrity`. -/
theorem msgCheckIntegrity_single_byte (stream : Buffer) (len : Int) (i v : Nat)
    (hL : 1 ≤ stream 1) (hpass : msgCheckIntegrity stream len = true)
    (hi : i < stream 1 + 4) (hi1 : i ≠ 1) (hv : v ≠ stream i) :
    msgCheckIntegrity (Function.update stream i v) len = false := by
  have h5 : 5 ≤ len := by
    by_contra h
    have hlt : len < 5 := by omega
    simp [msgCheckIntegrity, hlt] at hpass
  have h1 : Function.update stream i v 1 = stream 1 := Function.update_noteq (Ne.symm hi1) _ _
  rw [msgCheckIntegrity_five stream len hL h5, decide_eq_true_iff] at hpass
  rw [msgCheckIntegrity_five _ len (by rw [h1]; exact hL) h5, h1, decide_eq_false_iff_not]
  by_cases hlast : i = stream 1 + 3
  · have e : bytesAt (Function.update stream i v) 0 (stream 1 + 3) =
        bytesAt stream 0 (stream 1 + 3) :=
      bytesAt_congr _ _ _ _ (fun k hk => by rw [Function.update_noteq (by omega)])
    rw [e, hpass, ← hlast, Function.update_same]
    exact fun h => hv h.symm
  · rw [Function.update_noteq (Ne.symm hlast), ← hpass]
    exact xorAll_update_ne stream _ i v (by omega) hv

/-- C18 (amended) at the reset frame `A4 01 4A 00 EF` with its message id replaced. -/
theorem msgCheckIntegrity_single_byte_witness :
    msgCheckIntegrity (bufferOf [0xA4, 1, 0x4A, 0, 0xEF]) 5 = true ∧
    msgCheckIntegrity (Function.update (bufferOf [0xA4, 1, 0x4A, 0, 0xEF]) 2 0x4B) 5 = false :=
  ⟨by decide, msgCheckIntegrity_single_byte (bufferOf [0xA4, 1, 0x4A, 0, 0xEF]) 5 2 0x4B
    (by decide) (by decide) (by decide) (by decide) (by decide)⟩

/-- C19: for every buffer and scan length `rlen`, `findStreamSync` returns the position of
the first byte equal to `0xA4` among `stream[0 .. rlen)` and sets `*pos` to that offset, no
earlier byte being `0xA4`; it returns `NULL` if and only if none of the first `rlen` bytes
is `0xA4`, and then `*pos = rlen`; and its result is the same on every buffer with the same
first `rlen` bytes, so that no index `≥ rlen` is read. -/
theorem findStreamSync_first (stream : Buffer) (rlen : Nat) :
    MESG_TX_SYNC = 0xA4 ∧
    (∀ p, (findStreamSync stream rlen).1 = some p →
      p < rlen ∧ stream p = MESG_TX_SYNC ∧ (∀ j, j < p → stream j ≠ MESG_TX_SYNC) ∧
        (findStreamSync stream rlen).2 = p) ∧
    ((findStreamSync stream rlen).1 = none ↔ ∀ j, j < rlen → stream j ≠ MESG_TX_SYNC) ∧
    ((findStreamSync stream rlen).1 = none → (findStreamSync stream rlen).2 = rlen) ∧
    (∀ other : Buffer, (∀ j, j < rlen → other j = stream j) →
      findStreamSync other rlen = findStreamSync stream rlen) := by
  unfold findStreamSync
  refine ⟨rfl, ?_, ?_, ?_, ?_⟩
  · intro p h
    obtain ⟨-, h2, h3, h4, h5⟩ := findStreamSyncLoop_some stream rlen 0 p h
    exact ⟨by omega, h3, fun j hj => h4 j (Nat.zero_le _) hj, h5⟩
  · rw [(findStreamSyncLoop_none stream rlen 0).1]
    constructor
    · intro h j hj
      exact h j (Nat.zero_le _) (by omega)
    · intro h j _ hj
      exact h j (by omega)
  · intro h
    rw [(findStreamSyncLoop_none stream rlen 0).2 h]
    omega
  · intro other h
    exact findStreamSyncLoop_congr stream other rlen 0 (fun j _ hj => h j (by omega))

/-- C19 at a buffer with two sync bytes, scanned over 6 and over 2 bytes. -/
theorem findStreamSync_first_witness :
    findStreamSync (bufferOf [0, 1, 0xA4, 3, 0xA4, 5]) 6 = (some 2, 2) ∧
    findStreamSync (bufferOf [0, 1, 0xA4, 3, 0xA4, 5]) 2 = (none, 2) ∧
    (findStreamSync (bufferOf [0, 1, 0xA4, 3, 0xA4, 5]) 2).2 = 2 :=
  ⟨by decide, by decide,
    (findStreamSync_first (bufferOf [0, 1, 0xA4, 3, 0xA4, 5]) 2).2.2.2.1 (by decide)⟩

/-- C20: for every key selector `k` passed to `begin` and every sequence of handled messages
after it, a startup message (`MESG_STARTUP_MESG_ID`) emits exactly one frame, the
set-network-key frame `A4 09 MESG_NETWORK_KEY_ID n key[0..8) checksum` of 13 bytes, where
`n` is the network number of channel 0 and `key` is entry `k` of the key table when
`k < KEY_TOTAL` and the ANT+ sport key `B9 A5 21 FB BD 72 C3 45` otherwise; `getAntKey`
returns this key, not `NULL`, for the stored selector, and the state is left as it is. -/
theorem startup_network_key (K : AntDefs) (F : FloatOps) (hK : K.WF) (s0 s1 : State)
    (k : Nat) (hlen : s0.dcfg.length = K.PROFILE_TOTAL) (ms : List Message) (o1 : List Out)
    (hrun : run K F (begin K s0 k) ms = (o1, some s1)) (channel : Nat) (payload : Buffer) :
    ∃ (cfg0 : TDCONFIG) (key : List Nat),
      s1.dcfg[0]? = some cfg0 ∧
      key = (if k < KEY_TOTAL then antkeys.getD k []
        else [0xB9, 0xA5, 0x21, 0xFB, 0xBD, 0x72, 0xC3, 0x45]) ∧
      key.length = 8 ∧
      getAntKey s1.key = some key ∧
      message_event K F s1 channel K.MESG_STARTUP_MESG_ID payload =
        some (s1, [Out.write (SetNetworkKey K cfg0.networkNumber key)]) ∧
      SetNetworkKey K cfg0.networkNumber key =
        ⟨([0xA4, 9, K.MESG_NETWORK_KEY_ID % 256, u8 cfg0.networkNumber] ++ key) ++
          [calcMsgChecksum ([0xA4, 9, K.MESG_NETWORK_KEY_ID % 256, u8 cfg0.networkNumber] ++
            key) 12], 13⟩ := by
  obtain ⟨hk1, hk2⟩ := run_key K F ms _ s1 o1 hrun
  have hpos : 0 < K.PROFILE_TOTAL := by
    have := (hK.profile_cover K.PROFILE_HRM).mpr (by simp)
    omega
  have hl : 0 < s1.dcfg.length := by
    rw [hk2, begin_length, hlen]
    exact hpos
  have hev := hK.event_labels
  simp only [List.nodup_cons, List.mem_cons, List.mem_singleton, not_or, List.not_mem_nil,
    not_false_eq_true, List.nodup_nil, and_true] at hev
  have n1 : K.MESG_STARTUP_MESG_ID ≠ K.MESG_BROADCAST_DATA_ID := by intro e; simp [e] at hev
  have hget : getAntKey s1.key = some (if k < KEY_TOTAL then antkeys.getD k []
      else [0xB9, 0xA5, 0x21, 0xFB, 0xBD, 0x72, 0xC3, 0x45]) := by
    rw [hk1]
    exact getAntKey_begin K s0 k
  have h0 : s1.dcfg[0]? = some s1.dcfg[0] := List.getElem?_eq_getElem hl
  refine ⟨s1.dcfg[0], _, h0, rfl, ?_, hget, ?_, ?_⟩
  · by_cases h : k < KEY_TOTAL
    · rw [if_pos h]
      have h4 : k < 4 := h
      interval_cases k <;> rfl
    · rw [if_neg h]
      rfl
  · unfold message_event
    simp only [n1, if_false, if_true, h0, hget]
  · have hd := SetNetworkKey_data K s1.dcfg[0].networkNumber k
    have hsz : (SetNetworkKey K s1.dcfg[0].networkNumber
        (if k < KEY_TOTAL then antkeys.getD k []
          else [0xB9, 0xA5, 0x21, 0xFB, 0xBD, 0x72, 0xC3, 0x45])).size = 13 := rfl
    cases hw : SetNetworkKey K s1.dcfg[0].networkNumber
        (if k < KEY_TOTAL then antkeys.getD k []
          else [0xB9, 0xA5, 0x21, 0xFB, 0xBD, 0x72, 0xC3, 0x45]) with
    | mk d sz =>
      rw [hw] at hd hsz
      simp only at hd hsz
      rw [hd, hsz]

/-- C20 with the key selector 2 and with the selector 7, which is no table entry. -/
theorem startup_network_key_witness :
    (message_event antDefs noFloatOps (begin antDefs (zeroState 6) 2) 0 0x6F
      (bufferOf [0x20])).map (fun r => r.2) =
      some [Out.write ⟨[0xA4, 9, 0x46, 0, 0xA8, 0xA4, 0x23, 0xB9, 0xF5, 0x5E, 0x63, 0xC1, 0x74],
        13⟩] ∧
    ∃ cfg0 key, (begin antDefs (zeroState 6) 7).dcfg[0]? = some cfg0 ∧
      key = [0xB9, 0xA5, 0x21, 0xFB, 0xBD, 0x72, 0xC3, 0x45] ∧
      message_event antDefs noFloatOps (begin antDefs (zeroState 6) 7) 0 0x6F (bufferOf [0x20]) =
        some (begin antDefs (zeroState 6) 7,
          [Out.write (SetNetworkKey antDefs cfg0.networkNumber key)]) :=
  ⟨by decide,
    let ⟨cfg0, key, h1, h2, _, _, h5, _⟩ := startup_network_key antDefs noFloatOps antDefs_wf
      (zeroState 6) (begin antDefs (zeroState 6) 7) 7 rfl [] [] rfl 0 (bufferOf [0x20])
    ⟨cfg0, key, h1, h2, h5⟩⟩

/-- C22: for every response message whose responded-to message id is none of the ids the
state machine acts on (channel event, network key, assign channel, channel period, search
timeout, RF frequency, search waveform, channel ID, open channel, close channel),
`message_response` completes, emits no command and no notification and leaves the whole
state (every channel configuration with its flags, the key and the profile reading state)
as it is; so does `message_event` on a response message that carries such an id. -/
theorem unhandled_response_ignored (K : AntDefs) (F : FloatOps) (s : State) (chan id : Nat)
    (payload : Buffer)
    (h : id ∉ [K.MESG_EVENT_ID, K.MESG_NETWORK_KEY_ID, K.MESG_ASSIGN_CHANNEL_ID,
      K.MESG_CHANNEL_MESG_PERIOD_ID, K.MESG_CHANNEL_SEARCH_TIMEOUT_ID,
      K.MESG_CHANNEL_RADIO_FREQ_ID, K.MESG_SEARCH_WAVEFORM_ID, K.MESG_CHANNEL_ID_ID,
      K.MESG_OPEN_CHANNEL_ID, K.MESG_CLOSE_CHANNEL_ID]) :
    message_response K F s chan id payload = some (s, []) ∧
    (K.WF → ∀ m : Message, m.isResponse K chan id →
      message_event K F s m.channel m.msgId m.payload = some (s, [])) := by
  simp only [List.mem_cons, List.mem_singleton, List.mem_nil_iff, or_false, not_or] at h
  obtain ⟨h0, h1, h2, h3, h4, h5, h6, h7, h8, h9⟩ := h
  have hr : ∀ p : Buffer, message_response K F s chan id p = some (s, []) := by
    intro p
    unfold message_response
    rw [if_neg h0, if_neg h1, if_neg h2, if_neg h3, if_neg h4, if_neg h5, if_neg h6, if_neg h7,
      if_neg h8, if_neg h9]
  refine ⟨hr payload, fun hK m hm => ?_⟩
  rw [message_event_ack K hK F s m chan id hm]
  exact hr m.payload

/-- C22 at the response `40: 01 41 00` after `begin`: the id `0x41` (unassign channel) is
none of the ids acted on. -/
theorem unhandled_response_ignored_witness :
    message_event antDefs noFloatOps (begin antDefs (zeroState 6) 0) 1 0x40
        (bufferOf [1, 0x41, 0]) = some (begin antDefs (zeroState 6) 0, []) :=
  (unhandled_response_ignored antDefs noFloatOps (begin antDefs (zeroState 6) 0) 1 0x41
    (bufferOf [1, 0x41, 0]) (by decide)).2 antDefs_wf ⟨1, 0x40, bufferOf [1, 0x41, 0]⟩
    ⟨rfl, rfl, rfl⟩

/-- C24 (as stated, refuted): after `begin`, a first close-channel response for channel 1
emits the notification of the status Unassigned, and a second one emits nothing, the status
notified last being Unassigned already. -/
theorem close_channel_counterexample :
    (run antDefs noFloatOps (begin antDefs (zeroState 6) 0)
      [⟨0, 0x40, bufferOf [1, 0x4C, 0]⟩]).1 = [statusNotification antDefs 1 0] ∧
    (run antDefs noFloatOps (begin antDefs (zeroState 6) 0)
      [⟨0, 0x40, bufferOf [1, 0x4C, 0]⟩, ⟨0, 0x40, bufferOf [1, 0x4C, 0]⟩]).1 =
        [statusNotification antDefs 1 0] := by
  decide

/-- C24 (amended): for every state in which channel `c` has a table entry, a close-channel
response for `c` clears the entry's `keyAccepted`, sets its `channelStatus` and
`channelStatusOld` to Unassigned, and emits one channel-status notification carrying
Unassigned for the entry's channel exactly when the status notified last
(`channelStatusOld`) is not Unassigned already, and nothing otherwise; no command is emitted,
and no other field of the entry, no other entry, and neither the key nor the profile reading
state changes. -/
theorem close_channel_response (K : AntDefs) (F : FloatOps) (hK : K.WF) (s : State) (c : Nat)
    (cfg : TDCONFIG) (m : Message) (hcfg : s.dcfg[c]? = some cfg)
    (hm : m.isResponse K c K.MESG_CLOSE_CHANNEL_ID) :
    message_event K F s m.channel m.msgId m.payload =
      some (⟨s.key, s.dcfg.set c { cfg with flags := { cfg.flags with
            keyAccepted := 0
            channelStatus := K.ANT_CHANNEL_STATUS_UNASSIGNED
            channelStatusOld := K.ANT_CHANNEL_STATUS_UNASSIGNED } }, s.payload⟩,
        if cfg.flags.channelStatusOld ≠ K.ANT_CHANNEL_STATUS_UNASSIGNED then
          [statusNotification K cfg.channel K.ANT_CHANNEL_STATUS_UNASSIGNED] else []) ∧
    (∀ i, i ≠ c → (s.dcfg.set c { cfg with flags := { cfg.flags with
            keyAccepted := 0
            channelStatus := K.ANT_CHANNEL_STATUS_UNASSIGNED
            channelStatusOld := K.ANT_CHANNEL_STATUS_UNASSIGNED } })[i]? = s.dcfg[i]?) := by
  constructor
  · rw [message_event_ack K hK F s m c _ hm,
      message_response_MESG_CLOSE_CHANNEL_ID K hK F s c m.payload cfg hcfg,
      sendMessageChannelStatus_eq]
    by_cases h : cfg.flags.channelStatusOld = K.ANT_CHANNEL_STATUS_UNASSIGNED
    · simp [h]
    · have h' : ¬ K.ANT_CHANNEL_STATUS_UNASSIGNED = cfg.flags.channelStatusOld :=
        fun e => h e.symm
      simp [h, h']
  · intro i hi
    rw [List.getElem?_set_ne (Ne.symm hi)]

/-- C24 (amended) at the first close-channel response for channel 1 after `begin`. -/
theorem close_channel_response_witness :
    (message_event antDefs noFloatOps (begin antDefs (zeroState 6) 0) 0 0x40
      (bufferOf [1, 0x4C, 0])).map (fun r => r.2) = some [statusNotification antDefs 1 0] := by
  obtain ⟨cfg, hcfg, hch, hfl, -⟩ := begin_dcfg antDefs antDefs_wf (zeroState 6) 0 1 rfl
    (by decide)
  have h := (close_channel_response antDefs noFloatOps antDefs_wf
    (begin antDefs (zeroState 6) 0) 1 cfg ⟨0, 0x40, bufferOf [1, 0x4C, 0]⟩ hcfg
    ⟨rfl, rfl, rfl⟩).1
  rw [h, hfl, hch]
  rfl

/-- C25: heart-rate decoder. For every stored state and payload, with `seq` and `bpm` the
sequence and BPM bytes of the payload and `beatTime` its 16-bit little-endian beat time: if
(`seq` differs from the previous sequence or `bpm` from the previous BPM) and `bpm` is
non-zero, exactly one reading is emitted, the stored interval is
`(((beatTime - previous.time) mod 65536) * 1000) / 1024`, and the previous sample becomes
the current one; otherwise nothing is emitted and the previous sample is unchanged (the
current sample takes `bpm` and `seq` only). -/
theorem payload_HRM_reading (K : AntDefs) (hrm : payload_HRM_t) (data : Buffer) :
    ((hrm.previous.sequence ≠ data K.STREAM_RXBROADCAST_DEV120_SEQ % 256 ∨
        hrm.previous.bpm ≠ data K.STREAM_RXBROADCAST_DEV120_HR % 256) ∧
      data K.STREAM_RXBROADCAST_DEV120_HR % 256 ≠ 0 →
      payload_HRM K hrm data = some (
        ⟨⟨(data K.STREAM_RXBROADCAST_DEV120_BEATLO +
              data K.STREAM_RXBROADCAST_DEV120_BEATHI * 256) % 65536,
            ((((((data K.STREAM_RXBROADCAST_DEV120_BEATLO +
              data K.STREAM_RXBROADCAST_DEV120_BEATHI * 256) % 65536 : Nat) : Int) -
                (hrm.previous.time : Int)) % 65536).toNat * 1000) / 1024,
            data K.STREAM_RXBROADCAST_DEV120_HR % 256,
            data K.STREAM_RXBROADCAST_DEV120_SEQ % 256⟩,
          ⟨(data K.STREAM_RXBROADCAST_DEV120_BEATLO +
              data K.STREAM_RXBROADCAST_DEV120_BEATHI * 256) % 65536,
            ((((((data K.STREAM_RXBROADCAST_DEV120_BEATLO +
              data K.STREAM_RXBROADCAST_DEV120_BEATHI * 256) % 65536 : Nat) : Int) -
                (hrm.previous.time : Int)) % 65536).toNat * 1000) / 1024,
            data K.STREAM_RXBROADCAST_DEV120_HR % 256,
            data K.STREAM_RXBROADCAST_DEV120_SEQ % 256⟩⟩,
        [Out.sendMessage K.ANTP_MSG_PROFILE_DATA K.PROFILE_HRM])) ∧
    (¬ ((hrm.previous.sequence ≠ data K.STREAM_RXBROADCAST_DEV120_SEQ % 256 ∨
        hrm.previous.bpm ≠ data K.STREAM_RXBROADCAST_DEV120_HR % 256) ∧
      data K.STREAM_RXBROADCAST_DEV120_HR % 256 ≠ 0) →
      payload_HRM K hrm data = some (
        ⟨⟨hrm.current.time, hrm.current.interval, data K.STREAM_RXBROADCAST_DEV120_HR % 256,
            data K.STREAM_RXBROADCAST_DEV120_SEQ % 256⟩, hrm.previous⟩, [])) := by
  have hsh : data K.STREAM_RXBROADCAST_DEV120_BEATHI <<< 8 =
      data K.STREAM_RXBROADCAST_DEV120_BEATHI * 256 := by
    rw [Nat.shiftLeft_eq]
  constructor
  · rintro ⟨h1, h2⟩
    unfold payload_HRM
    simp only [hsh]
    rw [if_pos h1, if_pos h2]
    have hlt : ((((((data K.STREAM_RXBROADCAST_DEV120_BEATLO +
        data K.STREAM_RXBROADCAST_DEV120_BEATHI * 256) % 65536 : Nat) : Int) -
          (hrm.previous.time : Int)) % 65536).toNat * 1000) / 1024 < 65536 := by
      omega
    rw [Nat.mod_eq_of_lt hlt]
  · intro h
    unfold payload_HRM
    simp only
    by_cases h1 : hrm.previous.sequence ≠ data K.STREAM_RXBROADCAST_DEV120_SEQ % 256 ∨
        hrm.previous.bpm ≠ data K.STREAM_RXBROADCAST_DEV120_HR % 256
    · have h2 : ¬ (data K.STREAM_RXBROADCAST_DEV120_HR % 256 ≠ 0) := fun e => h ⟨h1, e⟩
      rw [if_pos h1, if_neg h2]
    · rw [if_neg h1]

/-- C25 at one payload on zeroed storage: beat time `0x0400`, sequence 1, 60 BPM gives the
interval 1000 ms. -/
theorem payload_HRM_reading_witness :
    payload_HRM antDefs ⟨⟨0, 0, 0, 0⟩, ⟨0, 0, 0, 0⟩⟩ (bufferOf [0, 0, 0, 0, 0, 0, 4, 1, 60]) =
      some (⟨⟨1024, 1000, 60, 1⟩, ⟨1024, 1000, 60, 1⟩⟩, [Out.sendMessage 3 0]) :=
  (payload_HRM_reading antDefs ⟨⟨0, 0, 0, 0⟩, ⟨0, 0, 0, 0⟩⟩
    (bufferOf [0, 0, 0, 0, 0, 0, 4, 1, 60])).1 (by decide)

/-- C29: for every channel-ID message (`MESG_CHANNEL_ID_ID`) and the channel `c` it is
attributed to (its channel byte when that is below `PROFILE_TOTAL`, channel 0 otherwise),
the device identity of the table entry `c` becomes
`deviceId = devNoLo | (devNoHi << 8)`, `deviceType` and `transType` of the payload, exactly
one device-identity notification tagged with `c` is emitted, and no other field of the
entry, no other entry, and neither the key nor the profile reading state changes. -/
theorem channel_id_message (K : AntDefs) (F : FloatOps) (hK : K.WF) (s : State) (m : Message)
    (cfg : TDCONFIG) (hm : m.msgId = K.MESG_CHANNEL_ID_ID)
    (hcfg : s.dcfg[m.chan K]? = some cfg) :
    message_event K F s m.channel m.msgId m.payload =
      some (⟨s.key, s.dcfg.set (m.chan K) { cfg with dev :=
          ⟨m.payload K.STREAM_CHANNELID_DEVNO_LO |||
            (m.payload K.STREAM_CHANNELID_DEVNO_HI <<< 8),
            m.payload K.STREAM_CHANNELID_DEVTYPE, m.payload K.STREAM_CHANNELID_TRANTYPE⟩ },
          s.payload⟩,
        [Out.sendMessage K.ANTP_MSG_DEVICEID (m.chan K)]) ∧
    (∀ i, i ≠ m.chan K → (s.dcfg.set (m.chan K) { cfg with dev :=
          ⟨m.payload K.STREAM_CHANNELID_DEVNO_LO |||
            (m.payload K.STREAM_CHANNELID_DEVNO_HI <<< 8),
            m.payload K.STREAM_CHANNELID_DEVTYPE,
            m.payload K.STREAM_CHANNELID_TRANTYPE⟩ })[i]? = s.dcfg[i]?) ∧
    (m.channel < K.PROFILE_TOTAL → m.chan K = m.channel) ∧
    (¬ m.channel < K.PROFILE_TOTAL → m.chan K = 0) := by
  have hev := hK.event_labels
  simp only [List.nodup_cons, List.mem_cons, List.mem_singleton, not_or, List.not_mem_nil,
    not_false_eq_true, List.nodup_nil, and_true] at hev
  have n1 : K.MESG_CHANNEL_ID_ID ≠ K.MESG_BROADCAST_DATA_ID := by intro e; simp [e] at hev
  have n2 : K.MESG_CHANNEL_ID_ID ≠ K.MESG_STARTUP_MESG_ID := by intro e; simp [e] at hev
  have n3 : K.MESG_CHANNEL_ID_ID ≠ K.MESG_RESPONSE_EVENT_ID := by intro e; simp [e] at hev
  have n4 : K.MESG_CHANNEL_ID_ID ≠ K.MESG_CHANNEL_STATUS_ID := by intro e; simp [e] at hev
  have htot := hK.profile_total_byte
  refine ⟨?_, ?_, ?_, ?_⟩
  · unfold Message.chan at hcfg ⊢
    unfold message_event
    simp only [hm, n1, n2, n3, n4, if_false, if_true, hcfg]
  · intro i hi
    rw [List.getElem?_set_ne (Ne.symm hi)]
  · intro h
    unfold Message.chan
    rw [if_pos h]
    exact Nat.mod_eq_of_lt (by omega)
  · intro h
    unfold Message.chan
    rw [if_neg h]

/-- C29 at the channel-ID message `51: 01 34 12 79 01` for channel 1 after `begin`. -/
theorem channel_id_message_witness :
    (message_event antDefs noFloatOps (begin antDefs (zeroState 6) 0) 1 0x51
      (bufferOf [1, 0x34, 0x12, 0x79, 1])).map (fun r => r.2) = some [Out.sendMessage 2 1] ∧
    (message_event antDefs noFloatOps (begin antDefs (zeroState 6) 0) 1 0x51
      (bufferOf [1, 0x34, 0x12, 0x79, 1])).map
        (fun r => (r.1.dcfg[1]?).map (fun cfg => cfg.dev)) =
      some (some ⟨0x1234, 0x79, 1⟩) := by
  obtain ⟨cfg, hcfg, -⟩ := begin_dcfg antDefs antDefs_wf (zeroState 6) 0 1 rfl (by decide)
  have h := (channel_id_message antDefs noFloatOps antDefs_wf (begin antDefs (zeroState 6) 0)
    ⟨1, 0x51, bufferOf [1, 0x34, 0x12, 0x79, 1]⟩ cfg rfl hcfg).1
  refine ⟨?_, by decide⟩
  rw [h]
  rfl

/-- C30 (code evaluated at the search waveform `0x0153`): `SetSearchWaveform` stores
`(uint8_t)wave >> 8`, the shift of the byte, so the high byte of the waveform field is 0 for
every argument, while the low byte is `wave mod 256`; for `0x0153` the frame is
`A4 03 49 00 53 00 BD`, with `00` where the high byte `01` belongs. `SetChannelPeriod`
stores `(uint8_t)(period >> 8)`: its field holds `period mod 256` and
`(period div 256) mod 256` for every argument, and `A4 03 43 00 53 01 B6` for `0x0153`. -/
theorem SetSearchWaveform_high_byte (K : AntDefs) (channel wave : Int) :
    (SetSearchWaveform K channel wave).data.getD 4 0 = (wave % 256).toNat ∧
    (SetSearchWaveform K channel wave).data.getD 5 0 = 0 ∧
    (SetChannelPeriod K channel wave).data.getD 4 0 = (wave % 256).toNat ∧
    (SetChannelPeriod K channel wave).data.getD 5 0 = ((wave / 256) % 256).toNat ∧
    SetSearchWaveform antDefs 0 0x0153 = ⟨[0xA4, 3, 0x49, 0, 0x53, 0, 0xBD], 7⟩ ∧
    SetChannelPeriod antDefs 0 0x0153 = ⟨[0xA4, 3, 0x43, 0, 0x53, 1, 0xB6], 7⟩ := by
  have hlt := u8_lt wave
  have hu : u8 wave = (wave % 256).toNat := rfl
  refine ⟨?_, ?_, ?_, ?_, by decide, by decide⟩
  · simp only [SetSearchWaveform, List.cons_append, List.getD_cons_succ, List.getD_cons_zero]
    have : u8 wave &&& 0xFF = u8 wave % 256 := Nat.and_pow_two_sub_one_eq_mod _ 8
    rw [this, ← hu]
    omega
  · simp only [SetSearchWaveform, List.cons_append, List.getD_cons_succ, List.getD_cons_zero]
    rw [Nat.shiftRight_eq_div_pow]
    omega
  · simp only [SetChannelPeriod, List.cons_append, List.getD_cons_succ, List.getD_cons_zero]
    rw [andInt_FF]
    unfold u8
    omega
  · simp only [SetChannelPeriod, List.cons_append, List.getD_cons_succ, List.getD_cons_zero]
    rw [shiftRight_eight]
    rfl

/-- C27: at most one message is in flight. `transmit` submits a transfer only when
`txready` is set, the submission clears `txready`, and it submits nothing when
`txhead == txtail`. In every state reached from the empty queue by calls of `write` and
completions (`tx_data`), `txready` is clear exactly while a transfer is in flight, the
number of transfers submitted is the number of completions plus the one in flight, and a
`write` made while a transfer is in flight submits nothing. -/
theorem one_in_flight :
    (∀ (q : TxQueue) (t : Transfer), (transmit q).2 = some t →
      q.txready = true ∧ (transmit q).1.txready = false) ∧
    (∀ q : TxQueue, q.txhead = q.txtail → (transmit q).2 = none) ∧
    (∀ (n : Nat) (ops : List TxOp) (s : TxSim), (TxSim.init n).run ops = some s →
      s.inflight.isSome = (!s.q.txready) ∧
      s.submitted.length = ops.count TxOp.complete + (if s.inflight.isSome then 1 else 0) ∧
      ∀ (data : List Nat) (size : Nat) (s1 : TxSim), s.inflight.isSome →
        s.step (TxOp.write data size) = some s1 →
        s1.submitted = s.submitted ∧ s1.inflight = s.inflight) := by
  refine ⟨?_, ?_, ?_⟩
  · intro q t h
    rcases transmit_cases q with ⟨e1, -⟩ | ⟨t', -, e2, -, e4⟩
    · rw [e1] at h; cases h
    · exact ⟨e2, e4⟩
  · intro q h
    rcases transmit_cases q with ⟨e1, -⟩ | ⟨t', -, -, e3, -⟩
    · exact e1
    · exact absurd h e3
  · intro n ops s h
    obtain ⟨h1, h2⟩ := TxSim.run_inflight ops (TxSim.init n) s h rfl
    refine ⟨h1, ?_, ?_⟩
    · have h0 : (TxSim.init n).submitted.length = 0 := rfl
      have h3 : (TxSim.init n).inflight.isSome = false := rfl
      rw [h0, h3] at h2
      simp only [Bool.false_eq_true, if_false, Nat.add_zero, Nat.zero_add] at h2
      exact h2
    · intro data size s1 hin hstep
      exact (TxSim.step_inflight s s1 _ hstep h1).2.2 hin (by simp)

set_option maxRecDepth 100000 in
/-- C27 on a 240-byte buffer: a second `write` made before the completion of the first
submits nothing, and the completion then submits the second message. -/
theorem one_in_flight_witness :
    ((TxSim.init 240).run [TxOp.write [1, 2, 3] 3, TxOp.write [4, 5] 2]).map
        (fun s => (s.inflight, s.submitted)) = some (some ⟨2, 3⟩, [[1, 2, 3]]) ∧
    ((TxSim.init 240).run [TxOp.write [1, 2, 3] 3, TxOp.write [4, 5] 2, TxOp.complete]).map
        (fun s => (s.inflight, s.submitted)) = some (some ⟨6, 2⟩, [[1, 2, 3], [4, 5]]) ∧
    (∀ s, (TxSim.init 240).run [TxOp.write [1, 2, 3] 3, TxOp.write [4, 5] 2] = some s →
      s.submitted.length = 0 + (if s.inflight.isSome then 1 else 0)) :=
  ⟨by decide, by decide, fun s h => (one_in_flight.2.2 240 _ s h).2.1⟩

set_option maxRecDepth 1000000 in
/-- C28 (code evaluated where an entry ends at the last byte of `txbuffer`): in a 32-byte
buffer a 13-byte and a 16-byte message are written and completed, which leaves
`txhead = txtail = 31`. A 5-byte message is then placed at offset 0 (`txhead = 5`) and
submitted; its completion adds `1 + 5` to `txtail`, which becomes `37`, beyond the buffer,
and `transmit` submits the same 5 bytes a second time. In a 240-byte buffer the same happens
after sixteen 13-byte messages, a 6-byte and a 7-byte message (`txhead = txtail = 239`):
the completion of the next message leaves `txtail = 245`. -/
theorem txtail_leaves_buffer :
    ((TxSim.init 32).run [TxOp.write (List.replicate 13 1) 13, TxOp.complete,
        TxOp.write (List.replicate 16 2) 16, TxOp.complete]).map
      (fun s => (s.q.txhead, s.q.txtail, s.inflight)) = some (31, 31, none) ∧
    ((TxSim.init 32).run [TxOp.write (List.replicate 13 1) 13, TxOp.complete,
        TxOp.write (List.replicate 16 2) 16, TxOp.complete,
        TxOp.write [0xA4, 1, 0x4A, 0, 0xEF] 5, TxOp.complete]).map
      (fun s => (s.q.txhead, s.q.txtail, s.inflight, s.submitted.drop 2)) =
      some (5, 37, some ⟨1, 5⟩, [[0xA4, 1, 0x4A, 0, 0xEF], [0xA4, 1, 0x4A, 0, 0xEF]]) ∧
    ((TxSim.init 240).run ((List.range 16).flatMap
        (fun k => [TxOp.write (List.replicate 13 (k + 1)) 13, TxOp.complete]) ++
        [TxOp.write (List.replicate 6 17) 6, TxOp.complete,
         TxOp.write (List.replicate 7 18) 7, TxOp.complete])).map
      (fun s => (s.q.txhead, s.q.txtail, s.inflight)) = some (239, 239, none) ∧
    ((TxSim.init 240).run ((List.range 16).flatMap
        (fun k => [TxOp.write (List.replicate 13 (k + 1)) 13, TxOp.complete]) ++
        [TxOp.write (List.replicate 6 17) 6, TxOp.complete,
         TxOp.write (List.replicate 7 18) 7, TxOp.complete,
         TxOp.write [0xA4, 1, 0x4A, 0, 0xEF] 5, TxOp.complete])).map
      (fun s => (s.q.txbuffer.length, s.q.txhead, s.q.txtail, s.inflight)) =
      some (240, 5, 245, some ⟨1, 5⟩) := by
  refine ⟨by decide, by decide, by decide, by decide⟩

/-- C23: decoding stops at the first failure. For every buffer and byte count,
`handleMessages` returns, and what it dispatches and returns is what decoding until the
first failure (`DecodesUntilFailure`) determines: the messages of the frames before the
first position where the remaining bytes hold no sync byte or the frame at the first sync
byte fails the integrity check, with result 0 there and nothing dispatched from behind that
position, and result 1 only when the remaining byte count is used up without a failure. -/
theorem handleMessages_stops_at_failure (K : AntDefs) (buffer : Buffer) (tBytes : Int) :
    ∃ ds r, handleMessages K buffer tBytes = some (ds, r) ∧
      DecodesUntilFailure K buffer 0 tBytes ds r ∧ (r = 0 ∨ r = 1) ∧
      ∀ ds1 r1, DecodesUntilFailure K buffer 0 tBytes ds1 r1 → ds1 = ds ∧ r1 = r := by
  obtain ⟨ds, r, h1, h2⟩ := handleMessagesLoop_decodes K buffer tBytes.toNat 0 tBytes
    (le_refl _)
  refine ⟨ds, r, h1, h2, DecodesUntilFailure.result K buffer 0 tBytes ds r h2, ?_⟩
  intro ds1 r1 h3
  exact DecodesUntilFailure.unique K buffer 0 tBytes ds1 ds r1 r h3 h2

/-- C23 at a buffer of three frames of which the second has a wrong checksum: the first is
dispatched, the third is not, and the result is 0. -/
theorem handleMessages_stops_at_failure_witness :
    handleMessages antDefs (bufferOf [0xA4, 1, 0x4A, 0, 0xEF, 0xA4, 1, 0x4A, 0, 0xEB,
      0xA4, 1, 0x4A, 0, 0xEF]) 15 = some ([⟨0, 0x4A, 3, 1⟩], 0) ∧
    ∃ ds r, handleMessages antDefs (bufferOf [0xA4, 1, 0x4A, 0, 0xEF, 0xA4, 1, 0x4A, 0, 0xEB,
        0xA4, 1, 0x4A, 0, 0xEF]) 15 = some (ds, r) ∧
      DecodesUntilFailure antDefs (bufferOf [0xA4, 1, 0x4A, 0, 0xEF, 0xA4, 1, 0x4A, 0, 0xEB,
        0xA4, 1, 0x4A, 0, 0xEF]) 0 15 ds r :=
  ⟨by decide,
    let ⟨ds, r, h1, h2, _⟩ := handleMessages_stops_at_failure antDefs
      (bufferOf [0xA4, 1, 0x4A, 0, 0xEF, 0xA4, 1, 0x4A, 0, 0xEB, 0xA4, 1, 0x4A, 0, 0xEF]) 15
    ⟨ds, r, h1, h2⟩⟩

/-- C21 (code evaluated): with wheel circumference 2122 mm (stored, or substituted for a
stored 0) and a running distance of at most `10^6`, a payload whose wheel revolution count
is advanced by 1 and whose speed event time is advanced by 1024 ticks over the previous
sample adds 2 to the running distance, not 2.122: the sum is converted to the `uint32_t`
field, which drops the fraction. After `n` such payloads the running distance has grown by
`2 * n`. This holds for the standalone speed decoder and, when the cadence event time
changed as well, for the combined decoder, for every rounding of the single-precision
operations with relative error at most `2^-24`. -/
theorem distance_increment_truncated (K : AntDefs) (sp : Nat → Int → Nat → Nat)
    (rnd : ℚ → ℚ) (h : SingleRounding rnd) :
    (∀ (st : payload_SPEED_t) (data : Buffer),
      (st.wheelCircumference = 0 ∨ st.wheelCircumference = 2122) →
      le16 data 7 = st.previous.speedCt + 1 → le16 data 5 = st.previous.speedTime + 1024 →
      st.current.distance ≤ 1000000 →
      (payload_SPEED K ⟨sp, addDistanceWith rnd⟩ st data).1.current.distance =
          st.current.distance + 2 ∧
        (payload_SPEED K ⟨sp, addDistanceWith rnd⟩ st data).2 =
          [Out.sendMessage K.ANTP_MSG_PROFILE_DATA K.PROFILE_SPEED]) ∧
    (∀ (st : payload_SPEED_t) (ps : List Buffer),
      (st.wheelCircumference = 0 ∨ st.wheelCircumference = 2122) →
      OneRevolutionEach K ⟨sp, addDistanceWith rnd⟩ st ps →
      st.current.distance + 2 * ps.length ≤ 1000000 →
      (feedSPEED K ⟨sp, addDistanceWith rnd⟩ st ps).current.distance =
        st.current.distance + 2 * ps.length) ∧
    (∀ (st : payload_SPDCAD_t) (data : Buffer),
      (st.wheelCircumference = 0 ∨ st.wheelCircumference = 2122) →
      le16 data 7 = st.previous.speedCt + 1 → le16 data 5 = st.previous.speedTime + 1024 →
      le16 data 1 ≠ st.previous.cadenceTime → st.current.distance ≤ 1000000 →
      ∃ s1, payload_SPDCAD K ⟨sp, addDistanceWith rnd⟩ st data =
          some (s1, [Out.sendMessage K.ANTP_MSG_PROFILE_DATA K.PROFILE_SPDCAD]) ∧
        s1.current.distance = st.current.distance + 2) := by
  refine ⟨?_, ?_, ?_⟩
  · intro st data hw hct ht hd
    obtain ⟨e1, -, -, e4⟩ := payload_SPEED_one_revolution K sp rnd h st data hw hct ht hd
    exact ⟨e1, e4⟩
  · intro st ps hw hone hd
    exact feedSPEED_distance K sp rnd h ps st hw hone hd
  · intro st data hw hct ht hcad hd
    have hne : le16 data 5 ≠ st.previous.speedTime := by omega
    have hwheel : (if st.wheelCircumference = 0 then WHEEL_CIRCUMFERENCE
        else st.wheelCircumference) = 2122 := by
      rcases hw with e | e
      · rw [if_pos e]; rfl
      · rw [if_neg (by omega), e]
    have hdelta : toU32 (((st.previous.speedCt + 1 : Nat) : Int) -
        (st.previous.speedCt : Int)) = 1 := by
      unfold toU32
      omega
    cases hc : cadenceCalc (le16 data 3) st.previous.cadenceCt (le16 data 1)
        st.previous.cadenceTime with
    | none => exact absurd ((cadenceCalc_eq_none _ _ _ _).mp hc) hcad
    | some cadence =>
      unfold payload_SPDCAD
      simp only [hne, hcad, ne_eq, not_false_eq_true, true_or, decide_True, Bool.or_self,
        Bool.true_or, if_true, hc, hwheel, hct, hdelta,
        addDistanceWith_one_revolution rnd h _ hd]
      exact ⟨_, rfl, rfl⟩

/-- C21 at the first payload on zeroed storage, with exact arithmetic as the rounding: the
running distance becomes 2. -/
theorem distance_increment_truncated_witness :
    (payload_SPEED antDefs ⟨noFloatOps.speed100, addDistanceWith (fun x => x)⟩
      ⟨⟨0, 0, 0, 0⟩, ⟨0, 0, 0, 0⟩, 0, 0⟩
      (bufferOf [0, 0, 0, 0, 0, 0, 4, 1, 0])).1.current.distance = 0 + 2 :=
  ((distance_increment_truncated antDefs noFloatOps.speed100 (fun x => x)
    (fun x => by
      simp only [sub_self, abs_zero]
      positivity)).1
    ⟨⟨0, 0, 0, 0⟩, ⟨0, 0, 0, 0⟩, 0, 0⟩ (bufferOf [0, 0, 0, 0, 0, 0, 4, 1, 0])
    (Or.inl rfl) (by decide) (by decide) (by decide)).1

/-- C31 (an index from an unchecked channel byte): with a table `ant.dcfg` of `PROFILE_TOTAL`
entries, the index `chan` that `message_event` derives from its `channel` argument is always
below `PROFILE_TOTAL`, but the channel byte of a response message and of a channel-status
message is used as the index as it is: a response to any of the nine bring-up and close ids,
and a channel-status message, access the table outside its bounds exactly when that byte is
`PROFILE_TOTAL` or more, and so does a channel-event response carrying
`EVENT_RX_BROADCAST`. After `begin` on six entries, the response `06 46 00` and the
channel-status message `06 02` do so. -/
theorem response_channel_unchecked (K : AntDefs) (hK : K.WF) (F : FloatOps) (s : State)
    (hlen : s.dcfg.length = K.PROFILE_TOTAL) :
    (∀ m : Message, m.chan K < K.PROFILE_TOTAL) ∧
    (∀ (m : Message) (c id : Nat), m.isResponse K c id →
      id ∈ [K.MESG_NETWORK_KEY_ID, K.MESG_ASSIGN_CHANNEL_ID, K.MESG_CHANNEL_MESG_PERIOD_ID,
        K.MESG_CHANNEL_SEARCH_TIMEOUT_ID, K.MESG_CHANNEL_RADIO_FREQ_ID,
        K.MESG_SEARCH_WAVEFORM_ID, K.MESG_CHANNEL_ID_ID, K.MESG_OPEN_CHANNEL_ID,
        K.MESG_CLOSE_CHANNEL_ID] →
      (message_event K F s m.channel m.msgId m.payload = none ↔ K.PROFILE_TOTAL ≤ c)) ∧
    (∀ (m : Message) (c : Nat), m.isChannelStatus K c →
      (message_event K F s m.channel m.msgId m.payload = none ↔ K.PROFILE_TOTAL ≤ c)) ∧
    (∀ (m : Message) (c : Nat), m.isBroadcastEvent K c → K.PROFILE_TOTAL ≤ c →
      message_event K F s m.channel m.msgId m.payload = none) ∧
    message_event antDefs noFloatOps (begin antDefs (zeroState 6) 0) 6 0x40
      (bufferOf [6, 0x46, 0]) = none ∧
    message_event antDefs noFloatOps (begin antDefs (zeroState 6) 0) 6 0x52
      (bufferOf [6, 2]) = none := by
  refine ⟨Message.chan_lt K hK, ?_, ?_, ?_, by decide, by decide⟩
  · intro m c id hm hid
    rw [message_event_ack K hK F s m c id hm, message_response_none_iff K hK F s c id _ hid,
      hlen]
  · intro m c hm
    rw [message_event_status_none_iff K hK F s m c hm, hlen]
  · intro m c hm hc
    rw [message_event_ack K hK F s m c _ hm.1]
    have h : s.dcfg[c]? = none := List.getElem?_eq_none_iff.mpr (by omega)
    simp only [message_response, if_true, hm.2, message_channel, h]

/-- C31 at the state after `begin` on a table of six entries: a network-key response and a
channel-status message for channel 6 fail, the same messages for channel 5 are handled. -/
theorem response_channel_unchecked_witness :
    (message_event antDefs noFloatOps (begin antDefs (zeroState 6) 0) 6 0x40
        (bufferOf [6, 0x46, 0]) = none ↔ antDefs.PROFILE_TOTAL ≤ 6) ∧
    (message_event antDefs noFloatOps (begin antDefs (zeroState 6) 0) 5 0x40
        (bufferOf [5, 0x46, 0])).isSome = true ∧
    (message_event antDefs noFloatOps (begin antDefs (zeroState 6) 0) 5 0x52
        (bufferOf [5, 2])).isSome = true :=
  ⟨(response_channel_unchecked antDefs antDefs_wf noFloatOps (begin antDefs (zeroState 6) 0)
      (by decide)).2.1 ⟨6, 0x40, bufferOf [6, 0x46, 0]⟩ 6 0x46 ⟨rfl, rfl, rfl⟩ (by decide),
   by decide, by decide⟩

/-- C32: the bring-up step taken on a response does not depend on the response code. For
every state, channel byte and responded-to message id other than the channel-event id,
`message_response` gives the same result (the same emitted commands and notifications and
the same state afterwards, or the same failure) whatever the payload bytes are; and so does
`message_event` on any two response messages that agree on the channel byte and on the
responded-to id. -/
theorem response_code_ignored (K : AntDefs) (F : FloatOps) (s : State) (chan id : Nat)
    (hid : id ≠ K.MESG_EVENT_ID) :
    (∀ payload1 payload2 : Buffer,
      message_response K F s chan id payload1 = message_response K F s chan id payload2) ∧
    (K.WF → ∀ m1 m2 : Message, m1.isResponse K chan id → m2.isResponse K chan id →
      message_event K F s m1.channel m1.msgId m1.payload =
        message_event K F s m2.channel m2.msgId m2.payload) := by
  have h : ∀ payload1 payload2 : Buffer,
      message_response K F s chan id payload1 = message_response K F s chan id payload2 := by
    intro payload1 payload2
    unfold message_response
    rw [if_neg hid, if_neg hid]
  refine ⟨h, fun hK m1 m2 h1 h2 => ?_⟩
  rw [message_event_ack K hK F s m1 chan id h1, message_event_ack K hK F s m2 chan id h2]
  exact h _ _

/-- C32 at two acknowledgements of the network key for channel 1 after `begin`, one with
response code 0 and one with the response code `0x28`: both emit the assign-channel
command. -/
theorem response_code_ignored_witness :
    message_event antDefs noFloatOps (begin antDefs (zeroState 6) 0) 0 0x40
        (bufferOf [1, 0x46, 0]) =
      message_event antDefs noFloatOps (begin antDefs (zeroState 6) 0) 0 0x40
        (bufferOf [1, 0x46, 0x28]) ∧
    (message_event antDefs noFloatOps (begin antDefs (zeroState 6) 0) 0 0x40
        (bufferOf [1, 0x46, 0x28])).map (fun r => r.2) =
      some [Out.write (AssignChannel antDefs 1 0 0)] :=
  ⟨(response_code_ignored antDefs noFloatOps (begin antDefs (zeroState 6) 0) 1 0x46
      (by decide)).2 antDefs_wf ⟨0, 0x40, bufferOf [1, 0x46, 0]⟩
      ⟨0, 0x40, bufferOf [1, 0x46, 0x28]⟩ ⟨rfl, rfl, rfl⟩ ⟨rfl, rfl, rfl⟩,
   by decide⟩

/-- C33: for every argument tuple, `SendExtBurstTransferPacket` submits the frame that
`SendExtBroadcastData` submits for the same arguments, message id
`MESG_EXT_BROADCAST_DATA_ID` included: the 17 bytes
`A4 0D id chanSeq devNum(lo) devNum(hi) devType tranType data[0] .. data[7] checksum`.
Consequently `SendExtBurstTransfer` with `N` packets submits `N` extended-broadcast frames,
packet `i` carrying `data[8i .. 8i+8)` and the channel byte with `channel & 0x1F` in its low
5 bits and, in its top 3 bits, `i mod 4`, or `((N - 1) mod 4) | 0x04` on the last packet. -/
theorem ext_burst_is_ext_broadcast (K : AntDefs) (chanSeq channel devNum devType tranType : Int)
    (data : List Nat) (N : Nat) :
    SendExtBurstTransferPacket K chanSeq devNum devType tranType data =
      SendExtBroadcastData K chanSeq devNum devType tranType data ∧
    SendExtBurstTransferPacket K chanSeq devNum devType tranType data =
      ⟨[0xA4, 13, K.MESG_EXT_BROADCAST_DATA_ID % 256, (chanSeq % 256).toNat,
        (devNum % 256).toNat, ((devNum / 256) % 256).toNat, (devType % 256).toNat,
        (tranType % 256).toNat,
        data.getD 0 0 % 256, data.getD 1 0 % 256, data.getD 2 0 % 256, data.getD 3 0 % 256,
        data.getD 4 0 % 256, data.getD 5 0 % 256, data.getD 6 0 % 256, data.getD 7 0 % 256] ++
        [calcMsgChecksum [0xA4, 13, K.MESG_EXT_BROADCAST_DATA_ID % 256, (chanSeq % 256).toNat,
          (devNum % 256).toNat, ((devNum / 256) % 256).toNat, (devType % 256).toNat,
          (tranType % 256).toNat,
          data.getD 0 0 % 256, data.getD 1 0 % 256, data.getD 2 0 % 256, data.getD 3 0 % 256,
          data.getD 4 0 % 256, data.getD 5 0 % 256, data.getD 6 0 % 256,
          data.getD 7 0 % 256] 16], 17⟩ ∧
    SendExtBurstTransfer K channel devNum devType tranType data N =
      (List.range N).map (fun i => SendExtBroadcastData K
        ((((if i = N - 1 then (i % 4) ||| 0x04 else i % 4) <<< 5) |||
          (channel % 32).toNat : Nat) : Int) devNum devType tranType (data.drop (8 * i))) ∧
    ∀ i, (((if i = N - 1 then (i % 4) ||| 0x04 else i % 4) <<< 5) |||
        (channel % 32).toNat) < 256 ∧
      ((((if i = N - 1 then (i % 4) ||| 0x04 else i % 4) <<< 5) |||
        (channel % 32).toNat) &&& 0x1F : Nat) = (channel % 32).toNat ∧
      ((((if i = N - 1 then (i % 4) ||| 0x04 else i % 4) <<< 5) |||
        (channel % 32).toNat) >>> 5 : Nat) = (if i = N - 1 then (i % 4) ||| 0x04 else i % 4) := by
  obtain ⟨e, hlt⟩ := andInt_1F channel
  have hch : andInt channel 0x1F = channel % 32 := by
    rw [e]
    have : toU32 channel &&& 0x1F = toU32 channel % 32 :=
      Nat.and_pow_two_sub_one_eq_mod _ 5
    rw [this]
    unfold toU32
    omega
  have hc32 : (channel % 32).toNat < 32 := by omega
  refine ⟨rfl, ?_, ?_, ?_⟩
  · unfold SendExtBurstTransferPacket
    have hsync : MESG_TX_SYNC % 256 = 0xA4 := by decide
    have h1 : u8 (devNum % 256) = (devNum % 256).toNat := by unfold u8; omega
    rw [andInt_FF, shiftRight_eight, hsync, h1]
    rfl
  · unfold SendExtBurstTransfer
    rw [Int.toNat_ofNat]
    have := SendExtBurstTransferLoop_eq K channel devNum devType tranType data N N 0
    simp only [Nat.zero_mod, Nat.zero_add, hch] at this
    exact this
  · intro i
    have hs : (if i = N - 1 then (i % 4) ||| 0x04 else i % 4) < 8 := burstSeq_lt N i
    have hv := shift_or_small _ hs _ hc32
    rw [hv]
    refine ⟨by omega, ?_, ?_⟩
    · have : ((if i = N - 1 then (i % 4) ||| 0x04 else i % 4) * 32 + (channel % 32).toNat) &&&
          0x1F = ((if i = N - 1 then (i % 4) ||| 0x04 else i % 4) * 32 +
            (channel % 32).toNat) % 32 := Nat.and_pow_two_sub_one_eq_mod _ 5
      rw [this]
      omega
    · rw [Nat.shiftRight_eq_div_pow]
      omega

/-- C33 at three packets on channel 3 for the device `0x1234`: the frames of
`SendExtBurstTransfer` carry the message id `0x5D` and the channel bytes `03`, `23`, `C3`. -/
theorem ext_burst_is_ext_broadcast_witness :
    (SendExtBurstTransfer antDefs 3 0x1234 0x78 1 (List.range 24) 3).map
        (fun w => (w.data.getD 2 0, w.data.getD 3 0, w.size)) =
      [(0x5D, 0x03, 17), (0x5D, 0x23, 17), (0x5D, 0xC3, 17)] ∧
    SendExtBurstTransferPacket antDefs 0x23 0x1234 0x78 1 [1, 2, 3, 4, 5, 6, 7, 8] =
      SendExtBroadcastData antDefs 0x23 0x1234 0x78 1 [1, 2, 3, 4, 5, 6, 7, 8] :=
  ⟨by decide, (ext_burst_is_ext_broadcast antDefs 0x23 3 0x1234 0x78 1
    [1, 2, 3, 4, 5, 6, 7, 8] 3).1⟩

/-- C8: for every channel `c < PROFILE_TOTAL` configured by `begin`, response messages for
channel `c` that acknowledge, in this order, network key, assign channel, channel period,
search timeout, RF frequency, search waveform, channel ID and open channel make the state
machine emit exactly ten frames, in this order and nothing else, given here byte by byte
(sync `A4`, number of data bytes, id, data bytes, XOR checksum): assign channel with data
`c, channelType, networkNumber`; set channel period with `c` and the two bytes of
`channelPeriod`, low byte first; set search timeout with `c, searchTimeout`; set RF
frequency with `c, RFFreq`; set search waveform with `c` and the two bytes of
`searchWaveform`; set channel ID with `c`, the two bytes of `deviceNumber`, `deviceType`
and `transType`; open channel with `c`; and three request-message frames with `c` and the
ids of channel status, capabilities and version. The parameters are the fields of the table
entry `c` as `begin` stored them: slave channel type and transmission type, network 0,
device number 0, search timeout 255, waveform `0x53`, and the device type, channel period
and RF frequency of the profile. -/
theorem bringup_sequence (K : AntDefs) (F : FloatOps) (hK : K.WF) (s0 : State)
    (hs0 : s0.dcfg.length = K.PROFILE_TOTAL) (key c : Nat) (hc : c < K.PROFILE_TOTAL)
    (ms : List Message)
    (hms : List.Forall₂ (fun m id => m.isResponse K c id) ms (bringUpAcks K)) :
    ∃ cfg s1, (begin K s0 key).dcfg[c]? = some cfg ∧
      (cfg.channel = c ∧ cfg.transType = K.ANT_TRANSMISSION_SLAVE ∧
        cfg.channelType = K.ANT_CHANNEL_TYPE_SLAVE ∧ cfg.networkNumber = 0 ∧
        cfg.deviceNumber = 0 ∧ cfg.searchTimeout = 255 ∧ cfg.searchWaveform = 0x53) ∧
      (c = K.PROFILE_HRM → cfg.deviceType = K.ANT_DEVICE_HRM ∧
        cfg.channelPeriod = K.ANT_PERIOD_HRM ∧ cfg.RFFreq = K.ANT_FREQUENCY_SPORT) ∧
      (c = K.PROFILE_SPDCAD → cfg.deviceType = K.ANT_DEVICE_SPDCAD ∧
        cfg.channelPeriod = K.ANT_PERIOD_SPDCAD ∧ cfg.RFFreq = K.ANT_FREQUENCY_SPORT) ∧
      (c = K.PROFILE_POWER → cfg.deviceType = K.ANT_DEVICE_POWER ∧
        cfg.channelPeriod = K.ANT_PERIOD_POWER ∧ cfg.RFFreq = K.ANT_FREQUENCY_SPORT) ∧
      (c = K.PROFILE_STRIDE → cfg.deviceType = K.ANT_DEVICE_STRIDE ∧
        cfg.channelPeriod = K.ANT_PERIOD_STRIDE ∧ cfg.RFFreq = K.ANT_FREQUENCY_STRIDE) ∧
      (c = K.PROFILE_SPEED → cfg.deviceType = K.ANT_DEVICE_SPEED ∧
        cfg.channelPeriod = K.ANT_PERIOD_SPEED ∧ cfg.RFFreq = K.ANT_FREQUENCY_SPORT) ∧
      (c = K.PROFILE_CADENCE → cfg.deviceType = K.ANT_DEVICE_CADENCE ∧
        cfg.channelPeriod = K.ANT_PERIOD_CADENCE ∧ cfg.RFFreq = K.ANT_FREQUENCY_SPORT) ∧
      run K F (begin K s0 key) ms =
        ([Out.write ⟨Frame.bytes ⟨K.MESG_ASSIGN_CHANNEL_ID,
            [c, cfg.channelType % 256, cfg.networkNumber % 256]⟩, 7⟩,
          Out.write ⟨Frame.bytes ⟨K.MESG_CHANNEL_MESG_PERIOD_ID,
            [c, cfg.channelPeriod % 256, cfg.channelPeriod / 256 % 256]⟩, 7⟩,
          Out.write ⟨Frame.bytes ⟨K.MESG_CHANNEL_SEARCH_TIMEOUT_ID,
            [c, cfg.searchTimeout % 256]⟩, 6⟩,
          Out.write ⟨Frame.bytes ⟨K.MESG_CHANNEL_RADIO_FREQ_ID, [c, cfg.RFFreq % 256]⟩, 6⟩,
          Out.write ⟨Frame.bytes ⟨K.MESG_SEARCH_WAVEFORM_ID,
            [c, cfg.searchWaveform % 256, cfg.searchWaveform / 256 % 256]⟩, 7⟩,
          Out.write ⟨Frame.bytes ⟨K.MESG_CHANNEL_ID_ID,
            [c, cfg.deviceNumber % 256, cfg.deviceNumber / 256 % 256, cfg.deviceType % 256,
              cfg.transType % 256]⟩, 9⟩,
          Out.write ⟨Frame.bytes ⟨K.MESG_OPEN_CHANNEL_ID, [c]⟩, 5⟩,
          Out.write ⟨Frame.bytes ⟨K.MESG_REQUEST_ID, [c, K.MESG_CHANNEL_STATUS_ID]⟩, 6⟩,
          Out.write ⟨Frame.bytes ⟨K.MESG_REQUEST_ID, [c, K.MESG_CAPABILITIES_ID]⟩, 6⟩,
          Out.write ⟨Frame.bytes ⟨K.MESG_REQUEST_ID, [c, K.MESG_VERSION_ID]⟩, 6⟩],
          some s1) := by
  obtain ⟨cfg, s1, hcfg, hch, htt, hct, hnn, hdn, hst, hsw, hrun⟩ :=
    bringup_run K F hK s0 hs0 key c hc ms hms
  have hc256 : c < 256 := lt_of_lt_of_le hc hK.profile_total_byte
  have hw : cfg.searchWaveform < 256 := by rw [hsw]; decide
  obtain ⟨cfg1, hcfg1, q1, q2, q3, q4, q5, q6⟩ := begin_dcfg_profile K hK s0 key c hs0 hc
  rw [hcfg] at hcfg1
  cases hcfg1
  refine ⟨cfg, s1, hcfg, ⟨hch, htt, hct, hnn, hdn, hst, hsw⟩, q1, q2, q3, q4, q5, q6, ?_⟩
  rw [hrun, AssignChannel_frame K hK c _ _ hc256, SetChannelPeriod_frame K hK c _ hc256,
    SetChannelSearchTimeout_frame K hK c _ hc256, SetChannelRFFreq_frame K hK c _ hc256,
    SetSearchWaveform_frame K hK c _ hc256 hw, SetChannelId_frame K hK c _ _ _ hc256,
    OpenChannel_frame K hK c hc256,
    RequestMessage_frame K hK c _ hc256 (hK.ids_byte _ (by simp)),
    RequestMessage_frame K hK c _ hc256 (hK.ids_byte _ (by simp)),
    RequestMessage_frame K hK c _ hc256 (hK.ids_byte _ (by simp))]

/-- C8 at the heart-rate channel 0 and at the stride channel 3, with the protocol's
constants and the zero-initialised driver state: the ten frames, byte by byte. -/
theorem bringup_sequence_witness :
    (run antDefs noFloatOps (begin antDefs (zeroState 6) 0)
        [⟨0, 0x40, bufferOf [0, 0x46, 0]⟩, ⟨0, 0x40, bufferOf [0, 0x42, 0]⟩,
         ⟨0, 0x40, bufferOf [0, 0x43, 0]⟩, ⟨0, 0x40, bufferOf [0, 0x44, 0]⟩,
         ⟨0, 0x40, bufferOf [0, 0x45, 0]⟩, ⟨0, 0x40, bufferOf [0, 0x49, 0]⟩,
         ⟨0, 0x40, bufferOf [0, 0x51, 0]⟩, ⟨0, 0x40, bufferOf [0, 0x4B, 0]⟩]).1 =
      [Out.write ⟨[0xA4, 3, 0x42, 0, 0, 0, 0xE5], 7⟩,
       Out.write ⟨[0xA4, 3, 0x43, 0, 0x86, 0x1F, 0x7D], 7⟩,
       Out.write ⟨[0xA4, 2, 0x44, 0, 0xFF, 0x1D], 6⟩,
       Out.write ⟨[0xA4, 2, 0x45, 0, 0x39, 0xDA], 6⟩,
       Out.write ⟨[0xA4, 3, 0x49, 0, 0x53, 0, 0xBD], 7⟩,
       Out.write ⟨[0xA4, 5, 0x51, 0, 0, 0, 0x78, 0, 0x88], 9⟩,
       Out.write ⟨[0xA4, 1, 0x4B, 0, 0xEE], 5⟩,
       Out.write ⟨[0xA4, 2, 0x4D, 0, 0x52, 0xB9], 6⟩,
       Out.write ⟨[0xA4, 2, 0x4D, 0, 0x54, 0xBF], 6⟩,
       Out.write ⟨[0xA4, 2, 0x4D, 0, 0x3E, 0xD5], 6⟩] ∧
    (run antDefs noFloatOps (begin antDefs (zeroState 6) 0)
        [⟨3, 0x40, bufferOf [3, 0x46, 0]⟩, ⟨3, 0x40, bufferOf [3, 0x42, 0]⟩,
         ⟨3, 0x40, bufferOf [3, 0x43, 0]⟩, ⟨3, 0x40, bufferOf [3, 0x44, 0]⟩,
         ⟨3, 0x40, bufferOf [3, 0x45, 0]⟩, ⟨3, 0x40, bufferOf [3, 0x49, 0]⟩,
         ⟨3, 0x40, bufferOf [3, 0x51, 0]⟩, ⟨3, 0x40, bufferOf [3, 0x4B, 0]⟩]).1 =
      [Out.write ⟨[0xA4, 3, 0x42, 3, 0, 0, 0xE6], 7⟩,
       Out.write ⟨[0xA4, 3, 0x43, 3, 0xC6, 0x1F, 0x3E], 7⟩,
       Out.write ⟨[0xA4, 2, 0x44, 3, 0xFF, 0x1E], 6⟩,
       Out.write ⟨[0xA4, 2, 0x45, 3, 0x39, 0xD9], 6⟩,
       Out.write ⟨[0xA4, 3, 0x49, 3, 0x53, 0, 0xBE], 7⟩,
       Out.write ⟨[0xA4, 5, 0x51, 3, 0, 0, 0x7C, 0, 0x8F], 9⟩,
       Out.write ⟨[0xA4, 1, 0x4B, 3, 0xED], 5⟩,
       Out.write ⟨[0xA4, 2, 0x4D, 3, 0x52, 0xBA], 6⟩,
       Out.write ⟨[0xA4, 2, 0x4D, 3, 0x54, 0xBC], 6⟩,
       Out.write ⟨[0xA4, 2, 0x4D, 3, 0x3E, 0xD6], 6⟩] := by
  constructor
  · obtain ⟨cfg, s1, -, ⟨-, htt, hct, hnn, hdn, hst, hsw⟩, q, -, -, -, -, -, hrun⟩ :=
      bringup_sequence antDefs noFloatOps antDefs_wf (zeroState 6) rfl 0 0 (by decide)
        [⟨0, 0x40, bufferOf [0, 0x46, 0]⟩, ⟨0, 0x40, bufferOf [0, 0x42, 0]⟩,
         ⟨0, 0x40, bufferOf [0, 0x43, 0]⟩, ⟨0, 0x40, bufferOf [0, 0x44, 0]⟩,
         ⟨0, 0x40, bufferOf [0, 0x45, 0]⟩, ⟨0, 0x40, bufferOf [0, 0x49, 0]⟩,
         ⟨0, 0x40, bufferOf [0, 0x51, 0]⟩, ⟨0, 0x40, bufferOf [0, 0x4B, 0]⟩]
        (.cons ⟨rfl, rfl, rfl⟩ (.cons ⟨rfl, rfl, rfl⟩ (.cons ⟨rfl, rfl, rfl⟩
        (.cons ⟨rfl, rfl, rfl⟩ (.cons ⟨rfl, rfl, rfl⟩ (.cons ⟨rfl, rfl, rfl⟩
        (.cons ⟨rfl, rfl, rfl⟩ (.cons ⟨rfl, rfl, rfl⟩ .nil))))))))
    obtain ⟨d1, d2, d3⟩ := q rfl
    rw [hrun]
    simp only [htt, hct, hnn, hdn, hst, hsw, d1, d2, d3]
    decide
  · obtain ⟨cfg, s1, -, ⟨-, htt, hct, hnn, hdn, hst, hsw⟩, -, -, -, q, -, -, hrun⟩ :=
      bringup_sequence antDefs noFloatOps antDefs_wf (zeroState 6) rfl 0 3 (by decide)
        [⟨3, 0x40, bufferOf [3, 0x46, 0]⟩, ⟨3, 0x40, bufferOf [3, 0x42, 0]⟩,
         ⟨3, 0x40, bufferOf [3, 0x43, 0]⟩, ⟨3, 0x40, bufferOf [3, 0x44, 0]⟩,
         ⟨3, 0x40, bufferOf [3, 0x45, 0]⟩, ⟨3, 0x40, bufferOf [3, 0x49, 0]⟩,
         ⟨3, 0x40, bufferOf [3, 0x51, 0]⟩, ⟨3, 0x40, bufferOf [3, 0x4B, 0]⟩]
        (.cons ⟨rfl, rfl, rfl⟩ (.cons ⟨rfl, rfl, rfl⟩ (.cons ⟨rfl, rfl, rfl⟩
        (.cons ⟨rfl, rfl, rfl⟩ (.cons ⟨rfl, rfl, rfl⟩ (.cons ⟨rfl, rfl, rfl⟩
        (.cons ⟨rfl, rfl, rfl⟩ (.cons ⟨rfl, rfl, rfl⟩ .nil))))))))
    obtain ⟨d1, d2, d3⟩ := q rfl
    rw [hrun]
    simp only [htt, hct, hnn, hdn, hst, hsw, d1, d2, d3]
    decide

/-- C26 (the code where the sample repeats): `payload_STRIDE` stores the previous stride
count, speed and cadence after each reading but never compares with them. For every stored
state, a page-0 payload emits one reading and stores its stride count as current and
previous count, and a page-1 payload emits one reading and stores its decoded speed and
cadence as current and previous values, also when these equal the stored previous ones; the
emitted readings and the current sample are the same for every stored previous sample. A
payload whose page is neither 0 nor 1 emits nothing and changes no state. On zeroed storage
a page-0 payload with stride count 0 and a page-1 payload decoding to speed 0 and cadence 0
each emit a reading. -/
theorem payload_STRIDE_not_edge_triggered (K : AntDefs) (stride : payload_STRIDE_t)
    (data : Buffer) :
    (data 1 = 0 → payload_STRIDE K stride data =
      (⟨{ stride.current with strides := data 7 % 256 },
        { stride.previous with strides := data 7 % 256 }⟩,
        [Out.sendMessage K.ANTP_MSG_PROFILE_DATA K.PROFILE_STRIDE])) ∧
    (data 1 = 1 → payload_STRIDE K stride data =
      (⟨{ stride.current with
            speed := ((data 4 &&& 0x0f) + data 5 / 256) % 65536
            cadence := (data 3 + (data 4 <<< 4) / 16) % 65536 },
        { stride.previous with
            speed := ((data 4 &&& 0x0f) + data 5 / 256) % 65536
            cadence := (data 3 + (data 4 <<< 4) / 16) % 65536 }⟩,
        [Out.sendMessage K.ANTP_MSG_PROFILE_DATA K.PROFILE_STRIDE])) ∧
    (data 1 = 0 → data 7 % 256 = stride.previous.strides →
      (payload_STRIDE K stride data).2 =
        [Out.sendMessage K.ANTP_MSG_PROFILE_DATA K.PROFILE_STRIDE]) ∧
    (data 1 = 1 → ((data 4 &&& 0x0f) + data 5 / 256) % 65536 = stride.previous.speed →
      (data 3 + (data 4 <<< 4) / 16) % 65536 = stride.previous.cadence →
      (payload_STRIDE K stride data).2 =
        [Out.sendMessage K.ANTP_MSG_PROFILE_DATA K.PROFILE_STRIDE]) ∧
    (∀ prev : STRIDESample,
      (payload_STRIDE K ⟨stride.current, prev⟩ data).2 = (payload_STRIDE K stride data).2 ∧
      (payload_STRIDE K ⟨stride.current, prev⟩ data).1.current =
        (payload_STRIDE K stride data).1.current) ∧
    (data 1 ≠ 0 → data 1 ≠ 1 → payload_STRIDE K stride data = (stride, [])) ∧
    payload_STRIDE antDefs ⟨⟨0, 0, 0⟩, ⟨0, 0, 0⟩⟩ (bufferOf [0, 0, 0, 0, 0, 0, 0, 0, 0]) =
      (⟨⟨0, 0, 0⟩, ⟨0, 0, 0⟩⟩, [Out.sendMessage antDefs.ANTP_MSG_PROFILE_DATA
        antDefs.PROFILE_STRIDE]) ∧
    payload_STRIDE antDefs ⟨⟨0, 0, 0⟩, ⟨0, 0, 0⟩⟩ (bufferOf [0, 1, 0, 0, 0, 0, 0, 0, 0]) =
      (⟨⟨0, 0, 0⟩, ⟨0, 0, 0⟩⟩, [Out.sendMessage antDefs.ANTP_MSG_PROFILE_DATA
        antDefs.PROFILE_STRIDE]) := by
  have h0 : data 1 = 0 → payload_STRIDE K stride data =
      (⟨{ stride.current with strides := data 7 % 256 },
        { stride.previous with strides := data 7 % 256 }⟩,
        [Out.sendMessage K.ANTP_MSG_PROFILE_DATA K.PROFILE_STRIDE]) := by
    intro h
    unfold payload_STRIDE
    simp only [h, if_true]
  have h1 : data 1 = 1 → payload_STRIDE K stride data =
      (⟨{ stride.current with
            speed := ((data 4 &&& 0x0f) + data 5 / 256) % 65536
            cadence := (data 3 + (data 4 <<< 4) / 16) % 65536 },
        { stride.previous with
            speed := ((data 4 &&& 0x0f) + data 5 / 256) % 65536
            cadence := (data 3 + (data 4 <<< 4) / 16) % 65536 }⟩,
        [Out.sendMessage K.ANTP_MSG_PROFILE_DATA K.PROFILE_STRIDE]) := by
    intro h
    unfold payload_STRIDE
    simp only [h, if_true, one_ne_zero, if_false]
  refine ⟨h0, h1, fun h _ => by rw [h0 h], fun h _ _ => by rw [h1 h], fun prev => ?_,
    fun n0 n1 => ?_, by decide, by decide⟩
  · unfold payload_STRIDE
    simp only
    split_ifs <;> exact ⟨rfl, rfl⟩
  · unfold payload_STRIDE
    simp only [n0, n1, if_false]

/-- C26 at stored previous stride count 9 and a page-0 payload with stride count 9, at
stored previous speed 3 and cadence 4 and a page-1 payload decoding to them, and at a page-2
payload. -/
theorem payload_STRIDE_not_edge_triggered_witness :
    (payload_STRIDE antDefs ⟨⟨1, 2, 9⟩, ⟨3, 1, 9⟩⟩
        (bufferOf [0, 0, 0, 0, 0, 0, 0, 9, 0])).2 = [Out.sendMessage 3 3] ∧
    (payload_STRIDE antDefs ⟨⟨3, 4, 9⟩, ⟨3, 4, 9⟩⟩
        (bufferOf [0, 1, 0, 1, 3, 0, 0, 0, 0])).2 = [Out.sendMessage 3 3] ∧
    payload_STRIDE antDefs ⟨⟨1, 2, 3⟩, ⟨3, 1, 2⟩⟩ (bufferOf [0, 2, 0, 0, 0, 0, 0, 9, 0]) =
      (⟨⟨1, 2, 3⟩, ⟨3, 1, 2⟩⟩, []) :=
  ⟨(payload_STRIDE_not_edge_triggered antDefs ⟨⟨1, 2, 9⟩, ⟨3, 1, 9⟩⟩
      (bufferOf [0, 0, 0, 0, 0, 0, 0, 9, 0])).2.2.1 (by decide) (by decide),
   (payload_STRIDE_not_edge_triggered antDefs ⟨⟨3, 4, 9⟩, ⟨3, 4, 9⟩⟩
      (bufferOf [0, 1, 0, 1, 3, 0, 0, 0, 0])).2.2.2.1 (by decide) (by decide) (by decide),
   (payload_STRIDE_not_edge_triggered antDefs ⟨⟨1, 2, 3⟩, ⟨3, 1, 2⟩⟩
      (bufferOf [0, 2, 0, 0, 0, 0, 0, 9, 0])).2.2.2.2.2.1 (by decide) (by decide)⟩

end AntPlus
